import Mathlib

/-!
# Scheduling and attendance engine: embedding and verified properties

Shallow embedding of `src/services/admin/batch.service.js`,
`src/services/admin/educatorAssignment.service.js` and
`src/services/admin/attendance.service.js`.

Modelling conventions.

* A Mongoose collection is a list of documents in enumeration order; `find` is
  `List.filter`, `findOne` is `List.find?`, `create` appends.
* `null` / `undefined` are `none`, except for the `schedule` key of a
  `createBatch` body, where the code treats the two differently
  (`ScheduleInput`).  Object ids are natural numbers.
* A `Date` is its epoch value in milliseconds (`Int`); only valid dates are
  represented, and they lie after the year 99 (for the years 0 to 99 the call
  `new Date(year, month, day)` of the session generator adds 1900 to the
  year).  The server's local zone is a fixed offset, taken as UTC, so a
  calendar day is 86 400 000 ms and there is no daylight-saving shift.
* JavaScript numbers are IEEE doubles.  Those that arise from `parseInt` and
  from `h * 60 + m` are `NaN`, an infinity or an integer-valued double
  (`JsNumber`); an integer beyond 53 significant bits is rounded to the nearest
  double, ties to even.
* A thrown error is an `Except.error`; whenever a service also writes to a
  collection the resulting collection is returned next to the result, so the
  effect of a failing call on the store is explicit.
* Fields that no modelled function reads are left out of the records.
-/

namespace Backend

/-! ## JavaScript primitives -/

/-- A number produced by the time parser: `NaN`, an infinity, or a finite
double.  Every finite value that arises is an integer; the two zeros are one
value here, since no operation of the code (`<`, `== null`, `Number.isNaN`)
tells them apart. -/
inductive JsNumber where
  | nan : JsNumber
  | int (v : Int) : JsNumber
  | inf (negative : Bool) : JsNumber
deriving DecidableEq

/-- The relational operator `<` on numbers: false as soon as one side is `NaN`. -/
def JsNumber.lt : JsNumber → JsNumber → Bool
  | JsNumber.int a, JsNumber.int b => decide (a < b)
  | JsNumber.inf true, JsNumber.int _ => true
  | JsNumber.inf true, JsNumber.inf false => true
  | JsNumber.int _, JsNumber.inf false => true
  | _, _ => false

/-- The binary exponent of a natural number of more than 53 bits: the least
`e`, searched upwards from the given one for at most `fuel` steps, with
`n < 2 ^ (53 + e)`. -/
def doubleExponent (n : Nat) : Nat → Nat → Nat
  | 0, e => e
  | fuel + 1, e => if n < 2 ^ (53 + e) then e else doubleExponent n fuel (e + 1)

/-- The Number value for a mathematical integer.  Below `2 ^ 53` in magnitude
it is the integer itself; otherwise the magnitude `q * 2 ^ e + r`, with `q` of
53 bits, is rounded to the nearest multiple of `2 ^ e`, ties to the even `q`,
and the result is an infinity once it reaches `2 ^ 1024`. -/
def toNumber (v : Int) : JsNumber :=
  let n := v.natAbs
  if n < 9007199254740992 then JsNumber.int v
  else
    let e := doubleExponent n 971 1
    let q := n / 2 ^ e
    let r := n % 2 ^ e
    let q2 := if 2 ^ (e - 1) < r ∨ (r = 2 ^ (e - 1) ∧ q % 2 = 1) then q + 1 else q
    if 971 < e ∨ (e = 971 ∧ q2 = 9007199254740992) then JsNumber.inf (decide (v < 0))
    else JsNumber.int (if v < 0 then -((q2 * 2 ^ e : Nat) : Int) else ((q2 * 2 ^ e : Nat) : Int))

/-- The product `x * 60`. -/
def JsNumber.times60 : JsNumber → JsNumber
  | JsNumber.nan => JsNumber.nan
  | JsNumber.int v => toNumber (v * 60)
  | JsNumber.inf s => JsNumber.inf s

/-- The sum `x + y`. -/
def JsNumber.add : JsNumber → JsNumber → JsNumber
  | JsNumber.int a, JsNumber.int b => toNumber (a + b)
  | JsNumber.inf s, JsNumber.int _ => JsNumber.inf s
  | JsNumber.int _, JsNumber.inf s => JsNumber.inf s
  | JsNumber.inf s, JsNumber.inf t => if s = t then JsNumber.inf s else JsNumber.nan
  | _, _ => JsNumber.nan

/-- The characters `parseInt` skips at the start of its argument
(ECMAScript `StrWhiteSpaceChar`: white space and line terminators). -/
def isStrWhiteSpaceChar (c : Char) : Bool :=
  decide (c.toNat ∈ [0x09, 0x0A, 0x0B, 0x0C, 0x0D, 0x20, 0xA0, 0x1680, 0x2028,
    0x2029, 0x202F, 0x205F, 0x3000, 0xFEFF])
    || (decide (0x2000 ≤ c.toNat) && decide (c.toNat ≤ 0x200A))

/-- Value of the longest prefix of decimal digits, `none` when that prefix is
empty.  The accumulator holds the value read so far. -/
def digitsValue : List Char → Option Int → Option Int
  | [], acc => acc
  | c :: cs, acc =>
    if c.isDigit then
      digitsValue cs (some (acc.getD 0 * 10 + ((c.toNat : Int) - 48)))
    else acc

/-- The call `parseInt(x, 10)`: skip leading white space, read an optional
sign, then the longest run of decimal digits; `NaN` when there is no digit,
otherwise the Number value of the signed integer read (the standard lets an
engine zero the digits after the twentieth; the engine of Node.js rounds the
exact value, as here). -/
def parseInt10 (x : List Char) : JsNumber :=
  let t := x.dropWhile isStrWhiteSpaceChar
  let signed : Bool × List Char :=
    match t with
    | '-' :: r => (true, r)
    | '+' :: r => (false, r)
    | r => (false, r)
  match digitsValue signed.2 none with
  | none => JsNumber.nan
  | some v => toNumber (if signed.1 then -v else v)

/-- The call `str.split(":")` on the characters of a string. -/
def splitColon : List Char → List (List Char)
  | [] => [[]]
  | c :: cs =>
    if c = ':' then [] :: splitColon cs
    else
      match splitColon cs with
      | [] => [[c]]
      | s :: ss => (c :: s) :: ss

/-! ## Interval arithmetic (`batch.service.js`, lines 6-37) -/

/-- `timeToMinutes(str)`.  The argument is `none` for `null`, `undefined` or a
value that is not a string.  `[h, m]` are the first two fields of the split;
with a single field `m` is `undefined`, `Number.isNaN(undefined)` is false and
the sum `h * 60 + undefined` is `NaN`. -/
def timeToMinutes (str : Option String) : Option JsNumber :=
  match str with
  | none => none
  | some s =>
    if s.data = [] then none
    else
      match (splitColon s.data).map parseInt10 with
      | [] => some JsNumber.nan
      | [h] =>
        match h with
        | JsNumber.nan => none
        | _ => some JsNumber.nan
      | h :: m :: _ =>
        match h, m with
        | JsNumber.nan, _ => none
        | _, JsNumber.nan => none
        | _, _ => some (h.times60.add m)

/-- `dateRangesOverlap(aStart, aEnd, bStart, bEnd)` on epoch milliseconds. -/
def dateRangesOverlap (aStart aEnd bStart bEnd : Option Int) : Bool :=
  match aStart, bStart with
  | some startA, some startB =>
    let endA := match aEnd with
      | some e => e
      | none => startA
    let endB := match bEnd with
      | some e => e
      | none => startB
    decide (startA ≤ endB) && decide (startB ≤ endA)
  | _, _ => false

/-- `timeRangesOverlap(aStart, aEnd, bStart, bEnd)` on minute values. -/
def timeRangesOverlap (aStart aEnd bStart bEnd : Option JsNumber) : Bool :=
  match aStart, bStart with
  | some a, some b =>
    let ae := match aEnd with
      | some e => e
      | none => a
    let be := match bEnd with
      | some e => e
      | none => b
    a.lt be && b.lt ae
  | _, _ => false

/-! ## Documents -/

/-- Delivery mode: the enum of the `mode` field. -/
inductive Mode where
  | online : Mode
  | offline : Mode
  | hybrid : Mode
deriving DecidableEq

/-- The `schedule` object of a batch or of a request body.  Every key may be
missing. -/
structure Schedule where
  daysOfWeek : Option (List String)
  startTime : Option String
  endTime : Option String
  timeZone : Option String
deriving DecidableEq

/-- A document of the `Batch` collection. -/
structure Batch where
  _id : Nat
  name : String
  code : Option String
  courseId : Nat
  educatorId : Option Nat
  subOrgId : Option Nat
  mode : Mode
  startDate : Option Int
  endDate : Option Int
  capacity : Int
  enrollmentCount : Int
  status : String
  schedule : Option Schedule
  createdBy : Option Nat
  createdAt : Int
  updatedAt : Int
deriving DecidableEq

/-- A document of the `OrgUser` collection. -/
structure OrgUser where
  _id : Nat
  role : String
  status : String
  verificationStatus : Option String
  subOrgId : Option Nat
deriving DecidableEq

/-- A document of the `EducatorAvailability` collection (the three schedule
fields are required by the schema). -/
structure EducatorAvailability where
  educatorId : Nat
  daysOfWeek : List String
  startTime : String
  endTime : String
  active : Bool
deriving DecidableEq

/-- A thrown error: one carrying a `statusCode`, a bare `Error`, or the
`TypeError` raised by reading a property of `undefined`. -/
inductive ServiceError where
  | http (statusCode : Nat) (message : String) : ServiceError
  | plain (message : String) : ServiceError
  | typeError : ServiceError
deriving DecidableEq

/-! ## Conflict detector (`batch.service.js`, lines 39-85) -/

/-- The statuses selected by the conflict query. -/
def activeStatuses : List String := ["draft", "published", "ongoing"]

/-- The filter of the `Batch.find` in `hasScheduleConflict`: same educator,
`_id` different from the excluded one (every `_id` when none is excluded),
status draft, published or ongoing, and a weekday array holding one of `days`. -/
def conflictQuery (educatorId : Nat) (batchIdToExclude : Option Nat)
    (days : List String) (b : Batch) : Bool :=
  decide (b.educatorId = some educatorId)
    && (match batchIdToExclude with
        | some x => decide (b._id ≠ x)
        | none => true)
    && activeStatuses.contains b.status
    && (match b.schedule with
        | some s =>
          match s.daysOfWeek with
          | some ds => ds.any (fun d => days.contains d)
          | none => false
        | none => false)

/-- The test applied to each fetched batch inside the loop. -/
def conflictsWith (schedule : Schedule) (startDate endDate : Option Int)
    (b : Batch) : Bool :=
  dateRangesOverlap startDate endDate b.startDate b.endDate
    && (match b.schedule with
        | some bs =>
          timeRangesOverlap (timeToMinutes schedule.startTime)
            (timeToMinutes schedule.endTime)
            (timeToMinutes bs.startTime) (timeToMinutes bs.endTime)
        | none => false)

/-- `hasScheduleConflict({ Batch, educatorId, newBatch })` where `newBatch`
is `{ schedule, startDate, endDate, _id }`. -/
def hasScheduleConflict (batches : List Batch) (educatorId : Nat)
    (schedule : Option Schedule) (startDate endDate : Option Int)
    (batchIdToExclude : Option Nat) : Bool :=
  match schedule with
  | none => false
  | some sch =>
    match sch.daysOfWeek with
    | none => false
    | some [] => false
    | some days =>
      let existing := batches.filter (conflictQuery educatorId batchIdToExclude days)
      existing.any (conflictsWith sch startDate endDate)

/-! ## Educator resolver (`batch.service.js`, lines 87-141) -/

/-- The filter of the `OrgUser.find` in `pickEducatorForBatch`. -/
def educatorQuery (subOrgId : Option Nat) (u : OrgUser) : Bool :=
  decide (u.role = "educator") && decide (u.status = "active")
    && decide (u.verificationStatus = some "approved")
    && (match subOrgId with
        | some s => decide (u.subOrgId = some s)
        | none => true)

/-- The callback of `availability.some(...)` for one window.  The inner
`a.daysOfWeek.some` calls `schedule.daysOfWeek.includes` on its first element,
which throws when the schedule is `null` (`none`) or has no `daysOfWeek`. -/
def windowMatches (schedule : Option Schedule) (a : EducatorAvailability) :
    Except ServiceError Bool :=
  match a.daysOfWeek with
  | [] => Except.ok false
  | _ :: _ =>
    match schedule with
    | none => Except.error ServiceError.typeError
    | some sch =>
      match sch.daysOfWeek with
      | none => Except.error ServiceError.typeError
      | some ds =>
        Except.ok (a.daysOfWeek.any (fun d => ds.contains d)
          && timeRangesOverlap (timeToMinutes (some a.startTime))
              (timeToMinutes (some a.endTime))
              (timeToMinutes sch.startTime) (timeToMinutes sch.endTime))

/-- The call `availability.some(...)`: windows are tried in order until one
matches. -/
def someWindowMatches (schedule : Option Schedule) :
    List EducatorAvailability → Except ServiceError Bool
  | [] => Except.ok false
  | a :: rest =>
    match windowMatches schedule a with
    | Except.error e => Except.error e
    | Except.ok true => Except.ok true
    | Except.ok false => someWindowMatches schedule rest

/-- The loop `for (const edu of educators)` of `pickEducatorForBatch`.
`availabilityModel` is the `EducatorAvailability` handle the caller passed,
`none` when the caller passed none (reading `.find` of `undefined` throws). -/
def pickLoop (batches : List Batch)
    (availabilityModel : Option (List EducatorAvailability))
    (schedule : Option Schedule) (startDate endDate : Option Int) :
    List OrgUser → Except ServiceError OrgUser
  | [] => Except.error (ServiceError.plain "No available educator found for this schedule")
  | edu :: rest =>
    match availabilityModel with
    | none => Except.error ServiceError.typeError
    | some coll =>
      let availability := coll.filter
        (fun a => decide (a.educatorId = edu._id) && decide (a.active = true))
      if availability.length = 0 then
        pickLoop batches availabilityModel schedule startDate endDate rest
      else
        match someWindowMatches schedule availability with
        | Except.error e => Except.error e
        | Except.ok false =>
          pickLoop batches availabilityModel schedule startDate endDate rest
        | Except.ok true =>
          if hasScheduleConflict batches edu._id schedule startDate endDate none then
            pickLoop batches availabilityModel schedule startDate endDate rest
          else Except.ok edu

/-- `pickEducatorForBatch({ OrgUser, Batch, EducatorAvailability, subOrgId,
schedule, startDate, endDate })`; the schedule is `none` when the caller
passes `null`. -/
def pickEducatorForBatch (users : List OrgUser) (batches : List Batch)
    (availabilityModel : Option (List EducatorAvailability))
    (subOrgId : Option Nat) (schedule : Option Schedule)
    (startDate endDate : Option Int) : Except ServiceError OrgUser :=
  let educators := users.filter (educatorQuery subOrgId)
  pickLoop batches availabilityModel schedule startDate endDate educators

/-! ## Batch creation and update (`batch.service.js`, lines 143-152, 334-633) -/

/-- The authenticated caller (`currentUser`). -/
structure CurrentUser where
  userId : Option Nat
  role : String
  subOrgId : Option Nat
deriving DecidableEq

/-- `assertCanManageBatch(currentUser)`: the caller when allowed. -/
def assertCanManageBatch (currentUser : Option CurrentUser) :
    Except ServiceError CurrentUser :=
  match currentUser with
  | none => Except.error (ServiceError.http 403 "Forbidden: not allowed to manage batches")
  | some u =>
    if ["admin", "subOrgAdmin", "educator"].contains u.role then Except.ok u
    else Except.error (ServiceError.http 403 "Forbidden: not allowed to manage batches")

/-- The `schedule` key of a `createBatch` body: missing, an explicit `null`,
or an object (a value that is neither, such as a string, has none of the four
keys and behaves as the empty object). -/
inductive ScheduleInput where
  | missing : ScheduleInput
  | null : ScheduleInput
  | object (s : Schedule) : ScheduleInput
deriving DecidableEq

/-- The request body of `createBatch`; a missing key is `none`.  Dates are the
instants the submitted values denote.  For `mode`, `capacity` and `status`,
whose defaults replace a missing key only, an explicit `null` is not
represented. -/
structure CreateBatchData where
  name : Option String
  code : Option String
  courseId : Option Nat
  educatorId : Option Nat
  subOrgId : Option Nat
  mode : Option Mode
  startDate : Option Int
  endDate : Option Int
  capacity : Option Int
  schedule : ScheduleInput
  status : Option String
deriving DecidableEq

/-- What the runtime supplies to a write: the `_id` given to a new document and
the reading of the clock. -/
structure WriteEnv where
  newId : Nat
  now : Int
deriving DecidableEq

/-- JavaScript `x || y` on optional strings: the empty string is falsy. -/
def strOr (x : Option String) (y : Option String) : Option String :=
  match x with
  | none => y
  | some s => if s.data = [] then y else some s

/-- The `OrgUser.findOne` of `createBatch` and `updateBatch`: the educator with
that `_id` who is active and approved. -/
def findApprovedEducator (users : List OrgUser) (educatorId : Nat) : Option OrgUser :=
  users.find? (fun u => decide (u._id = educatorId) && decide (u.role = "educator")
    && decide (u.status = "active") && decide (u.verificationStatus = some "approved"))

/-- The sub-organization test on an explicit educator: true when a
`subOrgAdmin` caller with a sub-organization names an educator of another
one. -/
def educatorOutOfScope (currentUser : CurrentUser) (educator : OrgUser) : Bool :=
  decide (currentUser.role = "subOrgAdmin") && currentUser.subOrgId.isSome
    && educator.subOrgId.isSome && decide (educator.subOrgId ≠ currentUser.subOrgId)

/-- The values `createBatch` holds once its checks on the caller and on the
required fields have passed (lines 343-376).  `schedule` is the destructured
variable: the default `{}` replaces a missing key only, so an explicit `null`
stays `null` (`none`). -/
structure CreateRequest where
  caller : CurrentUser
  name : String
  courseId : Nat
  startDate : Int
  endDate : Int
  subOrgId : Option Nat
  schedule : Option Schedule
deriving DecidableEq

/-- The destructuring `schedule = {}` of line 361. -/
def destructureSchedule : ScheduleInput → Option Schedule
  | ScheduleInput.missing => some ⟨none, none, none, none⟩
  | ScheduleInput.null => none
  | ScheduleInput.object s => some s

/-- First stage of `createBatch` (lines 343-376): the caller may manage
batches, is an admin or subOrgAdmin, `name`, `courseId`, `startDate` and
`endDate` are present; a missing `schedule` defaults to the empty object and a
`subOrgAdmin` is forced into their own sub-organization. -/
def createBatchValidate (currentUser : Option CurrentUser) (data : CreateBatchData) :
    Except ServiceError CreateRequest :=
  match assertCanManageBatch currentUser with
  | Except.error e => Except.error e
  | Except.ok cu =>
    if !(["admin", "subOrgAdmin"].contains cu.role) then
      Except.error (ServiceError.http 403 "Only admin or subOrgAdmin can create batches")
    else
      match strOr data.name none, data.courseId, data.startDate, data.endDate with
      | some name, some courseId, some startDate, some endDate =>
        Except.ok
          { caller := cu
            name := name
            courseId := courseId
            startDate := startDate
            endDate := endDate
            subOrgId :=
              if cu.role = "subOrgAdmin" then
                (match cu.subOrgId with
                 | some s => some s
                 | none => data.subOrgId)
              else data.subOrgId
            schedule := destructureSchedule data.schedule }
      | _, _, _, _ =>
        Except.error (ServiceError.http 400 "name, courseId, startDate, endDate are required")

/-- Second stage of `createBatch` (lines 378-441): validate the explicit
educator, or pick one.  The call to `pickEducatorForBatch` passes `OrgUser`,
`Batch`, `subOrgId`, `courseId`, `schedule`, `startDate` and `endDate`, and no
`EducatorAvailability`. -/
def createBatchResolve (batches : List Batch) (users : List OrgUser) (req : CreateRequest)
    (inputEducatorId : Option Nat) : Except ServiceError Nat :=
  match inputEducatorId with
  | some educatorId =>
    match findApprovedEducator users educatorId with
    | none => Except.error (ServiceError.http 400
        "Educator not found, inactive, or not verified for this tenant")
    | some educator =>
      if educatorOutOfScope req.caller educator then
        Except.error (ServiceError.http 403 "Educator not in your sub-organization")
      else if hasScheduleConflict batches educator._id req.schedule
          (some req.startDate) (some req.endDate) none then
        Except.error (ServiceError.http 400
          "Educator already has a conflicting batch for this schedule")
      else Except.ok educatorId
  | none =>
    match pickEducatorForBatch users batches none req.subOrgId req.schedule
        (some req.startDate) (some req.endDate) with
    | Except.error e => Except.error e
    | Except.ok autoEducator => Except.ok autoEducator._id

/-- The document handed to `Batch.create` (lines 443-463), built from the
schedule object `sch`. -/
def newBatchDocument (env : WriteEnv) (req : CreateRequest) (data : CreateBatchData)
    (educatorId : Nat) (sch : Schedule) : Batch :=
  { _id := env.newId
    name := req.name
    code := data.code
    courseId := req.courseId
    educatorId := some educatorId
    subOrgId := req.subOrgId
    mode := data.mode.getD Mode.online
    startDate := some req.startDate
    endDate := some req.endDate
    capacity := data.capacity.getD 0
    enrollmentCount := 0
    status := data.status.getD "draft"
    schedule := some
      { daysOfWeek := some (sch.daysOfWeek.getD [])
        startTime := strOr sch.startTime none
        endTime := strOr sch.endTime none
        timeZone := strOr sch.timeZone (some "Asia/Kolkata") }
    createdBy := req.caller.userId
    createdAt := env.now
    updatedAt := env.now }

/-- `createBatch({ Batch, OrgUser, currentUser, data })`.  The result pairs the
outcome with the `Batch` collection after the call.  With `schedule: null`
the argument of `Batch.create` cannot be built: reading `schedule.daysOfWeek`
at line 455 throws and nothing is stored. -/
def createBatch (env : WriteEnv) (batches : List Batch) (users : List OrgUser)
    (currentUser : Option CurrentUser) (data : CreateBatchData) :
    Except ServiceError Batch × List Batch :=
  match createBatchValidate currentUser data with
  | Except.error e => (Except.error e, batches)
  | Except.ok req =>
    match createBatchResolve batches users req data.educatorId with
    | Except.error e => (Except.error e, batches)
    | Except.ok educatorId =>
      match req.schedule with
      | none => (Except.error ServiceError.typeError, batches)
      | some sch =>
        let batch := newBatchDocument env req data educatorId sch
        (Except.ok batch, batches ++ [batch])

/-- The `schedule` key of an update body.  For each key the outer `none` means
the key is missing from the body and `some v` that it is present with value
`v` (`some none` is an explicit `null`). -/
structure SchedulePatch where
  daysOfWeek : Option (Option (List String))
  startTime : Option (Option String)
  endTime : Option (Option String)
  timeZone : Option (Option String)
deriving DecidableEq

/-- The object spread of the stored schedule and the submitted one: keys of the
submitted schedule win. -/
def mergeSchedule (old : Option Schedule) (p : SchedulePatch) : Schedule :=
  let o := old.getD ⟨none, none, none, none⟩
  { daysOfWeek := p.daysOfWeek.getD o.daysOfWeek
    startTime := p.startTime.getD o.startTime
    endTime := p.endTime.getD o.endTime
    timeZone := p.timeZone.getD o.timeZone }

/-- The request body of `updateBatch`; a missing (or `null`) key is `none`. -/
structure UpdateBatchData where
  educatorId : Option Nat
  schedule : Option SchedulePatch
  mode : Option Mode
  startDate : Option Int
  endDate : Option Int
  name : Option String
  code : Option String
  capacity : Option Int
  subOrgId : Option Nat
deriving DecidableEq

/-- The sub-organization test on the batch: true when a `subOrgAdmin` caller
with a sub-organization addresses a batch of another one. -/
def batchOutOfScope (currentUser : CurrentUser) (batch : Batch) : Bool :=
  decide (currentUser.role = "subOrgAdmin") && currentUser.subOrgId.isSome
    && batch.subOrgId.isSome && decide (batch.subOrgId ≠ currentUser.subOrgId)

/-- The in-memory batch of `updateBatch` after the plain field assignments
(name, code, capacity, mode, dates: lines 536-542). -/
def applyFieldUpdates (batch : Batch) (data : UpdateBatchData) : Batch :=
  { batch with
    name := data.name.getD batch.name
    code := (match data.code with
      | some c => some c
      | none => batch.code)
    capacity := data.capacity.getD batch.capacity
    mode := data.mode.getD batch.mode
    startDate := (match data.startDate with
      | some d => some d
      | none => batch.startDate)
    endDate := (match data.endDate with
      | some d => some d
      | none => batch.endDate) }

/-- The in-memory batch after the schedule merge (lines 557-563). -/
def applyScheduleUpdate (batch : Batch) (data : UpdateBatchData) : Batch :=
  match data.schedule with
  | some p => { batch with schedule := some (mergeSchedule batch.schedule p) }
  | none => batch

/-- `batch.save()`: the stored document with that `_id` is replaced. -/
def saveBatch (batches : List Batch) (batch : Batch) : List Batch :=
  batches.map (fun b => if b._id = batch._id then batch else b)

/-- First stage of `updateBatch` (lines 496-563): access checks, then the
in-memory batch after the field assignments, the sub-organization move and
the schedule merge. -/
def updateBatchPrepare (batches : List Batch) (currentUser : Option CurrentUser)
    (batchId : Nat) (data : UpdateBatchData) : Except ServiceError (CurrentUser × Batch) :=
  match assertCanManageBatch currentUser with
  | Except.error e => Except.error e
  | Except.ok cu =>
    match batches.find? (fun b => decide (b._id = batchId)) with
    | none => Except.error (ServiceError.http 404 "Batch not found")
    | some stored =>
      if batchOutOfScope cu stored then
        Except.error (ServiceError.http 403 "Forbidden: batch outside your sub-organization")
      else if decide (cu.role = "educator") && decide (stored.educatorId ≠ cu.userId) then
        Except.error (ServiceError.http 403 "Forbidden: batch not assigned to you")
      else
        let b1 := applyFieldUpdates stored data
        if decide (cu.role = "subOrgAdmin") && cu.subOrgId.isSome && data.subOrgId.isSome then
          if data.subOrgId ≠ cu.subOrgId then
            Except.error (ServiceError.http 403
              "SubOrgAdmin cannot move batch to another sub-organization")
          else Except.ok (cu, applyScheduleUpdate b1 data)
        else
          match data.subOrgId with
          | some s => Except.ok (cu, applyScheduleUpdate { b1 with subOrgId := some s } data)
          | none => Except.ok (cu, applyScheduleUpdate b1 data)

/-- Second stage of `updateBatch` (lines 565-610): a new educator, when one is
named, is validated and checked for a conflict with the in-memory batch. -/
def updateBatchAssign (batches : List Batch) (users : List OrgUser) (cu : CurrentUser)
    (batch : Batch) (newEducatorId : Option Nat) : Except ServiceError Batch :=
  match newEducatorId with
  | none => Except.ok batch
  | some educatorId =>
    match findApprovedEducator users educatorId with
    | none => Except.error (ServiceError.http 400
        "Educator not found, inactive, or not verified")
    | some educator =>
      if educatorOutOfScope cu educator then
        Except.error (ServiceError.http 403 "Educator not in your sub-organization")
      else if hasScheduleConflict batches educator._id batch.schedule
          batch.startDate batch.endDate (some batch._id) then
        Except.error (ServiceError.http 400
          "Educator already has a conflicting batch for this updated schedule")
      else Except.ok { batch with educatorId := some educator._id }

/-- `updateBatch({ Batch, OrgUser, currentUser, batchId, data })`.  The result
pairs the outcome with the `Batch` collection after the call. -/
def updateBatch (env : WriteEnv) (batches : List Batch) (users : List OrgUser)
    (currentUser : Option CurrentUser) (batchId : Nat) (data : UpdateBatchData) :
    Except ServiceError Batch × List Batch :=
  match updateBatchPrepare batches currentUser batchId data with
  | Except.error e => (Except.error e, batches)
  | Except.ok (cu, batch) =>
    match updateBatchAssign batches users cu batch data.educatorId with
    | Except.error e => (Except.error e, batches)
    | Except.ok assigned =>
      let saved := { assigned with updatedAt := env.now }
      (Except.ok saved, saveBatch batches saved)

/-! ## Session generator (`attendance.service.js`, lines 4-80) -/

/-- A document of the `AttendanceSession` collection. -/
structure AttendanceSession where
  _id : Nat
  batchId : Nat
  date : Int
  mode : Mode
  startTime : Option String
  endTime : Option String
  timeZone : String
  qrCodeToken : Option String
  qrEnabled : Bool
  autoOnline : Bool
  status : String
  createdBy : Option Nat
  createdAt : Int
  updatedAt : Int
deriving DecidableEq

/-- What the runtime supplies while sessions are generated, as a function of
the loop variable `d`: the `_id` given to the document built at `d`, the
reading of the clock, and the result of
`crypto.randomBytes(24).toString("hex")`. -/
structure GenEnv where
  newId : Int → Nat
  now : Int → Int
  randomHex : Int → String

/-- Milliseconds in a day. -/
def msPerDay : Int := 86400000

/-- `d.getDay()`: 0 for Sunday up to 6 for Saturday (1 January 1970 was a
Thursday). -/
def getDay (d : Int) : Int := (d / msPerDay + 4) % 7

/-- The table `mapDay`. -/
def mapDay (n : Int) : String :=
  if n = 0 then "Sun"
  else if n = 1 then "Mon"
  else if n = 2 then "Tue"
  else if n = 3 then "Wed"
  else if n = 4 then "Thu"
  else if n = 5 then "Fri"
  else "Sat"

/-- `new Date(d.getFullYear(), d.getMonth(), d.getDate())`: midnight of the day
of `d`. -/
def sessionDate (d : Int) : Int := d - d % msPerDay

/-- The `payload` built for the loop variable `d`, completed with the schema
defaults (`status`) and the generated `_id`. -/
def sessionPayload (env : GenEnv) (batch : Batch) (sch : Schedule)
    (createdBy : Option Nat) (d : Int) : AttendanceSession :=
  { _id := env.newId d
    batchId := batch._id
    date := sessionDate d
    mode := batch.mode
    startTime := strOr sch.startTime none
    endTime := strOr sch.endTime none
    timeZone := (strOr sch.timeZone (some "Asia/Kolkata")).getD "Asia/Kolkata"
    qrCodeToken := if batch.mode ≠ Mode.online then some (env.randomHex d) else none
    qrEnabled := decide (batch.mode ≠ Mode.online)
    autoOnline := decide (batch.mode = Mode.online)
    status := "scheduled"
    createdBy := createdBy
    createdAt := env.now d
    updatedAt := env.now d }

/-- The unique index `{ batchId, date, startTime }`: two documents collide when
they agree on the three fields. -/
def sameSessionKey (a b : AttendanceSession) : Bool :=
  decide (a.batchId = b.batchId) && decide (a.date = b.date)
    && decide (a.startTime = b.startTime)

/-- `AttendanceSession.create(payload)`: `none` stands for the duplicate-key
error (code 11000) raised when the unique index already holds the key. -/
def createSession (sessions : List AttendanceSession) (payload : AttendanceSession) :
    Option (List AttendanceSession) :=
  if sessions.any (fun s => sameSessionKey s payload) then none
  else some (sessions ++ [payload])

/-- The loop `for (let d = new Date(start); d <= end; d.setDate(d.getDate() + 1))`
run for at most `fuel` passes; it returns `created` and the collection. -/
def generateLoop (env : GenEnv) (batch : Batch) (sch : Schedule) (daysOfWeek : List String)
    (createdBy : Option Nat) (endDate : Int) :
    Nat → Int → List AttendanceSession → Nat → Nat × List AttendanceSession
  | 0, _, sessions, created => (created, sessions)
  | fuel + 1, d, sessions, created =>
    if d ≤ endDate then
      if !(daysOfWeek.contains (mapDay (getDay d))) then
        generateLoop env batch sch daysOfWeek createdBy endDate fuel (d + msPerDay)
          sessions created
      else
        match createSession sessions (sessionPayload env batch sch createdBy d) with
        | some sessions2 =>
          generateLoop env batch sch daysOfWeek createdBy endDate fuel (d + msPerDay)
            sessions2 (created + 1)
        | none =>
          generateLoop env batch sch daysOfWeek createdBy endDate fuel (d + msPerDay)
            sessions created
    else (created, sessions)

/-- Number of passes of the loop from `start` to `endDate`. -/
def loopPasses (start endDate : Int) : Nat := ((endDate - start) / msPerDay + 1).toNat

/-- `generateSessionsForBatch({ AttendanceSession, batch, regenerate, createdBy })`:
the count `created` and the `AttendanceSession` collection after the call. -/
def generateSessionsForBatch (env : GenEnv) (sessions : List AttendanceSession)
    (batch : Batch) (regenerate : Bool) (createdBy : Option Nat) :
    Nat × List AttendanceSession :=
  match batch.schedule, batch.startDate, batch.endDate with
  | some sch, some start, some endDate =>
    match sch.daysOfWeek with
    | none => (0, sessions)
    | some daysOfWeek =>
      let kept :=
        if regenerate then sessions.filter (fun s => decide (s.batchId ≠ batch._id))
        else sessions
      generateLoop env batch sch daysOfWeek createdBy endDate (loopPasses start endDate)
        start kept 0
  | _, _, _ => (0, sessions)

/-! ## Sample data used in the statements -/

/-- A published weekly batch with the given identity, educator, weekdays, hours
and date range. -/
def weeklyBatch (id educator : Nat) (days : List String) (startTime endTime : String)
    (startDate endDate : Int) : Batch :=
  { _id := id
    name := "batch"
    code := none
    courseId := 1
    educatorId := some educator
    subOrgId := none
    mode := Mode.offline
    startDate := some startDate
    endDate := some endDate
    capacity := 0
    enrollmentCount := 0
    status := "published"
    schedule := some ⟨some days, some startTime, some endTime, some "Asia/Kolkata"⟩
    createdBy := none
    createdAt := 0
    updatedAt := 0 }

/-- A candidate schedule with the given weekdays and hours. -/
def weeklySchedule (days : List String) (startTime endTime : String) : Schedule :=
  ⟨some days, some startTime, some endTime, none⟩

/-- The value of `isAvailable` in `pickEducatorForBatch` for educator `edu`
when the candidate schedule lists the weekdays `ds`: one of the educator's
active windows shares a weekday with `ds` and its hours overlap the
candidate's. -/
def isAvailable (coll : List EducatorAvailability) (schedule : Schedule) (ds : List String)
    (edu : OrgUser) : Bool :=
  (coll.filter (fun a => decide (a.educatorId = edu._id) && decide (a.active = true))).any
    (fun a => a.daysOfWeek.any (fun d => ds.contains d)
      && timeRangesOverlap (timeToMinutes (some a.startTime)) (timeToMinutes (some a.endTime))
          (timeToMinutes schedule.startTime) (timeToMinutes schedule.endTime))

/-- An active, approved educator without sub-organization. -/
def approvedEducator (id : Nat) : OrgUser :=
  { _id := id
    role := "educator"
    status := "active"
    verificationStatus := some "approved"
    subOrgId := none }

/-- An active availability window. -/
def activeWindow (educator : Nat) (days : List String) (startTime endTime : String) :
    EducatorAvailability :=
  { educatorId := educator
    daysOfWeek := days
    startTime := startTime
    endTime := endTime
    active := true }

/-- The values taken by the loop variable `d` of `generateSessionsForBatch`:
`start`, then one day more on each pass, while `d <= end`. -/
def loopDates (start endDate : Int) : List Int :=
  (List.range (loopPasses start endDate)).map (fun (k : Nat) => start + (k : Int) * msPerDay)

/-- The values of the loop variable whose weekday code is in `daysOfWeek`. -/
def meetingInstants (daysOfWeek : List String) (start endDate : Int) : List Int :=
  (loopDates start endDate).filter (fun d => daysOfWeek.contains (mapDay (getDay d)))

/-- The dates of the sessions a collection holds for one batch, in order. -/
def sessionDatesOf (sessions : List AttendanceSession) (batchId : Nat) : List Int :=
  (sessions.filter (fun s => decide (s.batchId = batchId))).map (fun s => s.date)

/-! ## Attendance recorder (`attendance.service.js`, lines 150-296) -/

/-- A document of the `Enrollment` collection (the fields the recorder reads). -/
structure Enrollment where
  _id : Nat
  batchId : Nat
  learnerId : Nat
  status : String
deriving DecidableEq

/-- A document of the `AttendanceRecord` collection. -/
structure AttendanceRecord where
  _id : Nat
  sessionId : Nat
  batchId : Nat
  enrollmentId : Option Nat
  learnerId : Nat
  status : String
  source : String
  checkedInAt : Int
  createdAt : Int
  updatedAt : Int
deriving DecidableEq

/-- The object `update` handed to `findOneAndUpdate`. -/
structure RecordUpdate where
  sessionId : Nat
  batchId : Nat
  enrollmentId : Nat
  learnerId : Nat
  status : String
  source : String
  checkedInAt : Int
  updatedAt : Int
deriving DecidableEq

/-- What the runtime supplies to one call of the recorder: the reading `now`
of the clock, the later reading taken when the session is saved, and the
`_id` given to a record inserted for a learner. -/
structure AttendEnv where
  now : Int
  saveNow : Int
  newId : Nat → Nat

/-- The enrollment statuses selected by the recorder's queries. -/
def attendableStatuses : List String := ["pending", "confirmed", "completed"]

/-- The filter `{ sessionId, learnerId }`, which is also the unique index of
the collection. -/
def hasKey (sessionId learnerId : Nat) (r : AttendanceRecord) : Bool :=
  decide (r.sessionId = sessionId) && decide (r.learnerId = learnerId)

/-- Replace the first element that satisfies `p` by its image under `f`. -/
def updateFirst {α : Type} (p : α → Bool) (f : α → α) : List α → List α
  | [] => []
  | x :: xs => if p x then f x :: xs else x :: updateFirst p f xs

/-- The stored record after the fields of `update` are set on it. -/
def applyUpdate (u : RecordUpdate) (r : AttendanceRecord) : AttendanceRecord :=
  { r with
    sessionId := u.sessionId
    batchId := u.batchId
    enrollmentId := some u.enrollmentId
    learnerId := u.learnerId
    status := u.status
    source := u.source
    checkedInAt := u.checkedInAt
    updatedAt := u.updatedAt }

/-- The record inserted by an upsert that matched nothing. -/
def insertedRecord (env : AttendEnv) (u : RecordUpdate) : AttendanceRecord :=
  { _id := env.newId u.learnerId
    sessionId := u.sessionId
    batchId := u.batchId
    enrollmentId := some u.enrollmentId
    learnerId := u.learnerId
    status := u.status
    source := u.source
    checkedInAt := u.checkedInAt
    createdAt := env.now
    updatedAt := u.updatedAt }

/-- `AttendanceRecord.findOneAndUpdate({ sessionId, learnerId }, update,
{ upsert: true, new: true })`: the first matching record is updated, or a
record is inserted; the written record and the collection are returned. -/
def findOneAndUpdate (env : AttendEnv) (records : List AttendanceRecord) (u : RecordUpdate) :
    AttendanceRecord × List AttendanceRecord :=
  match records.find? (hasKey u.sessionId u.learnerId) with
  | some r =>
    (applyUpdate u r, updateFirst (hasKey u.sessionId u.learnerId) (applyUpdate u) records)
  | none => (insertedRecord env u, records ++ [insertedRecord env u])

/-- The `AttendanceSession.findOne` of `markAttendanceByQr`: the first session
with that token and `qrEnabled`. -/
def findSessionByToken (sessions : List AttendanceSession) (token : String) :
    Option AttendanceSession :=
  sessions.find? (fun s => decide (s.qrCodeToken = some token) && s.qrEnabled)

/-- The `Enrollment.findOne` of `markAttendanceByQr`. -/
def findEnrollment (enrollments : List Enrollment) (batchId learnerId : Nat) :
    Option Enrollment :=
  enrollments.find? (fun e => decide (e.batchId = batchId) && decide (e.learnerId = learnerId)
    && attendableStatuses.contains e.status)

/-- The `update` object of `markAttendanceByQr` (lines 193-202). -/
def qrUpdate (env : AttendEnv) (session : AttendanceSession) (enrollment : Enrollment)
    (learnerId : Nat) : RecordUpdate :=
  { sessionId := session._id
    batchId := session.batchId
    enrollmentId := enrollment._id
    learnerId := learnerId
    status := "present"
    source := "qr"
    checkedInAt := env.now
    updatedAt := env.now }

/-- `markAttendanceByQr({ AttendanceSession, AttendanceRecord, Enrollment,
currentUser, token })`: the outcome and the `AttendanceRecord` collection after
the call.  A caller without `userId` matches no enrollment. -/
def markAttendanceByQr (env : AttendEnv) (sessions : List AttendanceSession)
    (records : List AttendanceRecord) (enrollments : List Enrollment)
    (currentUser : Option CurrentUser) (token : String) :
    Except ServiceError AttendanceRecord × List AttendanceRecord :=
  match currentUser with
  | none => (Except.error (ServiceError.http 403 "Only learners can scan attendance QR"), records)
  | some cu =>
    if cu.role ≠ "learner" then
      (Except.error (ServiceError.http 403 "Only learners can scan attendance QR"), records)
    else
      match findSessionByToken sessions token with
      | none => (Except.error (ServiceError.http 400 "Invalid or expired QR code"), records)
      | some session =>
        match cu.userId with
        | none =>
          (Except.error (ServiceError.http 403 "You are not enrolled in this batch"), records)
        | some learnerId =>
          match findEnrollment enrollments session.batchId learnerId with
          | none =>
            (Except.error (ServiceError.http 403 "You are not enrolled in this batch"), records)
          | some enrollment =>
            let written := findOneAndUpdate env records
              (qrUpdate env session enrollment learnerId)
            (Except.ok written.1, written.2)

/-- The `update` object of `autoMarkOnlineSession` (lines 268-277). -/
def onlineUpdate (env : AttendEnv) (session : AttendanceSession) (enr : Enrollment) :
    RecordUpdate :=
  { sessionId := session._id
    batchId := session.batchId
    enrollmentId := enr._id
    learnerId := enr.learnerId
    status := "present"
    source := "online-auto"
    checkedInAt := env.now
    updatedAt := env.now }

/-- The value of `isPresent` for a learner: the set built from
`presentLearnerIds || []` is empty or holds the learner. -/
def isPresent (presentLearnerIds : Option (List Nat)) (learnerId : Nat) : Bool :=
  (presentLearnerIds.getD []).isEmpty || (presentLearnerIds.getD []).contains learnerId

/-- The loop `for (const enr of enrollments)` of `autoMarkOnlineSession`: it
returns `updatedCount` and the collection. -/
def markLoop (env : AttendEnv) (session : AttendanceSession)
    (presentLearnerIds : Option (List Nat)) :
    List Enrollment → List AttendanceRecord → Nat → Nat × List AttendanceRecord
  | [], records, updatedCount => (updatedCount, records)
  | enr :: rest, records, updatedCount =>
    if !(isPresent presentLearnerIds enr.learnerId) then
      markLoop env session presentLearnerIds rest records updatedCount
    else
      markLoop env session presentLearnerIds rest
        (findOneAndUpdate env records (onlineUpdate env session enr)).2 (updatedCount + 1)

/-- The `Enrollment.find` of `autoMarkOnlineSession`. -/
def attendableEnrollments (enrollments : List Enrollment) (batchId : Nat) : List Enrollment :=
  enrollments.filter (fun e => decide (e.batchId = batchId)
    && attendableStatuses.contains e.status)

/-- `session.save()` after the status is set to `closed`. -/
def closeSession (env : AttendEnv) (sessions : List AttendanceSession)
    (session : AttendanceSession) : List AttendanceSession :=
  sessions.map (fun s =>
    if s._id = session._id then { session with status := "closed", updatedAt := env.saveNow }
    else s)

/-- `autoMarkOnlineSession({ AttendanceSession, AttendanceRecord, Enrollment,
sessionId, presentLearnerIds })`: the outcome `updatedCount`, then the
`AttendanceSession` and the `AttendanceRecord` collections after the call. -/
def autoMarkOnlineSession (env : AttendEnv) (sessions : List AttendanceSession)
    (records : List AttendanceRecord) (enrollments : List Enrollment) (sessionId : Nat)
    (presentLearnerIds : Option (List Nat)) :
    Except ServiceError Nat × List AttendanceSession × List AttendanceRecord :=
  match sessions.find? (fun s => decide (s._id = sessionId)) with
  | none =>
    (Except.error (ServiceError.http 404 "Attendance session not found"), sessions, records)
  | some session =>
    if session.mode ≠ Mode.online then
      (Except.error (ServiceError.http 400 "Auto online attendance only for online sessions"),
        sessions, records)
    else
      let marked := markLoop env session presentLearnerIds
        (attendableEnrollments enrollments session.batchId) records 0
      (Except.ok marked.1, closeSession env sessions session, marked.2)

/-- One call of the recorder, with the collections it reads at that moment. -/
inductive AttendanceCall where
  | scan (env : AttendEnv) (sessions : List AttendanceSession)
      (enrollments : List Enrollment) (currentUser : Option CurrentUser) (token : String) :
      AttendanceCall
  | rollCall (env : AttendEnv) (sessions : List AttendanceSession)
      (enrollments : List Enrollment) (sessionId : Nat)
      (presentLearnerIds : Option (List Nat)) : AttendanceCall

/-- The `AttendanceRecord` collection after a call, or the error it raised. -/
def applyCall (records : List AttendanceRecord) :
    AttendanceCall → Except ServiceError (List AttendanceRecord)
  | AttendanceCall.scan env sessions enrollments currentUser token =>
    match markAttendanceByQr env sessions records enrollments currentUser token with
    | (Except.ok _, records2) => Except.ok records2
    | (Except.error e, _) => Except.error e
  | AttendanceCall.rollCall env sessions enrollments sessionId presentLearnerIds =>
    match autoMarkOnlineSession env sessions records enrollments sessionId presentLearnerIds with
    | (Except.ok _, _, records2) => Except.ok records2
    | (Except.error e, _, _) => Except.error e

/-- A sequence of calls, each of which succeeds: the collection at the end, or
the first error. -/
def runCalls : List AttendanceRecord → List AttendanceCall →
    Except ServiceError (List AttendanceRecord)
  | records, [] => Except.ok records
  | records, c :: cs =>
    match applyCall records c with
    | Except.ok records2 => runCalls records2 cs
    | Except.error e => Except.error e

/-- The `source` a call writes. -/
def sourceOf : AttendanceCall → String
  | AttendanceCall.scan _ _ _ _ _ => "qr"
  | AttendanceCall.rollCall _ _ _ _ _ => "online-auto"

/-- Whether a successful call upserts the pair `(sessionId, learnerId)`: a scan
writes the pair of the resolved session and the caller, a roll call the pairs
of its session and each attendable enrollment's learner counted present. -/
def writesPair (sessionId learnerId : Nat) : AttendanceCall → Bool
  | AttendanceCall.scan _ sessions _ currentUser token =>
    match findSessionByToken sessions token, currentUser with
    | some session, some cu =>
      decide (session._id = sessionId) && decide (cu.userId = some learnerId)
    | _, _ => false
  | AttendanceCall.rollCall _ sessions enrollments sid presentLearnerIds =>
    match sessions.find? (fun s => decide (s._id = sid)) with
    | some session =>
      decide (session._id = sessionId)
        && (attendableEnrollments enrollments session.batchId).any
            (fun e => decide (e.learnerId = learnerId)
              && isPresent presentLearnerIds e.learnerId)
    | none => false

/-- The `source` of the last call of the sequence that writes the pair. -/
def lastSource (sessionId learnerId : Nat) : List AttendanceCall → Option String
  | [] => none
  | c :: cs =>
    match lastSource sessionId learnerId cs with
    | some src => some src
    | none => if writesPair sessionId learnerId c then some (sourceOf c) else none

/-- The unique index of the collection holds: at most one record per pair. -/
def uniquePairs (records : List AttendanceRecord) : Prop :=
  ∀ sessionId learnerId, (records.filter (hasKey sessionId learnerId)).length ≤ 1

/-- An online session. -/
def onlineSession (id batchId : Nat) (date : Int) (status : String) : AttendanceSession :=
  { _id := id
    batchId := batchId
    date := date
    mode := Mode.online
    startTime := some "10:00"
    endTime := some "11:00"
    timeZone := "Asia/Kolkata"
    qrCodeToken := none
    qrEnabled := false
    autoOnline := true
    status := status
    createdBy := none
    createdAt := 0
    updatedAt := 0 }

/-- An in-person session with a scan token. -/
def qrSession (id batchId : Nat) (date : Int) (token status : String) : AttendanceSession :=
  { _id := id
    batchId := batchId
    date := date
    mode := Mode.offline
    startTime := some "10:00"
    endTime := some "11:00"
    timeZone := "Asia/Kolkata"
    qrCodeToken := some token
    qrEnabled := true
    autoOnline := false
    status := status
    createdBy := none
    createdAt := 0
    updatedAt := 0 }

/-- The digit character of a number below ten. -/
def digitChar (n : Nat) : Char :=
  match n with
  | 0 => '0'
  | 1 => '1'
  | 2 => '2'
  | 3 => '3'
  | 4 => '4'
  | 5 => '5'
  | 6 => '6'
  | 7 => '7'
  | 8 => '8'
  | _ => '9'

/-- The zero-padded string `HH:MM` of an hour and a minute. -/
def hhmm (h m : Nat) : String :=
  String.mk [digitChar (h / 10), digitChar (h % 10), ':', digitChar (m / 10),
    digitChar (m % 10)]

/-! ## Status change (`batch.service.js`, lines 635-690) -/

/-- The list `allowed` of `changeBatchStatus`. -/
def allowedStatuses : List String :=
  ["draft", "published", "ongoing", "completed", "cancelled"]

/-- `changeBatchStatus({ Batch, currentUser, batchId, status })`: the outcome
and the `Batch` collection after the call. -/
def changeBatchStatus (env : WriteEnv) (batches : List Batch)
    (currentUser : Option CurrentUser) (batchId : Nat) (status : String) :
    Except ServiceError Batch × List Batch :=
  match assertCanManageBatch currentUser with
  | Except.error e => (Except.error e, batches)
  | Except.ok cu =>
    if !(allowedStatuses.contains status) then
      (Except.error (ServiceError.http 400 "Invalid status"), batches)
    else
      match batches.find? (fun b => decide (b._id = batchId)) with
      | none => (Except.error (ServiceError.http 404 "Batch not found"), batches)
      | some stored =>
        if batchOutOfScope cu stored then
          (Except.error (ServiceError.http 403
            "Forbidden: batch outside your sub-organization"), batches)
        else if decide (cu.role = "educator") && decide (stored.educatorId ≠ cu.userId) then
          (Except.error (ServiceError.http 403 "Forbidden: batch not assigned to you"), batches)
        else
          let saved := { stored with status := status, updatedAt := env.now }
          (Except.ok saved, saveBatch batches saved)

/-! ## Strategy selection (`educatorAssignment.service.js`, lines 21-49) -/

/-- `Batch.countDocuments({ educatorId, status: { $in: ["published", "ongoing"] } })`. -/
def activeBatchCount (batches : List Batch) (educatorId : Nat) : Nat :=
  batches.countP (fun b => decide (b.educatorId = some educatorId)
    && ["published", "ongoing"].contains b.status)

/-- Insertion of an entry before the first entry whose count is not smaller. -/
def insertByCount (x : OrgUser × Nat) : List (OrgUser × Nat) → List (OrgUser × Nat)
  | [] => [x]
  | y :: ys => if x.2 ≤ y.2 then x :: y :: ys else y :: insertByCount x ys

/-- `counts.sort((a, b) => a.count - b.count)`: ascending by count, entries of
equal count keeping their order (`Array.prototype.sort` is stable). -/
def sortByCount : List (OrgUser × Nat) → List (OrgUser × Nat)
  | [] => []
  | x :: xs => insertByCount x (sortByCount xs)

/-- `pickEducatorByStrategy({ educators, strategy, Batch })`.  `randomIndex n`
stands for `Math.floor(Math.random() * n)`, an index below `n`. -/
def pickEducatorByStrategy (randomIndex : Nat → Nat) (educators : List OrgUser)
    (strategy : String) (batches : List Batch) : Option OrgUser :=
  if educators.length = 0 then none
  else if strategy = "least_batches" then
    ((sortByCount (educators.map (fun e => (e, activeBatchCount batches e._id)))).head?).map
      (fun c => c.1)
  else if strategy = "round_robin" then
    educators[randomIndex educators.length % educators.length]?
  else none

/-! ## Interval arithmetic: theorems -/

theorem JsNumber.lt_int (a b : Int) :
    (JsNumber.int a).lt (JsNumber.int b) = decide (a < b) := rfl

/-- C2: on minute values, with each missing end replaced by the start of its
own range, `timeRangesOverlap` is true exactly when `aStart < bEnd` and
`bStart < aEnd`; a range that ends where the other starts never overlaps it. -/
theorem timeRangesOverlap_iff_strict (aStart bStart : Int) (aEnd bEnd : Option Int) :
    (timeRangesOverlap (some (JsNumber.int aStart)) (aEnd.map JsNumber.int)
        (some (JsNumber.int bStart)) (bEnd.map JsNumber.int) = true
      ↔ aStart < bEnd.getD bStart ∧ bStart < aEnd.getD aStart)
    ∧ timeRangesOverlap (some (JsNumber.int aStart)) (some (JsNumber.int bStart))
        (some (JsNumber.int bStart)) (bEnd.map JsNumber.int) = false := by
  constructor
  · cases aEnd <;> cases bEnd <;>
      simp [timeRangesOverlap, JsNumber.lt_int]
  · cases bEnd <;> simp [timeRangesOverlap, JsNumber.lt_int]

/-- C3: on present start dates, with each missing end replaced by the start of
its own range, `dateRangesOverlap` is true exactly when `aStart ≤ bEnd` and
`bStart ≤ aEnd`; a range ending on day `t` and a range starting on day `t`
(with an end `n` later, or with no end) overlap. -/
theorem dateRangesOverlap_iff_inclusive (aStart bStart t : Int) (aEnd bEnd : Option Int)
    (m n : Nat) :
    (dateRangesOverlap (some aStart) aEnd (some bStart) bEnd = true
      ↔ aStart ≤ bEnd.getD bStart ∧ bStart ≤ aEnd.getD aStart)
    ∧ dateRangesOverlap (some (t - m)) (some t) (some t) (some (t + n)) = true
    ∧ dateRangesOverlap (some (t - m)) (some t) (some t) none = true := by
  refine ⟨?_, ?_, ?_⟩
  · cases aEnd <;> cases bEnd <;> simp [dateRangesOverlap]
  · simp only [dateRangesOverlap, Bool.and_eq_true, decide_eq_true_eq]
    omega
  · simp only [dateRangesOverlap, Bool.and_eq_true, decide_eq_true_eq]
    omega

/-! ## Conflict detector: theorems -/

theorem conflictQuery_iff (educatorId : Nat) (ex : Option Nat) (days : List String)
    (b : Batch) :
    conflictQuery educatorId ex days b = true ↔
      b.educatorId = some educatorId ∧ ex ≠ some b._id
        ∧ b.status ∈ ["draft", "published", "ongoing"]
        ∧ ∃ bs ds, b.schedule = some bs ∧ bs.daysOfWeek = some ds
            ∧ ∃ d, d ∈ ds ∧ d ∈ days := by
  unfold conflictQuery activeStatuses
  have hex : (match ex with
      | some x => decide (b._id ≠ x)
      | none => true) = true ↔ ex ≠ some b._id := by
    cases ex with
    | none => simp
    | some x =>
      simp only [ne_eq, decide_not, Bool.not_eq_true', decide_eq_false_iff_not,
        Option.some.injEq]
      exact ⟨fun h h2 => h h2.symm, fun h h2 => h h2.symm⟩
  have hsch : (match b.schedule with
      | some s =>
        match s.daysOfWeek with
        | some ds => ds.any (fun d => days.contains d)
        | none => false
      | none => false) = true ↔
      ∃ bs ds, b.schedule = some bs ∧ bs.daysOfWeek = some ds ∧ ∃ d, d ∈ ds ∧ d ∈ days := by
    cases hs : b.schedule with
    | none => simp
    | some bs =>
      cases hd : bs.daysOfWeek with
      | none => simp [hd]
      | some ds => simp [hd, List.any_eq_true]
  rw [Bool.and_eq_true, Bool.and_eq_true, Bool.and_eq_true, hex, hsch]
  simp [and_assoc]

/-- C1: for a candidate schedule with a non-empty weekday list,
`hasScheduleConflict` is true exactly when the store holds a batch of that
educator, other than the excluded one, with status draft, published or
ongoing, sharing a weekday with the candidate, whose date range and whose
time range both overlap the candidate's; without a schedule or without
weekdays the result is false; Mon 10:00-11:00 against a stored Mon 11:00-12:00
batch over the same dates gives false and Mon 11:00-12:00 against a stored
Mon/Wed 10:00-11:30 batch over overlapping dates gives true. -/
theorem hasScheduleConflict_iff_exists_overlapping (batches : List Batch) (educatorId : Nat)
    (sch : Schedule) (days : List String) (startDate endDate : Option Int)
    (exclude : Option Nat) (hdays : sch.daysOfWeek = some days) (hne : days ≠ []) :
    (hasScheduleConflict batches educatorId (some sch) startDate endDate exclude = true
      ↔ ∃ b ∈ batches, b.educatorId = some educatorId ∧ exclude ≠ some b._id
          ∧ b.status ∈ ["draft", "published", "ongoing"]
          ∧ (∃ bs ds, b.schedule = some bs ∧ bs.daysOfWeek = some ds
              ∧ (∃ d, d ∈ ds ∧ d ∈ days)
              ∧ dateRangesOverlap startDate endDate b.startDate b.endDate = true
              ∧ timeRangesOverlap (timeToMinutes sch.startTime) (timeToMinutes sch.endTime)
                  (timeToMinutes bs.startTime) (timeToMinutes bs.endTime) = true))
    ∧ hasScheduleConflict batches educatorId
        (some { sch with daysOfWeek := some [] }) startDate endDate exclude = false
    ∧ hasScheduleConflict batches educatorId
        (some { sch with daysOfWeek := none }) startDate endDate exclude = false
    ∧ hasScheduleConflict batches educatorId none startDate endDate exclude = false
    ∧ (∀ s e : Int, hasScheduleConflict [weeklyBatch 1 educatorId ["Mon"] "11:00" "12:00" s e]
        educatorId (some (weeklySchedule ["Mon"] "10:00" "11:00")) (some s) (some e) exclude
          = false)
    ∧ hasScheduleConflict
        [weeklyBatch 1 7 ["Mon", "Wed"] "10:00" "11:30" 1704067200000 1711843200000]
        7 (some (weeklySchedule ["Mon"] "11:00" "12:00"))
        (some 1706745600000) (some 1714435200000) none = true := by
  refine ⟨?_, rfl, rfl, rfl, ?_, by decide⟩
  · have hmatch : hasScheduleConflict batches educatorId (some sch) startDate endDate exclude
        = ((batches.filter (conflictQuery educatorId exclude days)).any
            (conflictsWith sch startDate endDate)) := by
      unfold hasScheduleConflict
      cases days with
      | nil => exact absurd rfl hne
      | cons d ds => simp [hdays]
    rw [hmatch, List.any_eq_true]
    constructor
    · rintro ⟨b, hb, hc⟩
      rw [List.mem_filter] at hb
      obtain ⟨hmem, hq⟩ := hb
      rw [conflictQuery_iff] at hq
      obtain ⟨he, hx, hst, bs, ds, hbs, hds, hd⟩ := hq
      refine ⟨b, hmem, he, hx, hst, bs, ds, hbs, hds, hd, ?_⟩
      simpa [conflictsWith, hbs] using hc
    · rintro ⟨b, hmem, he, hx, hst, bs, ds, hbs, hds, hd, hdate, htime⟩
      refine ⟨b, ?_, ?_⟩
      · rw [List.mem_filter, conflictQuery_iff]
        exact ⟨hmem, he, hx, hst, bs, ds, hbs, hds, hd⟩
      · simp [conflictsWith, hbs, hdate, htime]
  · intro s e
    have ht : timeRangesOverlap (timeToMinutes (some "10:00")) (timeToMinutes (some "11:00"))
        (timeToMinutes (some "11:00")) (timeToMinutes (some "12:00")) = false := by decide
    simp [hasScheduleConflict, weeklySchedule, weeklyBatch, conflictsWith, ht]

theorem hasScheduleConflict_iff_exists_overlapping_witness :
    ((weeklySchedule ["Mon"] "11:00" "12:00").daysOfWeek = some ["Mon"] ∧ ["Mon"] ≠ [])
    ∧ hasScheduleConflict
        [weeklyBatch 1 7 ["Mon", "Wed"] "10:00" "11:30" 1704067200000 1711843200000]
        7 (some { weeklySchedule ["Mon"] "11:00" "12:00" with daysOfWeek := some [] })
        (some 1706745600000) (some 1714435200000) none = false :=
  ⟨⟨rfl, by decide⟩,
    (hasScheduleConflict_iff_exists_overlapping
      [weeklyBatch 1 7 ["Mon", "Wed"] "10:00" "11:30" 1704067200000 1711843200000] 7
      (weeklySchedule ["Mon"] "11:00" "12:00") ["Mon"] (some 1706745600000)
      (some 1714435200000) none rfl (by decide)).2.1⟩

/-! ## Educator resolver: theorems -/

theorem someWindowMatches_eq_any (sch : Schedule) (ds : List String)
    (hds : sch.daysOfWeek = some ds) (l : List EducatorAvailability) :
    someWindowMatches (some sch) l = Except.ok (l.any (fun a =>
      a.daysOfWeek.any (fun d => ds.contains d)
        && timeRangesOverlap (timeToMinutes (some a.startTime))
            (timeToMinutes (some a.endTime))
            (timeToMinutes sch.startTime) (timeToMinutes sch.endTime))) := by
  induction l with
  | nil => rfl
  | cons a rest ih =>
    have hw : windowMatches (some sch) a
        = Except.ok (a.daysOfWeek.any (fun d => ds.contains d)
        && timeRangesOverlap (timeToMinutes (some a.startTime))
            (timeToMinutes (some a.endTime))
            (timeToMinutes sch.startTime) (timeToMinutes sch.endTime)) := by
      unfold windowMatches
      cases hd : a.daysOfWeek with
      | nil => simp
      | cons d r => simp [hds]
    unfold someWindowMatches
    rw [hw, List.any_cons]
    cases hb : (a.daysOfWeek.any (fun d => ds.contains d)
        && timeRangesOverlap (timeToMinutes (some a.startTime))
            (timeToMinutes (some a.endTime))
            (timeToMinutes sch.startTime) (timeToMinutes sch.endTime))
    · simpa using ih
    · simp

theorem pickLoop_eq_find (batches : List Batch) (coll : List EducatorAvailability)
    (sch : Schedule) (ds : List String) (startDate endDate : Option Int)
    (hds : sch.daysOfWeek = some ds) (educators : List OrgUser) :
    pickLoop batches (some coll) (some sch) startDate endDate educators =
      match educators.find? (fun edu => isAvailable coll sch ds edu
          && !hasScheduleConflict batches edu._id (some sch) startDate endDate none) with
      | some edu => Except.ok edu
      | none => Except.error (ServiceError.plain "No available educator found for this schedule") := by
  induction educators with
  | nil => rfl
  | cons edu rest ih =>
    unfold pickLoop
    simp only [List.find?_cons]
    rw [someWindowMatches_eq_any sch ds hds]
    have havail : isAvailable coll sch ds edu =
        (coll.filter (fun a => decide (a.educatorId = edu._id) && decide (a.active = true))).any
          (fun a => a.daysOfWeek.any (fun d => ds.contains d)
            && timeRangesOverlap (timeToMinutes (some a.startTime))
                (timeToMinutes (some a.endTime))
                (timeToMinutes sch.startTime) (timeToMinutes sch.endTime)) := rfl
    rw [← havail]
    by_cases hlen : (coll.filter
        (fun a => decide (a.educatorId = edu._id) && decide (a.active = true))).length = 0
    · have hnil : coll.filter
          (fun a => decide (a.educatorId = edu._id) && decide (a.active = true)) = [] :=
        List.length_eq_zero.mp hlen
      have hfalse : isAvailable coll sch ds edu = false := by
        rw [havail, hnil]; rfl
      simp only [hlen, if_true, hfalse, Bool.false_and]
      exact ih
    · simp only [hlen, if_false]
      cases hav : isAvailable coll sch ds edu with
      | false => simpa using ih
      | true =>
        cases hc : hasScheduleConflict batches edu._id (some sch) startDate endDate none with
        | false => simp
        | true => simpa using ih

theorem isAvailable_iff (coll : List EducatorAvailability) (sch : Schedule) (ds : List String)
    (edu : OrgUser) :
    isAvailable coll sch ds edu = true ↔
      ∃ a ∈ coll, a.educatorId = edu._id ∧ a.active = true
        ∧ (∃ d, d ∈ a.daysOfWeek ∧ d ∈ ds)
        ∧ timeRangesOverlap (timeToMinutes (some a.startTime)) (timeToMinutes (some a.endTime))
            (timeToMinutes sch.startTime) (timeToMinutes sch.endTime) = true := by
  unfold isAvailable
  simp only [List.any_eq_true, List.mem_filter, Bool.and_eq_true, decide_eq_true_eq]
  constructor
  · rintro ⟨a, ⟨hmem, he, hact⟩, ⟨d, hd, hin⟩, ht⟩
    exact ⟨a, hmem, he, hact, ⟨d, hd, by simpa using hin⟩, ht⟩
  · rintro ⟨a, hmem, he, hact, ⟨d, hd, hin⟩, ht⟩
    exact ⟨a, ⟨hmem, he, hact⟩, ⟨d, hd, by simpa using hin⟩, ht⟩

/-- Without a weekday list to read (`schedule` is `null`, or has no
`daysOfWeek`), the first window that has a weekday makes the callback throw. -/
theorem someWindowMatches_no_days (schedule : Option Schedule)
    (hno : ∀ sch, schedule = some sch → sch.daysOfWeek = none)
    (l : List EducatorAvailability) :
    someWindowMatches schedule l =
      if l.any (fun a => decide (a.daysOfWeek ≠ [])) then Except.error ServiceError.typeError
      else Except.ok false := by
  induction l with
  | nil => rfl
  | cons a rest ih =>
    unfold someWindowMatches
    cases hd : a.daysOfWeek with
    | nil =>
      have hw : windowMatches schedule a = Except.ok false := by
        unfold windowMatches
        simp [hd]
      simp only [hw, ih, List.any_cons, hd, ne_eq, not_true_eq_false, decide_False,
        Bool.false_or]
    | cons d r =>
      have hw : windowMatches schedule a = Except.error ServiceError.typeError := by
        unfold windowMatches
        cases hs : schedule with
        | none => simp [hd]
        | some sch => simp [hd, hno sch hs]
      simp [hw, hd]

theorem pickLoop_no_days (batches : List Batch) (coll : List EducatorAvailability)
    (schedule : Option Schedule) (startDate endDate : Option Int)
    (hno : ∀ sch, schedule = some sch → sch.daysOfWeek = none) (educators : List OrgUser) :
    pickLoop batches (some coll) schedule startDate endDate educators =
      if educators.any (fun e =>
          (coll.filter (fun a => decide (a.educatorId = e._id) && decide (a.active = true))).any
            (fun a => decide (a.daysOfWeek ≠ [])))
      then Except.error ServiceError.typeError
      else Except.error (ServiceError.plain "No available educator found for this schedule") := by
  induction educators with
  | nil => rfl
  | cons edu rest ih =>
    unfold pickLoop
    simp only [List.any_cons]
    rw [someWindowMatches_no_days schedule hno]
    by_cases hlen : (coll.filter
        (fun a => decide (a.educatorId = edu._id) && decide (a.active = true))).length = 0
    · have hnil : coll.filter
          (fun a => decide (a.educatorId = edu._id) && decide (a.active = true)) = [] :=
        List.length_eq_zero.mp hlen
      simp only [hlen, if_true, hnil, List.any_nil, Bool.false_or]
      exact ih
    · simp only [hlen, if_false]
      by_cases hany : (coll.filter
          (fun a => decide (a.educatorId = edu._id) && decide (a.active = true))).any
            (fun a => decide (a.daysOfWeek ≠ [])) = true
      · simp only [hany, if_true, Bool.true_or]
      · simp only [Bool.not_eq_true] at hany
        simp only [hany, Bool.false_eq_true, if_false, Bool.false_or]
        exact ih

theorem pickLoop_without_model (batches : List Batch) (schedule : Option Schedule)
    (startDate endDate : Option Int) (educators : List OrgUser) :
    pickLoop batches none schedule startDate endDate educators =
      if educators = [] then
        Except.error (ServiceError.plain "No available educator found for this schedule")
      else Except.error ServiceError.typeError := by
  cases educators with
  | nil => rfl
  | cons edu rest => rfl

/-- C5 (defect): the outcome of `pickEducatorForBatch` on the enumerated
educators (role educator, active, approved, of the given sub-organization
when one is given), in all cases.  With the availability collection supplied
and a schedule that lists weekdays, it returns the first enumerated educator
who passes the availability test (an active window of theirs shares a weekday
with the schedule and overlaps its hours) and has no schedule conflict, and
fails with the no-available-educator error exactly when none passes both, the
empty enumeration included.  When the schedule is `null` or has no weekday
list, as with the default `{}` of `createBatch`, no educator can pass the
availability test, yet the call ends in a `TypeError` as soon as an enumerated
educator has an active window with a weekday, and in the no-available-educator
error only otherwise; when the collection is not supplied it ends in a
`TypeError` unless the enumeration is empty.  So for one educator with a
Monday window and the schedule `{}` the error is a `TypeError`, where the
claim has the no-available-educator error. -/
theorem pickEducatorForBatch_outcomes (users : List OrgUser) (batches : List Batch)
    (coll : List EducatorAvailability) (subOrgId : Option Nat)
    (startDate endDate : Option Int) (educators : List OrgUser)
    (henum : educators = users.filter (fun u =>
      decide (u.role = "educator") && decide (u.status = "active")
        && decide (u.verificationStatus = some "approved")
        && (match subOrgId with
            | some s => decide (u.subOrgId = some s)
            | none => true))) :
    (∀ (sch : Schedule) (ds : List String), sch.daysOfWeek = some ds →
      (pickEducatorForBatch users batches (some coll) subOrgId (some sch) startDate endDate =
        match educators.find? (fun edu =>
            isAvailable coll sch ds edu
              && !hasScheduleConflict batches edu._id (some sch) startDate endDate none) with
        | some edu => Except.ok edu
        | none =>
          Except.error (ServiceError.plain "No available educator found for this schedule"))
      ∧ (pickEducatorForBatch users batches (some coll) subOrgId (some sch) startDate endDate
            = Except.error (ServiceError.plain "No available educator found for this schedule")
          ↔ ∀ edu ∈ educators,
              ¬ (isAvailable coll sch ds edu = true
                ∧ hasScheduleConflict batches edu._id (some sch) startDate endDate none
                    = false))
      ∧ (∀ edu : OrgUser, isAvailable coll sch ds edu = true ↔
          ∃ a ∈ coll, a.educatorId = edu._id ∧ a.active = true
            ∧ (∃ d, d ∈ a.daysOfWeek ∧ d ∈ ds)
            ∧ timeRangesOverlap (timeToMinutes (some a.startTime))
                (timeToMinutes (some a.endTime))
                (timeToMinutes sch.startTime) (timeToMinutes sch.endTime) = true))
    ∧ (∀ schedule : Option Schedule, (∀ sch, schedule = some sch → sch.daysOfWeek = none) →
      ((∃ e ∈ educators, ∃ a ∈ coll, a.educatorId = e._id ∧ a.active = true
            ∧ a.daysOfWeek ≠ []) →
          pickEducatorForBatch users batches (some coll) subOrgId schedule startDate endDate
            = Except.error ServiceError.typeError)
      ∧ ((¬ ∃ e ∈ educators, ∃ a ∈ coll, a.educatorId = e._id ∧ a.active = true
            ∧ a.daysOfWeek ≠ []) →
          pickEducatorForBatch users batches (some coll) subOrgId schedule startDate endDate
            = Except.error
                (ServiceError.plain "No available educator found for this schedule")))
    ∧ (∀ schedule : Option Schedule,
        (educators ≠ [] →
          pickEducatorForBatch users batches none subOrgId schedule startDate endDate
            = Except.error ServiceError.typeError)
        ∧ (educators = [] →
          pickEducatorForBatch users batches none subOrgId schedule startDate endDate
            = Except.error
                (ServiceError.plain "No available educator found for this schedule")))
    ∧ pickEducatorForBatch [approvedEducator 7] [] (some [activeWindow 7 ["Mon"] "09:00" "18:00"])
        none (some ⟨none, none, none, none⟩) (some 0) (some 1000)
      = Except.error ServiceError.typeError
    ∧ pickEducatorForBatch [approvedEducator 7, approvedEducator 8]
        [weeklyBatch 1 7 ["Mon"] "10:30" "11:30" 0 1000] (some
          [activeWindow 7 ["Mon"] "09:00" "18:00", activeWindow 8 ["Mon"] "09:00" "18:00"])
        none (some (weeklySchedule ["Mon"] "10:00" "11:00")) (some 0) (some 1000)
      = Except.ok (approvedEducator 8) := by
  have hq : users.filter (educatorQuery subOrgId) = educators := by
    rw [henum]
    rfl
  refine ⟨?_, ?_, ?_, rfl, rfl⟩
  · intro sch ds hds
    have hmain : pickEducatorForBatch users batches (some coll) subOrgId (some sch) startDate
        endDate = match educators.find? (fun edu =>
            isAvailable coll sch ds edu
              && !hasScheduleConflict batches edu._id (some sch) startDate endDate none) with
        | some edu => Except.ok edu
        | none =>
          Except.error (ServiceError.plain "No available educator found for this schedule") := by
      unfold pickEducatorForBatch
      simp only [hq]
      exact pickLoop_eq_find batches coll sch ds startDate endDate hds educators
    refine ⟨hmain, ?_, isAvailable_iff coll sch ds⟩
    rw [hmain]
    cases hf : educators.find? (fun edu =>
        isAvailable coll sch ds edu
          && !hasScheduleConflict batches edu._id (some sch) startDate endDate none) with
    | none =>
      simp only [true_iff]
      intro edu hedu hboth
      have := List.find?_eq_none.mp hf edu hedu
      simp [hboth.1, hboth.2] at this
    | some e =>
      have hp := List.find?_some hf
      have hmem := List.mem_of_find?_eq_some hf
      simp only [Bool.and_eq_true, Bool.not_eq_true'] at hp
      simp only [reduceCtorEq, false_iff, not_forall]
      exact ⟨e, hmem, fun h => h hp⟩
  · intro schedule hno
    have hmain : pickEducatorForBatch users batches (some coll) subOrgId schedule startDate
        endDate = if educators.any (fun e =>
            (coll.filter (fun a => decide (a.educatorId = e._id)
              && decide (a.active = true))).any (fun a => decide (a.daysOfWeek ≠ [])))
          then Except.error ServiceError.typeError
          else Except.error
            (ServiceError.plain "No available educator found for this schedule") := by
      unfold pickEducatorForBatch
      simp only [hq]
      exact pickLoop_no_days batches coll schedule startDate endDate hno educators
    have hiff : educators.any (fun e =>
          (coll.filter (fun a => decide (a.educatorId = e._id)
            && decide (a.active = true))).any (fun a => decide (a.daysOfWeek ≠ []))) = true
        ↔ ∃ e ∈ educators, ∃ a ∈ coll, a.educatorId = e._id ∧ a.active = true
            ∧ a.daysOfWeek ≠ [] := by
      simp only [List.any_eq_true, List.mem_filter, Bool.and_eq_true, decide_eq_true_eq]
      constructor
      · rintro ⟨e, he, a, ⟨ha, h1, h2⟩, h3⟩
        exact ⟨e, he, a, ha, h1, h2, h3⟩
      · rintro ⟨e, he, a, ha, h1, h2, h3⟩
        exact ⟨e, he, a, ⟨ha, h1, h2⟩, h3⟩
    constructor
    · intro hex
      rw [hmain, if_pos (hiff.mpr hex)]
    · intro hnex
      rw [hmain, if_neg (fun h => hnex (hiff.mp h))]
  · intro schedule
    have hmain : pickEducatorForBatch users batches none subOrgId schedule startDate endDate
        = if educators = [] then
            Except.error (ServiceError.plain "No available educator found for this schedule")
          else Except.error ServiceError.typeError := by
      unfold pickEducatorForBatch
      simp only [hq]
      exact pickLoop_without_model batches schedule startDate endDate educators
    constructor
    · intro hne
      rw [hmain, if_neg hne]
    · intro he
      rw [hmain, if_pos he]

theorem pickEducatorForBatch_outcomes_witness :
    pickEducatorForBatch [approvedEducator 7, { approvedEducator 8 with status := "inactive" }]
        [] (some [activeWindow 8 ["Mon"] "09:00" "18:00"]) none none (some 0) (some 1000)
      = Except.error (ServiceError.plain "No available educator found for this schedule") :=
  ((pickEducatorForBatch_outcomes
      [approvedEducator 7, { approvedEducator 8 with status := "inactive" }] []
      [activeWindow 8 ["Mon"] "09:00" "18:00"] none (some 0) (some 1000) [approvedEducator 7]
      rfl).2.1 none (by simp)).2 (by decide)

theorem windowMatches_ok_true (schedule : Option Schedule) (a : EducatorAvailability)
    (h : windowMatches schedule a = Except.ok true) :
    ∃ sch ds, schedule = some sch ∧ sch.daysOfWeek = some ds
      ∧ (∃ d, d ∈ a.daysOfWeek ∧ d ∈ ds)
      ∧ timeRangesOverlap (timeToMinutes (some a.startTime)) (timeToMinutes (some a.endTime))
          (timeToMinutes sch.startTime) (timeToMinutes sch.endTime) = true := by
  unfold windowMatches at h
  cases hd : a.daysOfWeek with
  | nil => simp [hd] at h
  | cons d r =>
    cases hsch : schedule with
    | none => simp [hd, hsch] at h
    | some sch =>
      cases hs : sch.daysOfWeek with
      | none => simp [hd, hsch, hs] at h
      | some ds =>
        simp only [hd, hsch, hs, Except.ok.injEq, Bool.and_eq_true, List.any_eq_true] at h
        obtain ⟨⟨x, hx, hin⟩, ht⟩ := h
        exact ⟨sch, ds, rfl, hs, ⟨x, hx, by simpa using hin⟩, ht⟩

theorem someWindowMatches_ok_true (schedule : Option Schedule) (l : List EducatorAvailability)
    (h : someWindowMatches schedule l = Except.ok true) :
    ∃ a ∈ l, windowMatches schedule a = Except.ok true := by
  induction l with
  | nil => simp [someWindowMatches] at h
  | cons a rest ih =>
    unfold someWindowMatches at h
    cases hw : windowMatches schedule a with
    | error e => simp [hw] at h
    | ok b =>
      cases b with
      | true => exact ⟨a, List.mem_cons_self _ _, hw⟩
      | false =>
        simp only [hw] at h
        obtain ⟨x, hx, hxw⟩ := ih h
        exact ⟨x, List.mem_cons_of_mem _ hx, hxw⟩

theorem pickLoop_ok (batches : List Batch) (model : Option (List EducatorAvailability))
    (schedule : Option Schedule) (startDate endDate : Option Int) (educators : List OrgUser)
    (edu : OrgUser)
    (h : pickLoop batches model schedule startDate endDate educators = Except.ok edu) :
    edu ∈ educators ∧ ∃ coll, model = some coll
      ∧ someWindowMatches schedule (coll.filter
          (fun a => decide (a.educatorId = edu._id) && decide (a.active = true)))
          = Except.ok true
      ∧ hasScheduleConflict batches edu._id schedule startDate endDate none = false := by
  induction educators with
  | nil => simp [pickLoop] at h
  | cons e rest ih =>
    unfold pickLoop at h
    cases model with
    | none => simp at h
    | some coll =>
      simp only at h
      have hrest : pickLoop batches (some coll) schedule startDate endDate rest = Except.ok edu →
          edu ∈ e :: rest ∧ ∃ coll2, some coll = some coll2
            ∧ someWindowMatches schedule (coll2.filter
                (fun a => decide (a.educatorId = edu._id) && decide (a.active = true)))
                = Except.ok true
            ∧ hasScheduleConflict batches edu._id schedule startDate endDate none
                = false := by
        intro h2
        obtain ⟨hm, hc⟩ := ih h2
        exact ⟨List.mem_cons_of_mem _ hm, hc⟩
      split at h
      · exact hrest h
      · split at h
        · simp at h
        · exact hrest h
        · rename_i hsw
          split at h
          · exact hrest h
          · rename_i hconf
            have he : e = edu := by simpa using h
            subst he
            exact ⟨List.mem_cons_self _ _, coll, rfl, hsw, by simpa using hconf⟩

/-- What the availability test of the code guarantees: every educator returned
by `pickEducatorForBatch` has an active availability window that shares a
weekday with the candidate schedule and whose hours overlap the candidate's
(`timeRangesOverlap`). -/
theorem pickEducatorForBatch_has_overlapping_window (users : List OrgUser)
    (batches : List Batch) (model : Option (List EducatorAvailability))
    (subOrgId : Option Nat) (schedule : Option Schedule) (startDate endDate : Option Int)
    (edu : OrgUser)
    (h : pickEducatorForBatch users batches model subOrgId schedule startDate endDate
      = Except.ok edu) :
    ∃ coll, model = some coll ∧ ∃ a ∈ coll, a.educatorId = edu._id ∧ a.active = true
      ∧ ∃ sch ds, schedule = some sch ∧ sch.daysOfWeek = some ds
        ∧ (∃ d, d ∈ a.daysOfWeek ∧ d ∈ ds)
        ∧ timeRangesOverlap (timeToMinutes (some a.startTime))
            (timeToMinutes (some a.endTime))
            (timeToMinutes sch.startTime) (timeToMinutes sch.endTime) = true := by
  obtain ⟨_, coll, hmodel, hsw, _⟩ :=
    pickLoop_ok batches model schedule startDate endDate _ edu h
  obtain ⟨a, hmem, hw⟩ := someWindowMatches_ok_true schedule _ hsw
  rw [List.mem_filter] at hmem
  obtain ⟨hin, hq⟩ := hmem
  simp only [Bool.and_eq_true, decide_eq_true_eq] at hq
  exact ⟨coll, hmodel, a, hin, hq.1, hq.2, windowMatches_ok_true schedule a hw⟩

/-- C4 (defect): the availability test of `pickEducatorForBatch` asks for a
shared weekday and overlapping hours, not for a window that covers the
candidate schedule.  Called with the `EducatorAvailability` collection, it
returns an educator whose only window is Mon 10:00-11:00 for the candidate
Mon/Wed 10:30-12:00, although the window has no Wednesday and ends (minute
660) before the candidate does (minute 720): no window of that educator
contains every candidate weekday with `availStart ≤ candStart` and
`availEnd ≥ candEnd`.  What holds of every educator returned is only that
one of their active windows shares a weekday with the candidate and overlaps
its hours. -/
theorem pickEducatorForBatch_window_need_not_cover :
    pickEducatorForBatch [approvedEducator 7] []
        (some [activeWindow 7 ["Mon"] "10:00" "11:00"]) none
        (some (weeklySchedule ["Mon", "Wed"] "10:30" "12:00")) (some 0) (some 1000)
      = Except.ok (approvedEducator 7)
    ∧ ¬ (∃ a ∈ [activeWindow 7 ["Mon"] "10:00" "11:00"],
          a.educatorId = 7 ∧ a.active = true
          ∧ (∀ d ∈ ["Mon", "Wed"], d ∈ a.daysOfWeek)
          ∧ ∃ availStart availEnd : Int,
              timeToMinutes (some a.startTime) = some (JsNumber.int availStart)
              ∧ timeToMinutes (some a.endTime) = some (JsNumber.int availEnd)
              ∧ availStart ≤ 630 ∧ availEnd ≥ 720)
    ∧ timeToMinutes (some "10:30") = some (JsNumber.int 630)
    ∧ timeToMinutes (some "12:00") = some (JsNumber.int 720)
    ∧ timeToMinutes (some "11:00") = some (JsNumber.int 660)
    ∧ (∀ (users : List OrgUser) (batches : List Batch)
        (model : Option (List EducatorAvailability)) (subOrgId : Option Nat)
        (schedule : Option Schedule) (startDate endDate : Option Int) (edu : OrgUser),
        pickEducatorForBatch users batches model subOrgId schedule startDate endDate
            = Except.ok edu →
        ∃ coll, model = some coll ∧ ∃ a ∈ coll, a.educatorId = edu._id ∧ a.active = true
          ∧ ∃ sch ds, schedule = some sch ∧ sch.daysOfWeek = some ds
            ∧ (∃ d, d ∈ a.daysOfWeek ∧ d ∈ ds)
            ∧ timeRangesOverlap (timeToMinutes (some a.startTime))
                (timeToMinutes (some a.endTime))
                (timeToMinutes sch.startTime) (timeToMinutes sch.endTime) = true) := by
  refine ⟨rfl, ?_, by decide, by decide, by decide,
    pickEducatorForBatch_has_overlapping_window⟩
  rintro ⟨a, ha, -, -, hdays, -⟩
  rw [List.mem_singleton] at ha
  subst ha
  have := hdays "Wed" (by decide)
  revert this
  decide

/-! ## Batch creation and update: theorems -/

/-- C6 (defect): `createBatch` never completes an automatic assignment.  With
one eligible educator, who is available and free, `pickEducatorForBatch` given
the availability collection selects that educator, but `createBatch` calls it
without the collection and ends in a `TypeError`, leaving the store as it was;
and whatever the caller and body, a call without `educatorId` ends in an
error. -/
theorem createBatch_auto_assign_never_succeeds :
    pickEducatorForBatch [approvedEducator 7] []
        (some [activeWindow 7 ["Mon"] "09:00" "18:00"]) none
        (some (weeklySchedule ["Mon"] "10:00" "11:00")) (some 1704067200000)
        (some 1711843200000)
      = Except.ok (approvedEducator 7)
    ∧ createBatch ⟨100, 0⟩ [] [approvedEducator 7] (some ⟨some 1, "admin", none⟩)
        { name := some "Algebra", code := none, courseId := some 5, educatorId := none,
          subOrgId := none, mode := none, startDate := some 1704067200000,
          endDate := some 1711843200000, capacity := none,
          schedule := ScheduleInput.object (weeklySchedule ["Mon"] "10:00" "11:00"),
          status := none }
      = (Except.error ServiceError.typeError, [])
    ∧ ∀ (env : WriteEnv) (batches : List Batch) (users : List OrgUser)
        (currentUser : Option CurrentUser) (data : CreateBatchData),
        ∃ e, createBatch env batches users currentUser { data with educatorId := none }
          = (Except.error e, batches) := by
  refine ⟨rfl, rfl, ?_⟩
  intro env batches users currentUser data
  unfold createBatch
  cases hv : createBatchValidate currentUser { data with educatorId := none } with
  | error e => exact ⟨e, rfl⟩
  | ok req =>
    have he := pickLoop_without_model batches req.schedule (some req.startDate)
      (some req.endDate) (users.filter (educatorQuery req.subOrgId))
    by_cases hnil : users.filter (educatorQuery req.subOrgId) = []
    · rw [if_pos hnil] at he
      exact ⟨ServiceError.plain "No available educator found for this schedule", by
        simp [createBatchResolve, pickEducatorForBatch, he]⟩
    · rw [if_neg hnil] at he
      exact ⟨ServiceError.typeError, by
        simp [createBatchResolve, pickEducatorForBatch, he]⟩

theorem findApprovedEducator_some (users : List OrgUser) (educatorId : Nat) (e : OrgUser)
    (h : findApprovedEducator users educatorId = some e) :
    e ∈ users ∧ e._id = educatorId ∧ e.role = "educator" ∧ e.status = "active"
      ∧ e.verificationStatus = some "approved" := by
  unfold findApprovedEducator at h
  have hp := List.find?_some h
  have hm := List.mem_of_find?_eq_some h
  simp only [Bool.and_eq_true, decide_eq_true_eq] at hp
  exact ⟨hm, hp.1.1.1, hp.1.1.2, hp.1.2, hp.2⟩

theorem applyScheduleUpdate_id (b : Batch) (data : UpdateBatchData) :
    (applyScheduleUpdate b data)._id = b._id := by
  unfold applyScheduleUpdate
  cases data.schedule <;> rfl

theorem updateBatchPrepare_ok (batches : List Batch) (currentUser : Option CurrentUser)
    (batchId : Nat) (data : UpdateBatchData) (cu : CurrentUser) (b : Batch)
    (h : updateBatchPrepare batches currentUser batchId data = Except.ok (cu, b)) :
    b._id = batchId ∧ ∃ stored ∈ batches, stored._id = batchId := by
  unfold updateBatchPrepare at h
  cases ha : assertCanManageBatch currentUser with
  | error e => simp [ha] at h
  | ok u =>
    cases hf : batches.find? (fun b => decide (b._id = batchId)) with
    | none => simp [ha, hf] at h
    | some stored =>
      have hid : stored._id = batchId := by simpa using List.find?_some hf
      have hmem := List.mem_of_find?_eq_some hf
      refine ⟨?_, stored, hmem, hid⟩
      simp only [ha, hf] at h
      split at h
      · simp at h
      · split at h
        · simp at h
        · split at h
          · split at h
            · simp at h
            · simp only [Except.ok.injEq, Prod.mk.injEq] at h
              rw [← h.2, applyScheduleUpdate_id]
              exact hid
          · split at h
            · simp only [Except.ok.injEq, Prod.mk.injEq] at h
              rw [← h.2, applyScheduleUpdate_id]
              exact hid
            · simp only [Except.ok.injEq, Prod.mk.injEq] at h
              rw [← h.2, applyScheduleUpdate_id]
              exact hid

theorem saveBatch_stored (batches : List Batch) (saved : Batch) :
    (∀ b ∈ saveBatch batches saved, b._id = saved._id → b = saved)
    ∧ ((∃ stored ∈ batches, stored._id = saved._id) → saved ∈ saveBatch batches saved) := by
  unfold saveBatch
  constructor
  · intro b hb hid
    rw [List.mem_map] at hb
    obtain ⟨x, _, hx⟩ := hb
    by_cases hxid : x._id = saved._id
    · simpa [hxid] using hx.symm
    · simp only [hxid, if_false] at hx
      exact absurd (hx ▸ hid) hxid
  · rintro ⟨stored, hmem, hid⟩
    rw [List.mem_map]
    exact ⟨stored, hmem, by simp [hid]⟩

theorem createBatchValidate_schedule (currentUser : Option CurrentUser)
    (data : CreateBatchData) (req : CreateRequest)
    (h : createBatchValidate currentUser data = Except.ok req) :
    req.schedule = destructureSchedule data.schedule := by
  unfold createBatchValidate at h
  cases hc : assertCanManageBatch currentUser with
  | error e => simp [hc] at h
  | ok cu =>
    simp only [hc] at h
    split at h
    · simp at h
    · split at h
      · simp only [Except.ok.injEq] at h
        rw [← h]
      · simp at h

/-- C7 (defect): the conflict gate on an explicit educator who is active,
approved and in scope.  A conflict reported by `hasScheduleConflict` for the
batch's schedule and dates makes `createBatch`, respectively `updateBatch`,
fail with the scheduling-conflict error and leaves the batch store unchanged.
Without a conflict `updateBatch` saves the batch with that educator, and
`createBatch` creates it with that educator when the body's `schedule` is an
object or is missing; but for `schedule: null` the conflict check reports no
conflict and the call then ends in a `TypeError` (line 455 reads
`schedule.daysOfWeek`) and stores nothing, where the claim has the educator
accepted and stored. -/
theorem explicit_educator_conflict_gate (env : WriteEnv) (batches : List Batch)
    (users : List OrgUser) :
    (∀ (currentUser : Option CurrentUser) (data : CreateBatchData) (req : CreateRequest)
        (educatorId : Nat) (educator : OrgUser),
        createBatchValidate currentUser data = Except.ok req →
        data.educatorId = some educatorId →
        findApprovedEducator users educatorId = some educator →
        educatorOutOfScope req.caller educator = false →
        (hasScheduleConflict batches educator._id req.schedule (some req.startDate)
            (some req.endDate) none = true →
          createBatch env batches users currentUser data =
            (Except.error (ServiceError.http 400
              "Educator already has a conflicting batch for this schedule"), batches))
        ∧ (hasScheduleConflict batches educator._id req.schedule (some req.startDate)
            (some req.endDate) none = false →
          ∀ sch : Schedule,
            (data.schedule = ScheduleInput.object sch
              ∨ (data.schedule = ScheduleInput.missing ∧ sch = ⟨none, none, none, none⟩)) →
            createBatch env batches users currentUser data =
              (Except.ok (newBatchDocument env req data educatorId sch),
                batches ++ [newBatchDocument env req data educatorId sch])
            ∧ (newBatchDocument env req data educatorId sch).educatorId = some educator._id)
        ∧ (data.schedule = ScheduleInput.null →
          hasScheduleConflict batches educator._id req.schedule (some req.startDate)
            (some req.endDate) none = false
          ∧ createBatch env batches users currentUser data =
            (Except.error ServiceError.typeError, batches)))
    ∧ (∀ (currentUser : Option CurrentUser) (batchId : Nat) (data : UpdateBatchData)
        (cu : CurrentUser) (batch : Batch) (educatorId : Nat) (educator : OrgUser),
        updateBatchPrepare batches currentUser batchId data = Except.ok (cu, batch) →
        data.educatorId = some educatorId →
        findApprovedEducator users educatorId = some educator →
        educatorOutOfScope cu educator = false →
        (hasScheduleConflict batches educator._id batch.schedule batch.startDate
            batch.endDate (some batch._id) = true →
          updateBatch env batches users currentUser batchId data =
            (Except.error (ServiceError.http 400
              "Educator already has a conflicting batch for this updated schedule"), batches))
        ∧ (hasScheduleConflict batches educator._id batch.schedule batch.startDate
            batch.endDate (some batch._id) = false →
          updateBatch env batches users currentUser batchId data =
            (Except.ok { batch with educatorId := some educator._id, updatedAt := env.now },
              saveBatch batches
                { batch with educatorId := some educator._id, updatedAt := env.now })
          ∧ (∃ b ∈ (updateBatch env batches users currentUser batchId data).2,
              b._id = batchId)
          ∧ ∀ b ∈ (updateBatch env batches users currentUser batchId data).2,
              b._id = batchId → b.educatorId = some educatorId))
    ∧ (hasScheduleConflict [weeklyBatch 1 7 ["Mon"] "10:00" "11:00" 0 1000] 7 none
          (some 0) (some 1000) none = false
        ∧ createBatch env [weeklyBatch 1 7 ["Mon"] "10:00" "11:00" 0 1000]
            [approvedEducator 7, approvedEducator 8] (some ⟨some 1, "admin", none⟩)
            { name := some "Algebra", code := none, courseId := some 5,
              educatorId := some 8, subOrgId := none, mode := none, startDate := some 0,
              endDate := some 1000, capacity := none, schedule := ScheduleInput.null,
              status := none }
          = (Except.error ServiceError.typeError,
              [weeklyBatch 1 7 ["Mon"] "10:00" "11:00" 0 1000])) := by
  refine ⟨?_, ?_, rfl, rfl⟩
  · intro currentUser data req educatorId educator hvalid heid hfound hscope
    have hid := (findApprovedEducator_some users educatorId educator hfound).2.1
    have hsch := createBatchValidate_schedule currentUser data req hvalid
    refine ⟨?_, ?_, ?_⟩
    · intro hconf
      simp [createBatch, hvalid, heid, createBatchResolve, hfound, hscope, hconf]
    · intro hconf sch hdata
      have hreq : req.schedule = some sch := by
        rcases hdata with h | ⟨h, hs⟩
        · rw [hsch, h]
          rfl
        · rw [hsch, h, hs]
          rfl
      rw [hreq] at hconf
      refine ⟨?_, ?_⟩
      · simp [createBatch, hvalid, heid, createBatchResolve, hfound, hscope, hconf, hreq]
      · simp [newBatchDocument, hid]
    · intro hnull
      have hreq : req.schedule = none := by
        rw [hsch, hnull]
        rfl
      have hconf : hasScheduleConflict batches educator._id req.schedule (some req.startDate)
          (some req.endDate) none = false := by
        rw [hreq]
        rfl
      refine ⟨hconf, ?_⟩
      rw [hreq] at hconf
      simp [createBatch, hvalid, heid, createBatchResolve, hfound, hscope, hconf, hreq]
  · intro currentUser batchId data cu batch educatorId educator hprep heid hfound hscope
    have hid := (findApprovedEducator_some users educatorId educator hfound).2.1
    obtain ⟨hbid, hstored⟩ := updateBatchPrepare_ok batches currentUser batchId data cu batch hprep
    constructor
    · intro hconf
      simp [updateBatch, hprep, heid, updateBatchAssign, hfound, hscope, hconf]
    · intro hconf
      have hres : updateBatch env batches users currentUser batchId data =
          (Except.ok { batch with educatorId := some educator._id, updatedAt := env.now },
            saveBatch batches
              { batch with educatorId := some educator._id, updatedAt := env.now }) := by
        simp [updateBatch, hprep, heid, updateBatchAssign, hfound, hscope, hconf]
      have hsave := saveBatch_stored batches
        { batch with educatorId := some educator._id, updatedAt := env.now }
      refine ⟨hres, ?_, ?_⟩
      · rw [hres]
        exact ⟨_, hsave.2 (by simpa [hbid] using hstored), hbid⟩
      · rw [hres]
        intro b hb hbe
        have := hsave.1 b hb (by simpa [hbid] using hbe)
        rw [this]
        simp [hid]

theorem explicit_educator_conflict_gate_witness :
    createBatch ⟨100, 50⟩ [weeklyBatch 1 7 ["Mon"] "10:00" "11:00" 0 1000]
        [approvedEducator 7, approvedEducator 8] (some ⟨some 1, "admin", none⟩)
        { name := some "Algebra", code := none, courseId := some 5, educatorId := some 7,
          subOrgId := none, mode := none, startDate := some 0, endDate := some 1000,
          capacity := none,
          schedule := ScheduleInput.object (weeklySchedule ["Mon"] "10:30" "11:30"),
          status := none }
      = (Except.error (ServiceError.http 400
          "Educator already has a conflicting batch for this schedule"),
          [weeklyBatch 1 7 ["Mon"] "10:00" "11:00" 0 1000])
    ∧ ∃ b ∈ (updateBatch ⟨100, 50⟩ [weeklyBatch 1 7 ["Mon"] "10:00" "11:00" 0 1000]
        [approvedEducator 7, approvedEducator 8] (some ⟨some 1, "admin", none⟩) 1
        ⟨some 8, none, none, none, none, none, none, none, none⟩).2, b._id = 1 :=
  ⟨((explicit_educator_conflict_gate ⟨100, 50⟩ [weeklyBatch 1 7 ["Mon"] "10:00" "11:00" 0 1000]
      [approvedEducator 7, approvedEducator 8]).1 (some ⟨some 1, "admin", none⟩)
      { name := some "Algebra", code := none, courseId := some 5, educatorId := some 7,
        subOrgId := none, mode := none, startDate := some 0, endDate := some 1000,
        capacity := none,
        schedule := ScheduleInput.object (weeklySchedule ["Mon"] "10:30" "11:30"),
        status := none }
      { caller := ⟨some 1, "admin", none⟩, name := "Algebra", courseId := 5, startDate := 0,
        endDate := 1000, subOrgId := none,
        schedule := some (weeklySchedule ["Mon"] "10:30" "11:30") }
      7 (approvedEducator 7) rfl rfl rfl rfl).1 rfl,
   (((explicit_educator_conflict_gate ⟨100, 50⟩ [weeklyBatch 1 7 ["Mon"] "10:00" "11:00" 0 1000]
      [approvedEducator 7, approvedEducator 8]).2.1 (some ⟨some 1, "admin", none⟩) 1
      ⟨some 8, none, none, none, none, none, none, none, none⟩ ⟨some 1, "admin", none⟩
      (weeklyBatch 1 7 ["Mon"] "10:00" "11:00" 0 1000) 8 (approvedEducator 8)
      rfl rfl rfl rfl).2 rfl).2.1⟩

/-! ## Session generator: theorems -/

theorem loopDates_nil (d endDate : Int) (h : endDate < d) : loopDates d endDate = [] := by
  have hp : loopPasses d endDate = 0 := by
    unfold loopPasses msPerDay
    omega
  simp [loopDates, hp]

theorem loopPasses_step (d endDate : Int) (h : d ≤ endDate) :
    loopPasses d endDate = loopPasses (d + msPerDay) endDate + 1 := by
  unfold loopPasses msPerDay
  omega

theorem loopDates_cons (d endDate : Int) (h : d ≤ endDate) :
    loopDates d endDate = d :: loopDates (d + msPerDay) endDate := by
  unfold loopDates
  rw [loopPasses_step d endDate h, List.range_succ_eq_map, List.map_cons, List.map_map]
  congr 1
  · simp
  · apply List.map_congr_left
    intro k _
    simp only [Function.comp, Nat.succ_eq_add_one, Nat.cast_add, Nat.cast_one]
    ring

theorem meetingInstants_nil (days : List String) (d endDate : Int) (h : endDate < d) :
    meetingInstants days d endDate = [] := by
  simp [meetingInstants, loopDates_nil d endDate h]

theorem meetingInstants_cons (days : List String) (d endDate : Int) (h : d ≤ endDate) :
    meetingInstants days d endDate =
      if days.contains (mapDay (getDay d)) then d :: meetingInstants days (d + msPerDay) endDate
      else meetingInstants days (d + msPerDay) endDate := by
  unfold meetingInstants
  rw [loopDates_cons d endDate h, List.filter_cons]

theorem sessionDate_step (d : Int) : sessionDate (d + msPerDay) = sessionDate d + msPerDay := by
  unfold sessionDate msPerDay
  omega

theorem sessionPayload_batchId (env : GenEnv) (batch : Batch) (sch : Schedule)
    (createdBy : Option Nat) (d : Int) :
    (sessionPayload env batch sch createdBy d).batchId = batch._id
    ∧ (sessionPayload env batch sch createdBy d).date = sessionDate d := ⟨rfl, rfl⟩

theorem sameSessionKey_payload (env env2 : GenEnv) (batch : Batch) (sch : Schedule)
    (createdBy createdBy2 : Option Nat) (d : Int) (s : AttendanceSession) :
    sameSessionKey s (sessionPayload env batch sch createdBy d)
      = sameSessionKey s (sessionPayload env2 batch sch createdBy2 d) := rfl

/-- On a collection whose sessions of the batch all lie before the day of `d`,
the loop appends one session per meeting instant, whatever fuel at least
`loopPasses` it is given. -/
theorem generateLoop_fresh (env : GenEnv) (batch : Batch) (sch : Schedule)
    (days : List String) (createdBy : Option Nat) (endDate : Int) (fuel : Nat) :
    ∀ (d : Int) (sessions : List AttendanceSession) (created : Nat),
      loopPasses d endDate ≤ fuel →
      (∀ s ∈ sessions, s.batchId = batch._id → s.date < sessionDate d) →
      generateLoop env batch sch days createdBy endDate fuel d sessions created =
        (created + (meetingInstants days d endDate).length,
          sessions ++ (meetingInstants days d endDate).map
            (sessionPayload env batch sch createdBy)) := by
  induction fuel with
  | zero =>
    intro d sessions created hfuel _
    have hlt : endDate < d := by
      unfold loopPasses msPerDay at hfuel
      omega
    simp [generateLoop, meetingInstants_nil days d endDate hlt]
  | succ fuel ih =>
    intro d sessions created hfuel hinv
    unfold generateLoop
    by_cases hle : d ≤ endDate
    · have hfuel2 : loopPasses (d + msPerDay) endDate ≤ fuel := by
        have := loopPasses_step d endDate hle
        omega
      rw [if_pos hle, meetingInstants_cons days d endDate hle]
      by_cases hday : days.contains (mapDay (getDay d)) = true
      · have hnone : sessions.any
            (fun s => sameSessionKey s (sessionPayload env batch sch createdBy d)) = false := by
          rw [Bool.eq_false_iff]
          intro hany
          rw [List.any_eq_true] at hany
          obtain ⟨s, hs, hk⟩ := hany
          simp only [sameSessionKey, Bool.and_eq_true, decide_eq_true_eq] at hk
          have := hinv s hs hk.1.1
          rw [hk.1.2] at this
          exact lt_irrefl _ this
        have hinv2 : ∀ s ∈ sessions ++ [sessionPayload env batch sch createdBy d],
            s.batchId = batch._id → s.date < sessionDate (d + msPerDay) := by
          intro s hs hb
          rw [sessionDate_step]
          rw [List.mem_append, List.mem_singleton] at hs
          rcases hs with hs | hs
          · have := hinv s hs hb
            unfold msPerDay
            omega
          · rw [hs]
            show sessionDate d < sessionDate d + msPerDay
            unfold msPerDay
            omega
        simp only [hday, Bool.not_true, if_true, createSession, hnone]
        simp only [Bool.false_eq_true, if_false]
        rw [ih (d + msPerDay) _ (created + 1) hfuel2 hinv2]
        simp [Nat.add_assoc, Nat.add_comm 1]
      · have hinv2 : ∀ s ∈ sessions, s.batchId = batch._id →
            s.date < sessionDate (d + msPerDay) := by
          intro s hs hb
          rw [sessionDate_step]
          have := hinv s hs hb
          unfold msPerDay
          omega
        simp only [Bool.not_eq_true] at hday
        simp only [hday, Bool.not_false, if_true, Bool.false_eq_true, if_false]
        exact ih (d + msPerDay) sessions created hfuel2 hinv2
    · have hlt : endDate < d := lt_of_not_le hle
      rw [if_neg hle, meetingInstants_nil days d endDate hlt]
      simp

theorem loopDates_mem (start endDate d : Int) :
    d ∈ loopDates start endDate ↔
      ∃ k : Nat, k < loopPasses start endDate ∧ d = start + (k : Int) * msPerDay := by
  unfold loopDates
  simp only [List.mem_map, List.mem_range]
  constructor
  · rintro ⟨k, hk, rfl⟩
    exact ⟨k, hk, rfl⟩
  · rintro ⟨k, hk, rfl⟩
    exact ⟨k, hk, rfl⟩

theorem loopDates_nodup (start endDate : Int) : (loopDates start endDate).Nodup := by
  unfold loopDates
  apply List.Nodup.map _ (List.nodup_range _)
  intro a b hab
  simp only [msPerDay] at hab
  omega

theorem meetingInstants_mem (days : List String) (start endDate d : Int) :
    d ∈ meetingInstants days start endDate ↔
      (∃ k : Nat, k < loopPasses start endDate ∧ d = start + (k : Int) * msPerDay)
        ∧ mapDay (getDay d) ∈ days := by
  unfold meetingInstants
  rw [List.mem_filter, loopDates_mem]
  simp

theorem meetingDates_nodup (days : List String) (start endDate : Int) :
    ((meetingInstants days start endDate).map sessionDate).Nodup := by
  apply List.Nodup.map_on
  · intro x hx y hy hxy
    obtain ⟨⟨k, _, rfl⟩, _⟩ := (meetingInstants_mem days start endDate x).mp hx
    obtain ⟨⟨j, _, rfl⟩, _⟩ := (meetingInstants_mem days start endDate y).mp hy
    simp only [sessionDate, msPerDay] at hxy
    simp only [msPerDay]
    omega
  · exact (loopDates_nodup start endDate).filter _

/-- With the two dates aligned (the time of day of `start` not after that of
`endDate`), the session dates are the midnights from the day of `start` to the
day of `endDate` whose weekday is listed. -/
theorem meetingDates_mem (days : List String) (start endDate t : Int)
    (halign : start % msPerDay ≤ endDate % msPerDay) :
    t ∈ (meetingInstants days start endDate).map sessionDate ↔
      t % msPerDay = 0 ∧ sessionDate start ≤ t ∧ t ≤ sessionDate endDate
        ∧ mapDay (getDay t) ∈ days := by
  rw [List.mem_map]
  constructor
  · rintro ⟨d, hd, rfl⟩
    obtain ⟨⟨k, hk, rfl⟩, hday⟩ := (meetingInstants_mem days start endDate d).mp hd
    have hg : getDay (sessionDate (start + (k : Int) * msPerDay))
        = getDay (start + (k : Int) * msPerDay) := by
      unfold getDay sessionDate msPerDay
      omega
    rw [hg]
    refine ⟨?_, ?_, ?_, hday⟩
    · unfold sessionDate msPerDay
      omega
    · unfold sessionDate msPerDay
      omega
    · unfold loopPasses msPerDay at hk
      unfold msPerDay at halign
      unfold sessionDate msPerDay
      omega
  · rintro ⟨hmid, hlo, hhi, hday⟩
    unfold sessionDate msPerDay at hlo hhi
    unfold msPerDay at hmid halign
    refine ⟨start + ((t / 86400000 - start / 86400000).toNat : Int) * msPerDay, ?_, ?_⟩
    · rw [meetingInstants_mem]
      refine ⟨⟨(t / 86400000 - start / 86400000).toNat, ?_, rfl⟩, ?_⟩
      · unfold loopPasses msPerDay
        omega
      · have hg : getDay (start + ((t / 86400000 - start / 86400000).toNat : Int) * msPerDay)
            = getDay t := by
          unfold getDay msPerDay
          omega
        rw [hg]
        exact hday
    · unfold sessionDate msPerDay
      omega

theorem filter_batch_append_payloads (env : GenEnv) (batch : Batch) (sch : Schedule)
    (createdBy : Option Nat) (kept : List AttendanceSession) (ds : List Int)
    (hkept : ∀ s ∈ kept, s.batchId ≠ batch._id) :
    (kept ++ ds.map (sessionPayload env batch sch createdBy)).filter
        (fun s => decide (s.batchId = batch._id))
      = ds.map (sessionPayload env batch sch createdBy)
    ∧ (kept ++ ds.map (sessionPayload env batch sch createdBy)).filter
        (fun s => decide (s.batchId ≠ batch._id)) = kept := by
  constructor
  · rw [List.filter_append]
    have h1 : kept.filter (fun s => decide (s.batchId = batch._id)) = [] := by
      rw [List.filter_eq_nil_iff]
      intro s hs
      simpa using hkept s hs
    have h2 : (ds.map (sessionPayload env batch sch createdBy)).filter
        (fun s => decide (s.batchId = batch._id))
          = ds.map (sessionPayload env batch sch createdBy) := by
      rw [List.filter_eq_self]
      intro s hs
      rw [List.mem_map] at hs
      obtain ⟨d, _, rfl⟩ := hs
      simp [sessionPayload]
    rw [h1, h2, List.nil_append]
  · rw [List.filter_append]
    have h1 : kept.filter (fun s => decide (s.batchId ≠ batch._id)) = kept := by
      rw [List.filter_eq_self]
      intro s hs
      simpa using hkept s hs
    have h2 : (ds.map (sessionPayload env batch sch createdBy)).filter
        (fun s => decide (s.batchId ≠ batch._id)) = [] := by
      rw [List.filter_eq_nil_iff]
      intro s hs
      rw [List.mem_map] at hs
      obtain ⟨d, _, rfl⟩ := hs
      simp [sessionPayload]
    rw [h1, h2, List.append_nil]

theorem generateSessions_of_kept (env : GenEnv) (sessions : List AttendanceSession)
    (batch : Batch) (sch : Schedule) (days : List String) (start endDate : Int)
    (regenerate : Bool) (createdBy : Option Nat)
    (hsch : batch.schedule = some sch) (hdays : sch.daysOfWeek = some days)
    (hstart : batch.startDate = some start) (hend : batch.endDate = some endDate)
    (hkept : regenerate = true ∨ ∀ s ∈ sessions, s.batchId ≠ batch._id) :
    generateSessionsForBatch env sessions batch regenerate createdBy =
      ((meetingInstants days start endDate).length,
        sessions.filter (fun s => decide (s.batchId ≠ batch._id))
          ++ (meetingInstants days start endDate).map
              (sessionPayload env batch sch createdBy)) := by
  have hkeep : (if regenerate = true then
        sessions.filter (fun s => decide (s.batchId ≠ batch._id)) else sessions)
      = sessions.filter (fun s => decide (s.batchId ≠ batch._id)) := by
    rcases hkept with h | h
    · simp [h]
    · have : sessions.filter (fun s => decide (s.batchId ≠ batch._id)) = sessions := by
        rw [List.filter_eq_self]
        intro s hs
        simpa using h s hs
      rw [this]
      split <;> rfl
  unfold generateSessionsForBatch
  simp only [hsch, hstart, hend, hdays, hkeep]
  rw [generateLoop_fresh env batch sch days createdBy endDate _ start _ 0 (le_refl _)]
  · simp
  · intro s hs hb
    rw [List.mem_filter] at hs
    simp [hb] at hs

theorem generateLoop_append (env : GenEnv) (batch : Batch) (sch : Schedule)
    (days : List String) (createdBy : Option Nat) (endDate : Int) (fuel : Nat) :
    ∀ (d : Int) (sessions : List AttendanceSession) (created : Nat),
      ∃ added,
        (generateLoop env batch sch days createdBy endDate fuel d sessions created).2
          = sessions ++ added
        ∧ (generateLoop env batch sch days createdBy endDate fuel d sessions created).1
          = created + added.length := by
  induction fuel with
  | zero =>
    intro d sessions created
    exact ⟨[], by simp [generateLoop]⟩
  | succ fuel ih =>
    intro d sessions created
    unfold generateLoop
    split
    · split
      · exact ih _ _ _
      · split
        · rename_i sessions2 hcreate
          have hs2 : sessions2 = sessions ++ [sessionPayload env batch sch createdBy d] := by
            unfold createSession at hcreate
            split at hcreate
            · simp at hcreate
            · simpa using hcreate.symm
          obtain ⟨added, h2, h1⟩ := ih (d + msPerDay) sessions2 (created + 1)
          refine ⟨sessionPayload env batch sch createdBy d :: added, ?_, ?_⟩
          · rw [h2, hs2]
            simp
          · rw [h1]
            simp only [List.length_cons]
            omega
        · exact ih _ _ _
    · exact ⟨[], by simp⟩

theorem generateLoop_keys_present (env : GenEnv) (batch : Batch) (sch : Schedule)
    (days : List String) (createdBy : Option Nat) (endDate : Int) (fuel : Nat) :
    ∀ (d : Int) (sessions : List AttendanceSession) (created : Nat),
      loopPasses d endDate ≤ fuel →
      ∀ d2 ∈ meetingInstants days d endDate,
        ∃ s ∈ (generateLoop env batch sch days createdBy endDate fuel d sessions created).2,
          sameSessionKey s (sessionPayload env batch sch createdBy d2) = true := by
  induction fuel with
  | zero =>
    intro d sessions created hfuel d2 hd2
    have hlt : endDate < d := by
      unfold loopPasses msPerDay at hfuel
      omega
    simp [meetingInstants_nil days d endDate hlt] at hd2
  | succ fuel ih =>
    intro d sessions created hfuel d2 hd2
    by_cases hle : d ≤ endDate
    · have hfuel2 : loopPasses (d + msPerDay) endDate ≤ fuel := by
        have := loopPasses_step d endDate hle
        omega
      rw [meetingInstants_cons days d endDate hle] at hd2
      unfold generateLoop
      rw [if_pos hle]
      by_cases hday : days.contains (mapDay (getDay d)) = true
      · simp only [hday, if_true, List.mem_cons] at hd2
        simp only [hday, Bool.not_true, Bool.false_eq_true, if_false]
        cases hcreate : createSession sessions (sessionPayload env batch sch createdBy d) with
        | none =>
          simp only
          rcases hd2 with rfl | hd2
          · unfold createSession at hcreate
            split at hcreate
            · rename_i hany
              rw [List.any_eq_true] at hany
              obtain ⟨s, hs, hk⟩ := hany
              obtain ⟨added, h2, _⟩ := generateLoop_append env batch sch days createdBy
                endDate fuel (d2 + msPerDay) sessions created
              refine ⟨s, ?_, hk⟩
              rw [h2]
              exact List.mem_append_left _ hs
            · simp at hcreate
          · exact ih _ _ _ hfuel2 d2 hd2
        | some sessions2 =>
          simp only
          rcases hd2 with rfl | hd2
          · have hs2 : sessions2 = sessions ++ [sessionPayload env batch sch createdBy d2] := by
              unfold createSession at hcreate
              split at hcreate
              · simp at hcreate
              · simpa using hcreate.symm
            obtain ⟨added, h2, _⟩ := generateLoop_append env batch sch days createdBy
              endDate fuel (d2 + msPerDay) sessions2 (created + 1)
            refine ⟨sessionPayload env batch sch createdBy d2, ?_, ?_⟩
            · rw [h2, hs2]
              simp
            · simp [sameSessionKey]
          · exact ih _ _ _ hfuel2 d2 hd2
      · simp only [hday, Bool.false_eq_true, if_false] at hd2
        simp only [Bool.not_eq_true] at hday
        simp only [hday, Bool.not_false, if_true]
        exact ih _ _ _ hfuel2 d2 hd2
    · have hlt : endDate < d := lt_of_not_le hle
      simp [meetingInstants_nil days d endDate hlt] at hd2

theorem generateLoop_all_present (env : GenEnv) (batch : Batch) (sch : Schedule)
    (days : List String) (createdBy : Option Nat) (endDate : Int) (fuel : Nat) :
    ∀ (d : Int) (sessions : List AttendanceSession) (created : Nat),
      (∀ d2 ∈ meetingInstants days d endDate, ∃ s ∈ sessions,
          sameSessionKey s (sessionPayload env batch sch createdBy d2) = true) →
      generateLoop env batch sch days createdBy endDate fuel d sessions created
        = (created, sessions) := by
  induction fuel with
  | zero =>
    intro d sessions created _
    rfl
  | succ fuel ih =>
    intro d sessions created hall
    unfold generateLoop
    by_cases hle : d ≤ endDate
    · rw [if_pos hle]
      rw [meetingInstants_cons days d endDate hle] at hall
      by_cases hday : days.contains (mapDay (getDay d)) = true
      · simp only [hday, if_true, List.mem_cons] at hall
        have hdup : createSession sessions (sessionPayload env batch sch createdBy d) = none := by
          obtain ⟨s, hs, hk⟩ := hall d (Or.inl rfl)
          unfold createSession
          rw [if_pos]
          rw [List.any_eq_true]
          exact ⟨s, hs, hk⟩
        simp only [hday, Bool.not_true, Bool.false_eq_true, if_false, hdup]
        exact ih _ _ _ (fun d2 hd2 => hall d2 (Or.inr hd2))
      · simp only [hday, Bool.false_eq_true, if_false] at hall
        simp only [Bool.not_eq_true] at hday
        simp only [hday, Bool.not_false, if_true]
        exact ih _ _ _ hall
    · rw [if_neg hle]

/-- Two successive calls with `regenerate = false` on the same batch: the
first call only appends sessions and counts them, the second call returns
`created = 0` and leaves the collection exactly as the first call left it. -/
theorem generateSessions_twice (env env2 : GenEnv)
    (sessions : List AttendanceSession) (batch : Batch) (createdBy createdBy2 : Option Nat) :
    (generateSessionsForBatch env2
        (generateSessionsForBatch env sessions batch false createdBy).2 batch false
        createdBy2).1 = 0
    ∧ (generateSessionsForBatch env2
        (generateSessionsForBatch env sessions batch false createdBy).2 batch false
        createdBy2).2 = (generateSessionsForBatch env sessions batch false createdBy).2
    ∧ ∃ added, (generateSessionsForBatch env sessions batch false createdBy).2
          = sessions ++ added
        ∧ (generateSessionsForBatch env sessions batch false createdBy).1 = added.length := by
  cases hsch : batch.schedule with
  | none => exact ⟨by simp [generateSessionsForBatch, hsch],
      by simp [generateSessionsForBatch, hsch], [], by simp [generateSessionsForBatch, hsch]⟩
  | some sch =>
    cases hstart : batch.startDate with
    | none => exact ⟨by simp [generateSessionsForBatch, hsch, hstart],
        by simp [generateSessionsForBatch, hsch, hstart], [],
        by simp [generateSessionsForBatch, hsch, hstart]⟩
    | some start =>
      cases hend : batch.endDate with
      | none => exact ⟨by simp [generateSessionsForBatch, hsch, hstart, hend],
          by simp [generateSessionsForBatch, hsch, hstart, hend], [],
          by simp [generateSessionsForBatch, hsch, hstart, hend]⟩
      | some endDate =>
        cases hdays : sch.daysOfWeek with
        | none => exact ⟨by simp [generateSessionsForBatch, hsch, hstart, hend, hdays],
            by simp [generateSessionsForBatch, hsch, hstart, hend, hdays], [],
            by simp [generateSessionsForBatch, hsch, hstart, hend, hdays]⟩
        | some days =>
          have h1 : generateSessionsForBatch env sessions batch false createdBy =
              generateLoop env batch sch days createdBy endDate (loopPasses start endDate)
                start sessions 0 := by
            simp [generateSessionsForBatch, hsch, hstart, hend, hdays]
          have h2 : ∀ store, generateSessionsForBatch env2 store batch false createdBy2 =
              generateLoop env2 batch sch days createdBy2 endDate (loopPasses start endDate)
                start store 0 := by
            intro store
            simp [generateSessionsForBatch, hsch, hstart, hend, hdays]
          have hkeys := generateLoop_keys_present env batch sch days createdBy endDate
            (loopPasses start endDate) start sessions 0 (le_refl _)
          have hsecond := generateLoop_all_present env2 batch sch days createdBy2 endDate
            (loopPasses start endDate) start
            (generateLoop env batch sch days createdBy endDate (loopPasses start endDate)
              start sessions 0).2 0 hkeys
          obtain ⟨added, ha2, ha1⟩ := generateLoop_append env batch sch days createdBy endDate
            (loopPasses start endDate) start sessions 0
          rw [h2, h1, hsecond]
          exact ⟨rfl, rfl, added, ha2, by simpa using ha1⟩

theorem sessionDatesOf_generated (env : GenEnv) (sessions : List AttendanceSession)
    (batch : Batch) (sch : Schedule) (days : List String) (start endDate : Int)
    (regenerate : Bool) (createdBy : Option Nat)
    (hsch : batch.schedule = some sch) (hdays : sch.daysOfWeek = some days)
    (hstart : batch.startDate = some start) (hend : batch.endDate = some endDate)
    (hkept : regenerate = true ∨ ∀ s ∈ sessions, s.batchId ≠ batch._id) :
    sessionDatesOf (generateSessionsForBatch env sessions batch regenerate createdBy).2
        batch._id = (meetingInstants days start endDate).map sessionDate := by
  rw [generateSessions_of_kept env sessions batch sch days start endDate regenerate createdBy
    hsch hdays hstart hend hkept]
  unfold sessionDatesOf
  have hk : ∀ s ∈ sessions.filter (fun s => decide (s.batchId ≠ batch._id)),
      s.batchId ≠ batch._id := by
    intro s hs
    rw [List.mem_filter] at hs
    simpa using hs.2
  rw [(filter_batch_append_payloads env batch sch createdBy _ _ hk).1, List.map_map]
  rfl

theorem meetingDates_card (days : List String) (start endDate : Int)
    (halign : start % msPerDay ≤ endDate % msPerDay) :
    ((meetingInstants days start endDate).map sessionDate).length =
      ((Finset.Icc (start / msPerDay) (endDate / msPerDay)).filter
        (fun n => mapDay (getDay (n * msPerDay)) ∈ days)).card := by
  rw [← List.toFinset_card_of_nodup (meetingDates_nodup days start endDate)]
  have himg : ((meetingInstants days start endDate).map sessionDate).toFinset =
      ((Finset.Icc (start / msPerDay) (endDate / msPerDay)).filter
        (fun n => mapDay (getDay (n * msPerDay)) ∈ days)).image (fun n => n * msPerDay) := by
    ext t
    rw [List.mem_toFinset, meetingDates_mem days start endDate t halign]
    simp only [Finset.mem_image, Finset.mem_filter, Finset.mem_Icc]
    constructor
    · rintro ⟨hmid, hlo, hhi, hday⟩
      have ht : t / msPerDay * msPerDay = t := by
        unfold msPerDay at hmid ⊢
        omega
      refine ⟨t / msPerDay, ⟨⟨?_, ?_⟩, ?_⟩, ht⟩
      · unfold sessionDate msPerDay at hlo
        unfold msPerDay
        omega
      · unfold sessionDate msPerDay at hhi
        unfold msPerDay
        omega
      · rw [ht]
        exact hday
    · rintro ⟨n, ⟨⟨hlo, hhi⟩, hday⟩, rfl⟩
      refine ⟨?_, ?_, ?_, hday⟩
      · unfold msPerDay
        omega
      · unfold msPerDay at hlo
        unfold sessionDate msPerDay
        omega
      · unfold msPerDay at hhi
        unfold sessionDate msPerDay
        omega
  rw [himg, Finset.card_image_of_injective]
  intro a b hab
  simp only [msPerDay] at hab
  omega

theorem mapDay_mem_monWed (n : Int) :
    mapDay (getDay (n * msPerDay)) ∈ ["Mon", "Wed"] ↔ ((n + 4) % 7 = 1 ∨ (n + 4) % 7 = 3) := by
  have hg : getDay (n * msPerDay) = (n + 4) % 7 := by
    unfold getDay msPerDay
    omega
  rw [hg]
  have h0 : 0 ≤ (n + 4) % 7 := by omega
  have h7 : (n + 4) % 7 < 7 := by omega
  generalize (n + 4) % 7 = x at h0 h7
  interval_cases x <;> simp [mapDay]

theorem monWed_fortnight_card (w : Int) :
    ((Finset.Icc (7 * w + 4) (7 * w + 4 + 13)).filter
      (fun n => mapDay (getDay (n * msPerDay)) ∈ ["Mon", "Wed"])).card = 4 := by
  have hset : (Finset.Icc (7 * w + 4) (7 * w + 4 + 13)).filter
      (fun n => mapDay (getDay (n * msPerDay)) ∈ ["Mon", "Wed"])
      = ({0, 2, 7, 9} : Finset Int).image (fun k => 7 * w + 4 + k) := by
    ext n
    simp only [Finset.mem_filter, Finset.mem_Icc, Finset.mem_image, Finset.mem_insert,
      Finset.mem_singleton, mapDay_mem_monWed]
    constructor
    · rintro ⟨⟨h1, h2⟩, h3⟩
      refine ⟨n - (7 * w + 4), ?_, by ring⟩
      omega
    · rintro ⟨k, hk, rfl⟩
      omega
  rw [hset, Finset.card_image_of_injective]
  · rfl
  · intro a b hab
    simpa using hab

theorem monWed_fortnight_created (env : GenEnv) (w : Int) (regenerate : Bool)
    (createdBy : Option Nat) :
    (generateSessionsForBatch env []
      (weeklyBatch 1 7 ["Mon", "Wed"] "10:00" "11:30" ((7 * w + 4) * msPerDay)
        ((7 * w + 4) * msPerDay + 13 * msPerDay)) regenerate createdBy).1 = 4 := by
  rw [generateSessions_of_kept env [] _
    ⟨some ["Mon", "Wed"], some "10:00", some "11:30", some "Asia/Kolkata"⟩ ["Mon", "Wed"]
    ((7 * w + 4) * msPerDay) ((7 * w + 4) * msPerDay + 13 * msPerDay) regenerate createdBy
    rfl rfl rfl rfl (Or.inr (by simp))]
  show (meetingInstants ["Mon", "Wed"] ((7 * w + 4) * msPerDay)
    ((7 * w + 4) * msPerDay + 13 * msPerDay)).length = 4
  have hcard := meetingDates_card ["Mon", "Wed"] ((7 * w + 4) * msPerDay)
    ((7 * w + 4) * msPerDay + 13 * msPerDay) (by unfold msPerDay; omega)
  rw [List.length_map] at hcard
  have h1 : (7 * w + 4) * msPerDay / msPerDay = 7 * w + 4 := by
    unfold msPerDay
    omega
  have h2 : ((7 * w + 4) * msPerDay + 13 * msPerDay) / msPerDay = 7 * w + 4 + 13 := by
    unfold msPerDay
    omega
  rw [hcard, h1, h2]
  exact monWed_fortnight_card w

theorem loopPasses_lt_iff (start endDate : Int) (k : Nat) :
    k < loopPasses start endDate ↔ start + (k : Int) * msPerDay ≤ endDate := by
  unfold loopPasses msPerDay
  omega

/-- C9: two successive calls with `regenerate = false` on the same batch.  The
first call appends sessions to the collection and returns their number; after
it, for every day `startDate + k` days that the loop visits (not after
`endDate`, weekday listed) the collection holds a session of the batch dated
at that day's midnight with the schedule's start time; on a collection without
sessions of the batch it appends exactly the sessions the loop builds, one per
such day, and `created` is their number (4 for Mon/Wed over a fortnight from a
Monday).  The second call returns `created = 0` and leaves the collection
exactly as the first call left it. -/
theorem generateSessions_second_call_creates_nothing (env env2 : GenEnv)
    (sessions : List AttendanceSession) (batch : Batch) (createdBy createdBy2 : Option Nat) :
    (generateSessionsForBatch env2
        (generateSessionsForBatch env sessions batch false createdBy).2 batch false
        createdBy2).1 = 0
    ∧ (generateSessionsForBatch env2
        (generateSessionsForBatch env sessions batch false createdBy).2 batch false
        createdBy2).2 = (generateSessionsForBatch env sessions batch false createdBy).2
    ∧ (∃ added, (generateSessionsForBatch env sessions batch false createdBy).2
          = sessions ++ added
        ∧ (generateSessionsForBatch env sessions batch false createdBy).1 = added.length)
    ∧ (∀ (sch : Schedule) (days : List String) (start endDate : Int),
        batch.schedule = some sch → sch.daysOfWeek = some days →
        batch.startDate = some start → batch.endDate = some endDate →
        (∀ k : Nat, start + (k : Int) * msPerDay ≤ endDate →
          mapDay (getDay (start + (k : Int) * msPerDay)) ∈ days →
          ∃ s ∈ (generateSessionsForBatch env sessions batch false createdBy).2,
            s.batchId = batch._id ∧ s.date = sessionDate (start + (k : Int) * msPerDay)
              ∧ s.startTime = strOr sch.startTime none)
        ∧ ((∀ s ∈ sessions, s.batchId ≠ batch._id) →
          generateSessionsForBatch env sessions batch false createdBy
            = ((meetingInstants days start endDate).length,
                sessions ++ (meetingInstants days start endDate).map
                  (sessionPayload env batch sch createdBy))
          ∧ (meetingInstants days start endDate).Nodup
          ∧ ∀ d : Int, d ∈ meetingInstants days start endDate
              ↔ ∃ k : Nat, d = start + (k : Int) * msPerDay ∧ d ≤ endDate
                  ∧ mapDay (getDay d) ∈ days))
    ∧ (∀ w : Int,
        (generateSessionsForBatch env []
          (weeklyBatch 1 7 ["Mon", "Wed"] "10:00" "11:30" ((7 * w + 4) * msPerDay)
            ((7 * w + 4) * msPerDay + 13 * msPerDay)) false createdBy).1 = 4
        ∧ (generateSessionsForBatch env2
            (generateSessionsForBatch env []
              (weeklyBatch 1 7 ["Mon", "Wed"] "10:00" "11:30" ((7 * w + 4) * msPerDay)
                ((7 * w + 4) * msPerDay + 13 * msPerDay)) false createdBy).2
            (weeklyBatch 1 7 ["Mon", "Wed"] "10:00" "11:30" ((7 * w + 4) * msPerDay)
              ((7 * w + 4) * msPerDay + 13 * msPerDay)) false createdBy2).1 = 0) := by
  obtain ⟨h1, h2, h3⟩ := generateSessions_twice env env2 sessions batch createdBy createdBy2
  refine ⟨h1, h2, h3, ?_, ?_⟩
  · intro sch days start endDate hsch hdays hstart hend
    constructor
    · intro k hk hday
      have hfirst : generateSessionsForBatch env sessions batch false createdBy =
          generateLoop env batch sch days createdBy endDate (loopPasses start endDate)
            start sessions 0 := by
        simp [generateSessionsForBatch, hsch, hstart, hend, hdays]
      have hmem : start + (k : Int) * msPerDay ∈ meetingInstants days start endDate :=
        (meetingInstants_mem days start endDate _).mpr
          ⟨⟨k, (loopPasses_lt_iff start endDate k).mpr hk, rfl⟩, hday⟩
      obtain ⟨s, hs, hkey⟩ := generateLoop_keys_present env batch sch days createdBy endDate
        (loopPasses start endDate) start sessions 0 (le_refl _) _ hmem
      rw [hfirst]
      refine ⟨s, hs, ?_⟩
      simpa [sameSessionKey, sessionPayload, and_assoc] using hkey
    · intro hfresh
      have hres := generateSessions_of_kept env sessions batch sch days start endDate false
        createdBy hsch hdays hstart hend (Or.inr hfresh)
      have hself : sessions.filter (fun s => decide (s.batchId ≠ batch._id)) = sessions := by
        rw [List.filter_eq_self]
        intro s hs
        simpa using hfresh s hs
      rw [hself] at hres
      refine ⟨hres, (loopDates_nodup start endDate).filter _, ?_⟩
      intro d
      rw [meetingInstants_mem]
      constructor
      · rintro ⟨⟨k, hk, rfl⟩, hday⟩
        exact ⟨k, rfl, (loopPasses_lt_iff start endDate k).mp hk, hday⟩
      · rintro ⟨k, rfl, hk, hday⟩
        exact ⟨⟨k, (loopPasses_lt_iff start endDate k).mpr hk, rfl⟩, hday⟩
  · intro w
    exact ⟨monWed_fortnight_created env w false createdBy,
      (generateSessions_twice env env2 []
        (weeklyBatch 1 7 ["Mon", "Wed"] "10:00" "11:30" ((7 * w + 4) * msPerDay)
          ((7 * w + 4) * msPerDay + 13 * msPerDay)) createdBy createdBy2).1⟩

/-- Aligned dates: for a batch with a weekday list and both dates, whose dates
are calendar dates (the time of day of `startDate` is not after that of
`endDate`, as when both are midnights), and with no session of the batch in
the collection, `generateSessionsForBatch` creates exactly one session on each
midnight from the day of `startDate` to the day of `endDate`, both included,
whose weekday is listed, none on another date, returns their number as
`created`, and leaves the other batches' sessions alone; for Mon/Wed, a start
on the Monday of any week `w` and an end 13 days later `created` is 4. -/
theorem generateSessions_aligned (env : GenEnv)
    (sessions : List AttendanceSession) (batch : Batch) (sch : Schedule)
    (days : List String) (start endDate : Int) (regenerate : Bool) (createdBy : Option Nat)
    (hsch : batch.schedule = some sch) (hdays : sch.daysOfWeek = some days)
    (hstart : batch.startDate = some start) (hend : batch.endDate = some endDate)
    (hfresh : ∀ s ∈ sessions, s.batchId ≠ batch._id)
    (halign : start % msPerDay ≤ endDate % msPerDay) :
    (sessionDatesOf (generateSessionsForBatch env sessions batch regenerate createdBy).2
        batch._id).Nodup
    ∧ (∀ t : Int,
        t ∈ sessionDatesOf (generateSessionsForBatch env sessions batch regenerate createdBy).2
            batch._id
          ↔ t % msPerDay = 0 ∧ sessionDate start ≤ t ∧ t ≤ sessionDate endDate
              ∧ mapDay (getDay t) ∈ days)
    ∧ (generateSessionsForBatch env sessions batch regenerate createdBy).1
        = (sessionDatesOf (generateSessionsForBatch env sessions batch regenerate createdBy).2
            batch._id).length
    ∧ (generateSessionsForBatch env sessions batch regenerate createdBy).1
        = ((Finset.Icc (start / msPerDay) (endDate / msPerDay)).filter
            (fun n => mapDay (getDay (n * msPerDay)) ∈ days)).card
    ∧ (generateSessionsForBatch env sessions batch regenerate createdBy).2.filter
        (fun s => decide (s.batchId ≠ batch._id)) = sessions
    ∧ (∀ w : Int, mapDay (getDay ((7 * w + 4) * msPerDay)) = "Mon"
        ∧ (generateSessionsForBatch env []
            (weeklyBatch 1 7 ["Mon", "Wed"] "10:00" "11:30" ((7 * w + 4) * msPerDay)
              ((7 * w + 4) * msPerDay + 13 * msPerDay)) regenerate createdBy).1 = 4) := by
  have hdates := sessionDatesOf_generated env sessions batch sch days start endDate regenerate
    createdBy hsch hdays hstart hend (Or.inr hfresh)
  have hres := generateSessions_of_kept env sessions batch sch days start endDate regenerate
    createdBy hsch hdays hstart hend (Or.inr hfresh)
  have hcount : (generateSessionsForBatch env sessions batch regenerate createdBy).1
      = ((meetingInstants days start endDate).map sessionDate).length := by
    rw [hres, List.length_map]
  have hself : sessions.filter (fun s => decide (s.batchId ≠ batch._id)) = sessions := by
    rw [List.filter_eq_self]
    intro s hs
    simpa using hfresh s hs
  refine ⟨?_, ?_, ?_, ?_, ?_, ?_⟩
  · rw [hdates]
    exact meetingDates_nodup days start endDate
  · intro t
    rw [hdates]
    exact meetingDates_mem days start endDate t halign
  · rw [hdates]
    exact hcount
  · rw [hcount]
    exact meetingDates_card days start endDate halign
  · rw [hres]
    have hk : ∀ s ∈ sessions.filter (fun s => decide (s.batchId ≠ batch._id)),
        s.batchId ≠ batch._id := by
      intro s hs
      rw [List.mem_filter] at hs
      simpa using hs.2
    rw [(filter_batch_append_payloads env batch sch createdBy _ _ hk).2, hself]
  · intro w
    refine ⟨?_, monWed_fortnight_created env w regenerate createdBy⟩
    have hg : getDay ((7 * w + 4) * msPerDay) = 1 := by
      unfold getDay msPerDay
      omega
    rw [hg]
    rfl

theorem meetingDates_mem_loop (days : List String) (start endDate t : Int) :
    t ∈ (meetingInstants days start endDate).map sessionDate ↔
      ∃ k : Nat, start + (k : Int) * msPerDay ≤ endDate
        ∧ mapDay (getDay (start + (k : Int) * msPerDay)) ∈ days
        ∧ t = sessionDate (start + (k : Int) * msPerDay) := by
  rw [List.mem_map]
  constructor
  · rintro ⟨d, hd, rfl⟩
    obtain ⟨⟨k, hk, rfl⟩, hday⟩ := (meetingInstants_mem days start endDate d).mp hd
    exact ⟨k, (loopPasses_lt_iff start endDate k).mp hk, hday, rfl⟩
  · rintro ⟨k, hk, hday, rfl⟩
    exact ⟨_, (meetingInstants_mem days start endDate _).mpr
      ⟨⟨k, (loopPasses_lt_iff start endDate k).mpr hk, rfl⟩, hday⟩, rfl⟩

/-- C8 (defect): the loop `for (d = start; d <= end; d + 1 day)` compares
instants, so the day of `endDate` gets no session when the time of day of
`startDate` is after that of `endDate`.  For a batch that meets on Mondays,
from 2024-01-01 12:00 to 2024-01-15 00:00 and with no session yet, the call
creates the sessions of 1 and 8 January only and returns 2, although
15 January is a Monday from the start date to the end date, both included.
In general, for a batch with a weekday list and both dates and no session in
the collection, the batch's sessions afterwards are dated, one each, at the
midnights of the days `startDate + k` days visited while that instant is not
after `endDate` and whose weekday is listed; `created` is their number and the
other batches' sessions are untouched.  When the time of day of `startDate`
is not after that of `endDate` these are the listed weekdays from the day of
`startDate` to the day of `endDate`, both included; for Mon/Wed, a start at
the midnight of the Monday of any week and an end 13 days later, `created`
is 4. -/
theorem generateSessions_end_date_left_out :
    (∀ env : GenEnv,
      (generateSessionsForBatch env []
          (weeklyBatch 1 7 ["Mon"] "10:00" "11:00" 1704110400000 1705276800000)
          false none).1 = 2
      ∧ sessionDatesOf (generateSessionsForBatch env []
          (weeklyBatch 1 7 ["Mon"] "10:00" "11:00" 1704110400000 1705276800000)
          false none).2 1 = [1704067200000, 1704672000000])
    ∧ (mapDay (getDay 1705276800000) = "Mon" ∧ (1705276800000 : Int) % msPerDay = 0
        ∧ sessionDate 1704110400000 ≤ 1705276800000
        ∧ (1705276800000 : Int) ≤ sessionDate 1705276800000)
    ∧ (∀ (env : GenEnv) (sessions : List AttendanceSession) (batch : Batch) (sch : Schedule)
        (days : List String) (start endDate : Int) (regenerate : Bool)
        (createdBy : Option Nat),
        batch.schedule = some sch → sch.daysOfWeek = some days →
        batch.startDate = some start → batch.endDate = some endDate →
        (∀ s ∈ sessions, s.batchId ≠ batch._id) →
        (sessionDatesOf (generateSessionsForBatch env sessions batch regenerate createdBy).2
            batch._id).Nodup
        ∧ (∀ t : Int,
            t ∈ sessionDatesOf
                (generateSessionsForBatch env sessions batch regenerate createdBy).2 batch._id
              ↔ ∃ k : Nat, start + (k : Int) * msPerDay ≤ endDate
                  ∧ mapDay (getDay (start + (k : Int) * msPerDay)) ∈ days
                  ∧ t = sessionDate (start + (k : Int) * msPerDay))
        ∧ (generateSessionsForBatch env sessions batch regenerate createdBy).1
            = (sessionDatesOf
                (generateSessionsForBatch env sessions batch regenerate createdBy).2
                batch._id).length
        ∧ (generateSessionsForBatch env sessions batch regenerate createdBy).2.filter
            (fun s => decide (s.batchId ≠ batch._id)) = sessions
        ∧ (start % msPerDay ≤ endDate % msPerDay →
            (∀ t : Int,
              t ∈ sessionDatesOf
                  (generateSessionsForBatch env sessions batch regenerate createdBy).2
                  batch._id
                ↔ t % msPerDay = 0 ∧ sessionDate start ≤ t ∧ t ≤ sessionDate endDate
                    ∧ mapDay (getDay t) ∈ days)
            ∧ (generateSessionsForBatch env sessions batch regenerate createdBy).1
                = ((Finset.Icc (start / msPerDay) (endDate / msPerDay)).filter
                    (fun n => mapDay (getDay (n * msPerDay)) ∈ days)).card))
    ∧ (∀ (env : GenEnv) (w : Int) (regenerate : Bool) (createdBy : Option Nat),
        mapDay (getDay ((7 * w + 4) * msPerDay)) = "Mon"
        ∧ (generateSessionsForBatch env []
            (weeklyBatch 1 7 ["Mon", "Wed"] "10:00" "11:30" ((7 * w + 4) * msPerDay)
              ((7 * w + 4) * msPerDay + 13 * msPerDay)) regenerate createdBy).1 = 4) := by
  have hinst : meetingInstants ["Mon"] 1704110400000 1705276800000
      = [1704110400000, 1704715200000] := by decide
  refine ⟨?_, by decide, ?_, ?_⟩
  · intro env
    have hres := generateSessions_of_kept env []
      (weeklyBatch 1 7 ["Mon"] "10:00" "11:00" 1704110400000 1705276800000)
      ⟨some ["Mon"], some "10:00", some "11:00", some "Asia/Kolkata"⟩ ["Mon"]
      1704110400000 1705276800000 false none rfl rfl rfl rfl (Or.inr (by simp))
    have hdates := sessionDatesOf_generated env []
      (weeklyBatch 1 7 ["Mon"] "10:00" "11:00" 1704110400000 1705276800000)
      ⟨some ["Mon"], some "10:00", some "11:00", some "Asia/Kolkata"⟩ ["Mon"]
      1704110400000 1705276800000 false none rfl rfl rfl rfl (Or.inr (by simp))
    refine ⟨?_, ?_⟩
    · rw [hres, hinst]
      rfl
    · have hid : (weeklyBatch 1 7 ["Mon"] "10:00" "11:00" 1704110400000 1705276800000)._id
          = 1 := rfl
      rw [hid] at hdates
      rw [hdates, hinst]
      decide
  · intro env sessions batch sch days start endDate regenerate createdBy hsch hdays hstart
      hend hfresh
    have hdates := sessionDatesOf_generated env sessions batch sch days start endDate
      regenerate createdBy hsch hdays hstart hend (Or.inr hfresh)
    have hres := generateSessions_of_kept env sessions batch sch days start endDate regenerate
      createdBy hsch hdays hstart hend (Or.inr hfresh)
    have hself : sessions.filter (fun s => decide (s.batchId ≠ batch._id)) = sessions := by
      rw [List.filter_eq_self]
      intro s hs
      simpa using hfresh s hs
    have hk : ∀ s ∈ sessions.filter (fun s => decide (s.batchId ≠ batch._id)),
        s.batchId ≠ batch._id := by
      intro s hs
      rw [List.mem_filter] at hs
      simpa using hs.2
    refine ⟨?_, ?_, ?_, ?_, ?_⟩
    · rw [hdates]
      exact meetingDates_nodup days start endDate
    · intro t
      rw [hdates]
      exact meetingDates_mem_loop days start endDate t
    · rw [hdates, hres, List.length_map]
    · rw [hres, (filter_batch_append_payloads env batch sch createdBy _ _ hk).2, hself]
    · intro halign
      have hal := generateSessions_aligned env sessions batch sch days start endDate
        regenerate createdBy hsch hdays hstart hend hfresh halign
      exact ⟨hal.2.1, hal.2.2.2.1⟩
  · intro env w regenerate createdBy
    refine ⟨?_, monWed_fortnight_created env w regenerate createdBy⟩
    have hg : getDay ((7 * w + 4) * msPerDay) = 1 := by
      unfold getDay msPerDay
      omega
    rw [hg]
    rfl

/-- C10: with `regenerate = true`, for a batch with a weekday list and both
dates and any prior collection, the call removes every session of the batch
and appends one new session per meeting instant of the current schedule: the
batch's sessions afterwards are exactly these, `created` is their number, and
the sessions of other batches are unchanged. -/
theorem generateSessions_regenerate_replaces_all (env : GenEnv)
    (sessions : List AttendanceSession) (batch : Batch) (sch : Schedule)
    (days : List String) (start endDate : Int) (createdBy : Option Nat)
    (hsch : batch.schedule = some sch) (hdays : sch.daysOfWeek = some days)
    (hstart : batch.startDate = some start) (hend : batch.endDate = some endDate) :
    (generateSessionsForBatch env sessions batch true createdBy).2
        = sessions.filter (fun s => decide (s.batchId ≠ batch._id))
          ++ (meetingInstants days start endDate).map (sessionPayload env batch sch createdBy)
    ∧ (generateSessionsForBatch env sessions batch true createdBy).2.filter
        (fun s => decide (s.batchId = batch._id))
        = (meetingInstants days start endDate).map (sessionPayload env batch sch createdBy)
    ∧ (generateSessionsForBatch env sessions batch true createdBy).2.filter
        (fun s => decide (s.batchId = batch._id))
        = (generateSessionsForBatch env [] batch false createdBy).2
    ∧ (generateSessionsForBatch env sessions batch true createdBy).1
        = ((generateSessionsForBatch env sessions batch true createdBy).2.filter
            (fun s => decide (s.batchId = batch._id))).length
    ∧ (generateSessionsForBatch env sessions batch true createdBy).2.filter
        (fun s => decide (s.batchId ≠ batch._id))
        = sessions.filter (fun s => decide (s.batchId ≠ batch._id)) := by
  have hres := generateSessions_of_kept env sessions batch sch days start endDate true
    createdBy hsch hdays hstart hend (Or.inl rfl)
  have hempty := generateSessions_of_kept env [] batch sch days start endDate false
    createdBy hsch hdays hstart hend (Or.inr (by simp))
  have hk : ∀ s ∈ sessions.filter (fun s => decide (s.batchId ≠ batch._id)),
      s.batchId ≠ batch._id := by
    intro s hs
    rw [List.mem_filter] at hs
    simpa using hs.2
  have hf := filter_batch_append_payloads env batch sch createdBy _
    (meetingInstants days start endDate) hk
  refine ⟨?_, ?_, ?_, ?_, ?_⟩
  · rw [hres]
  · rw [hres]
    exact hf.1
  · rw [hres, hempty, hf.1]
    simp
  · rw [hres, hf.1]
    simp
  · rw [hres]
    exact hf.2

theorem generateSessions_regenerate_replaces_all_witness :
    ((generateSessionsForBatch ⟨fun _ => 0, fun _ => 0, fun _ => "token"⟩
        [sessionPayload ⟨fun _ => 9, fun _ => 0, fun _ => "old"⟩
          (weeklyBatch 1 7 ["Mon", "Wed"] "10:00" "11:30" 1704067200000 1705190400000)
          ⟨some ["Mon", "Wed"], some "10:00", some "11:30", some "Asia/Kolkata"⟩ none 0]
        (weeklyBatch 1 7 ["Mon", "Wed"] "10:00" "11:30" 1704067200000 1705190400000)
        true none).2.filter (fun s => decide (s.batchId ≠ 1))) = [] :=
  (generateSessions_regenerate_replaces_all ⟨fun _ => 0, fun _ => 0, fun _ => "token"⟩
    [sessionPayload ⟨fun _ => 9, fun _ => 0, fun _ => "old"⟩
      (weeklyBatch 1 7 ["Mon", "Wed"] "10:00" "11:30" 1704067200000 1705190400000)
      ⟨some ["Mon", "Wed"], some "10:00", some "11:30", some "Asia/Kolkata"⟩ none 0]
    (weeklyBatch 1 7 ["Mon", "Wed"] "10:00" "11:30" 1704067200000 1705190400000)
    ⟨some ["Mon", "Wed"], some "10:00", some "11:30", some "Asia/Kolkata"⟩ ["Mon", "Wed"]
    1704067200000 1705190400000 none rfl rfl rfl rfl).2.2.2.2

/-! ## Time parser: theorems -/

theorem digitChar_facts (n : Nat) (h : n < 10) :
    (digitChar n).isDigit = true ∧ ((digitChar n).toNat : Int) - 48 = n
      ∧ digitChar n ≠ ':' ∧ digitChar n ≠ '-' ∧ digitChar n ≠ '+'
      ∧ isStrWhiteSpaceChar (digitChar n) = false := by
  interval_cases n <;> decide

theorem toNumber_of_lt (v : Int) (h : v.natAbs < 9007199254740992) :
    toNumber v = JsNumber.int v := by
  unfold toNumber
  simp only [h, if_true]

theorem parseInt10_two_digits (a b : Nat) (ha : a < 10) (hb : b < 10) :
    parseInt10 [digitChar a, digitChar b] = JsNumber.int (10 * a + b) := by
  obtain ⟨ha1, ha2, _, ha4, ha5, ha6⟩ := digitChar_facts a ha
  obtain ⟨hb1, hb2, _, _, _, _⟩ := digitChar_facts b hb
  have hsign : (match digitChar a :: [digitChar b] with
      | '-' :: r => (true, r)
      | '+' :: r => (false, r)
      | r => (false, r)) = (false, [digitChar a, digitChar b]) := by
    split
    · rename_i heq
      simp only [List.cons.injEq] at heq
      exact absurd heq.1 ha4
    · rename_i heq
      simp only [List.cons.injEq] at heq
      exact absurd heq.1 ha5
    · rfl
  have hval : (0 * 10 + (a : Int)) * 10 + (b : Int) = 10 * (a : Int) + b := by ring
  unfold parseInt10
  simp only [List.dropWhile, ha6, hsign, digitsValue, ha1, hb1, if_true, Option.getD_none,
    Option.getD_some, ha2, hb2, Bool.false_eq_true, if_false, hval]
  exact toNumber_of_lt _ (by omega)

theorem splitColon_hhmm (a b c d : Char) (ha : a ≠ ':') (hb : b ≠ ':') (hc : c ≠ ':')
    (hd : d ≠ ':') : splitColon [a, b, ':', c, d] = [[a, b], [c, d]] := by
  simp [splitColon, ha, hb, hc, hd]

theorem timeToMinutes_exact (s : String) (hv mv : Int) (rest : List JsNumber)
    (hparse : (splitColon s.data).map parseInt10
      = JsNumber.int hv :: JsNumber.int mv :: rest)
    (hh : hv.natAbs ≤ 100000000000000) (hm : mv.natAbs ≤ 100000000000000) :
    timeToMinutes (some s) = some (JsNumber.int (hv * 60 + mv)) := by
  have hne : s.data ≠ [] := by
    intro h0
    rw [h0] at hparse
    simp [splitColon] at hparse
  unfold timeToMinutes
  simp only [hne, if_false, hparse, JsNumber.times60, JsNumber.add]
  rw [toNumber_of_lt (hv * 60) (by omega)]
  simp only [JsNumber.add]
  rw [toNumber_of_lt (hv * 60 + mv) (by omega)]

/-- C20 (as the code has it): for every hour `H ≤ 23` and minute `M ≤ 59`,
`timeToMinutes` of the zero-padded string `HH:MM` is the integer `60 * H + M`,
which lies in `[0, 1440)`; for an arbitrary string from whose first two
colon-separated fields `parseInt` reads integers `h` and `m` of magnitude at
most `10 ^ 14`, the result is `60 * h + m`, whatever its size or sign; beyond
the exact range of doubles the result is the rounded one
(`"9007199254740993:00"` gives 540431955284459520). -/
theorem timeToMinutes_hhmm (H M : Nat) (hH : H ≤ 23) (hM : M ≤ 59) :
    timeToMinutes (some (hhmm H M)) = some (JsNumber.int (60 * (H : Int) + M))
    ∧ (0 ≤ 60 * (H : Int) + M ∧ 60 * (H : Int) + M < 1440)
    ∧ (∀ (s : String) (hv mv : Int) (rest : List JsNumber),
        (splitColon s.data).map parseInt10 = JsNumber.int hv :: JsNumber.int mv :: rest →
        hv.natAbs ≤ 100000000000000 → mv.natAbs ≤ 100000000000000 →
        timeToMinutes (some s) = some (JsNumber.int (hv * 60 + mv)))
    ∧ timeToMinutes (some "-1:30") = some (JsNumber.int (-30))
    ∧ timeToMinutes (some "9007199254740993:00")
        = some (JsNumber.int 540431955284459520) := by
  refine ⟨?_, ⟨by omega, by omega⟩, timeToMinutes_exact, by decide, by decide⟩
  have h1 : H / 10 < 10 := by omega
  have h2 : H % 10 < 10 := by omega
  have h3 : M / 10 < 10 := by omega
  have h4 : M % 10 < 10 := by omega
  have hsplit := splitColon_hhmm (digitChar (H / 10)) (digitChar (H % 10))
    (digitChar (M / 10)) (digitChar (M % 10)) (digitChar_facts _ h1).2.2.1
    (digitChar_facts _ h2).2.2.1 (digitChar_facts _ h3).2.2.1 (digitChar_facts _ h4).2.2.1
  have hpar : (splitColon (hhmm H M).data).map parseInt10
      = JsNumber.int ((10 * (H / 10 : Nat) + (H % 10 : Nat) : Nat) : Int)
        :: JsNumber.int ((10 * (M / 10 : Nat) + (M % 10 : Nat) : Nat) : Int) :: [] := by
    unfold hhmm
    simp only [hsplit, List.map, parseInt10_two_digits _ _ h1 h2,
      parseInt10_two_digits _ _ h3 h4]
    push_cast
    rfl
  have hres := timeToMinutes_exact (hhmm H M) _ _ _ hpar (by omega) (by omega)
  rw [hres]
  congr 2
  push_cast
  omega

theorem timeToMinutes_hhmm_witness :
    hhmm 9 5 = "09:05" ∧ timeToMinutes (some (hhmm 9 5)) = some (JsNumber.int 545) :=
  ⟨by decide, (timeToMinutes_hhmm 9 5 (by decide) (by decide)).1⟩

/-- C20 as stated fails: `timeToMinutes("25:00")` is the integer 1500, which is
not below 1440. -/
theorem timeToMinutes_out_of_range :
    timeToMinutes (some "25:00") = some (JsNumber.int 1500)
    ∧ ¬ ((0 : Int) ≤ 1500 ∧ (1500 : Int) < 1440) := by
  decide

/-! ## Session generator: skipped dates and constructed sessions -/

/-- The loop started on `base ++ acc`, where `acc` holds sessions of the batch
dated before the day of `d`: it appends one session per meeting instant whose
key is not in `base`, and passes over the others. -/
theorem generateLoop_skip (env : GenEnv) (batch : Batch) (sch : Schedule)
    (days : List String) (createdBy : Option Nat) (endDate : Int)
    (base : List AttendanceSession) (fuel : Nat) :
    ∀ (d : Int) (acc : List AttendanceSession) (created : Nat),
      loopPasses d endDate ≤ fuel →
      (∀ s ∈ acc, s.batchId = batch._id ∧ s.date < sessionDate d) →
      generateLoop env batch sch days createdBy endDate fuel d (base ++ acc) created =
        (created + ((meetingInstants days d endDate).filter (fun d2 =>
            !(base.any (fun s =>
              sameSessionKey s (sessionPayload env batch sch createdBy d2))))).length,
          base ++ acc ++ ((meetingInstants days d endDate).filter (fun d2 =>
            !(base.any (fun s =>
              sameSessionKey s (sessionPayload env batch sch createdBy d2))))).map
            (sessionPayload env batch sch createdBy)) := by
  induction fuel with
  | zero =>
    intro d acc created hfuel _
    have hlt : endDate < d := by
      unfold loopPasses msPerDay at hfuel
      omega
    simp [generateLoop, meetingInstants_nil days d endDate hlt]
  | succ fuel ih =>
    intro d acc created hfuel hinv
    unfold generateLoop
    by_cases hle : d ≤ endDate
    · have hfuel2 : loopPasses (d + msPerDay) endDate ≤ fuel := by
        have := loopPasses_step d endDate hle
        omega
      have hinv2 : ∀ s ∈ acc, s.batchId = batch._id ∧ s.date < sessionDate (d + msPerDay) := by
        intro s hs
        have := hinv s hs
        rw [sessionDate_step]
        unfold msPerDay
        exact ⟨this.1, by omega⟩
      rw [if_pos hle, meetingInstants_cons days d endDate hle]
      by_cases hday : days.contains (mapDay (getDay d)) = true
      · simp only [hday, Bool.not_true, Bool.false_eq_true, if_false, if_true]
        have hacc : acc.any
            (fun s => sameSessionKey s (sessionPayload env batch sch createdBy d)) = false := by
          rw [Bool.eq_false_iff]
          intro hany
          rw [List.any_eq_true] at hany
          obtain ⟨s, hs, hk⟩ := hany
          simp only [sameSessionKey, Bool.and_eq_true, decide_eq_true_eq] at hk
          have := (hinv s hs).2
          rw [hk.1.2] at this
          exact lt_irrefl _ this
        cases hbase : base.any
            (fun s => sameSessionKey s (sessionPayload env batch sch createdBy d)) with
        | true =>
          have hdup : createSession (base ++ acc)
              (sessionPayload env batch sch createdBy d) = none := by
            unfold createSession
            rw [List.any_append, hbase]
            simp
          rw [hdup, List.filter_cons]
          simp only [hbase, Bool.not_true, Bool.false_eq_true, if_false]
          exact ih (d + msPerDay) acc created hfuel2 hinv2
        | false =>
          have hnew : createSession (base ++ acc)
              (sessionPayload env batch sch createdBy d)
              = some (base ++ (acc ++ [sessionPayload env batch sch createdBy d])) := by
            unfold createSession
            rw [List.any_append, hbase, hacc]
            simp
          have hinv3 : ∀ s ∈ acc ++ [sessionPayload env batch sch createdBy d],
              s.batchId = batch._id ∧ s.date < sessionDate (d + msPerDay) := by
            intro s hs
            rw [List.mem_append, List.mem_singleton] at hs
            rcases hs with hs | hs
            · exact hinv2 s hs
            · rw [hs, sessionDate_step]
              refine ⟨rfl, ?_⟩
              show sessionDate d < sessionDate d + msPerDay
              unfold msPerDay
              omega
          rw [hnew, List.filter_cons]
          simp only [hbase, Bool.not_false, if_true]
          rw [ih (d + msPerDay) _ (created + 1) hfuel2 hinv3]
          simp [Nat.add_assoc, Nat.add_comm 1]
      · simp only [Bool.not_eq_true] at hday
        simp only [hday, Bool.not_false, if_true, Bool.false_eq_true, if_false]
        exact ih (d + msPerDay) acc created hfuel2 hinv2
    · have hlt : endDate < d := lt_of_not_le hle
      rw [if_neg hle, meetingInstants_nil days d endDate hlt]
      simp

/-- Closed form of `generateSessionsForBatch` for a batch with a weekday list
and both dates. -/
theorem generateSessions_closed_form (env : GenEnv) (sessions : List AttendanceSession)
    (batch : Batch) (sch : Schedule) (days : List String) (start endDate : Int)
    (regenerate : Bool) (createdBy : Option Nat)
    (hsch : batch.schedule = some sch) (hdays : sch.daysOfWeek = some days)
    (hstart : batch.startDate = some start) (hend : batch.endDate = some endDate) :
    generateSessionsForBatch env sessions batch regenerate createdBy =
      (((meetingInstants days start endDate).filter (fun d =>
          !((if regenerate = true then
              sessions.filter (fun s => decide (s.batchId ≠ batch._id)) else sessions).any
            (fun s => sameSessionKey s (sessionPayload env batch sch createdBy d))))).length,
        (if regenerate = true then
            sessions.filter (fun s => decide (s.batchId ≠ batch._id)) else sessions)
          ++ ((meetingInstants days start endDate).filter (fun d =>
              !((if regenerate = true then
                  sessions.filter (fun s => decide (s.batchId ≠ batch._id))
                  else sessions).any
                (fun s => sameSessionKey s (sessionPayload env batch sch createdBy d))))).map
              (sessionPayload env batch sch createdBy)) := by
  unfold generateSessionsForBatch
  simp only [hsch, hstart, hend, hdays]
  have h := generateLoop_skip env batch sch days createdBy endDate
    (if regenerate = true then
      sessions.filter (fun s => decide (s.batchId ≠ batch._id)) else sessions)
    (loopPasses start endDate) start [] 0 (le_refl _) (by simp)
  simp only [List.append_nil, Nat.zero_add] at h
  exact h

theorem meetingInstants_no_days (start endDate : Int) :
    meetingInstants [] start endDate = [] := by
  simp [meetingInstants]

theorem generateSessions_no_days (env : GenEnv) (sessions : List AttendanceSession)
    (batch : Batch) (sch : Schedule) (createdBy : Option Nat) :
    generateSessionsForBatch env sessions
      { batch with schedule := some { sch with daysOfWeek := some [] } } false createdBy
      = (0, sessions) := by
  cases hstart : batch.startDate with
  | none => simp [generateSessionsForBatch, hstart]
  | some start =>
    cases hend : batch.endDate with
    | none => simp [generateSessionsForBatch, hstart, hend]
    | some endDate =>
      refine (generateSessions_closed_form env sessions
        { batch with
          schedule := some { sch with daysOfWeek := some [] }
          startDate := some start
          endDate := some endDate }
        { sch with daysOfWeek := some [] } [] start endDate false createdBy
        rfl rfl rfl rfl).trans ?_
      simp [meetingInstants_no_days]

/-- C11 (defect): without a schedule, without a weekday list, or without a
start or an end date the call returns `created = 0` and leaves the collection
as it was, for both values of `regenerate`; with an empty weekday list the
same holds for `regenerate = false`, but with `regenerate = true` and both
dates present the guard does not fire and the batch's sessions are deleted:
a batch with `daysOfWeek = []` and one stored session ends with an empty
collection. -/
theorem generateSessions_empty_weekdays_regenerate_deletes :
    (∀ (env : GenEnv) (sessions : List AttendanceSession) (batch : Batch) (sch : Schedule)
        (regenerate : Bool) (createdBy : Option Nat),
        generateSessionsForBatch env sessions { batch with schedule := none } regenerate
            createdBy = (0, sessions)
        ∧ generateSessionsForBatch env sessions
            { batch with schedule := some { sch with daysOfWeek := none } } regenerate
            createdBy = (0, sessions)
        ∧ generateSessionsForBatch env sessions { batch with startDate := none } regenerate
            createdBy = (0, sessions)
        ∧ generateSessionsForBatch env sessions { batch with endDate := none } regenerate
            createdBy = (0, sessions)
        ∧ generateSessionsForBatch env sessions
            { batch with schedule := some { sch with daysOfWeek := some [] } } false
            createdBy = (0, sessions))
    ∧ generateSessionsForBatch ⟨fun _ => 0, fun _ => 0, fun _ => "token"⟩
        [qrSession 50 1 1704067200000 "tok" "scheduled"]
        (weeklyBatch 1 7 [] "10:00" "11:00" 1704067200000 1705190400000) true none
      = (0, []) := by
  refine ⟨?_, rfl⟩
  intro env sessions batch sch regenerate createdBy
  refine ⟨rfl, ?_, ?_, ?_, generateSessions_no_days env sessions batch sch createdBy⟩
  · unfold generateSessionsForBatch
    cases batch.startDate <;> cases batch.endDate <;> rfl
  · unfold generateSessionsForBatch
    cases batch.schedule <;> rfl
  · unfold generateSessionsForBatch
    cases batch.schedule <;> cases batch.startDate <;> rfl

/-- C12: with `regenerate = false`, for a batch with a weekday list and both
dates, the stored sessions stay in place with every attribute unchanged, the
call appends exactly the sessions of the meeting instants whose key
`(batchId, date, startTime)` is not stored yet, and `created` counts only
those; a stored offline session with end 11:00 on the first Monday is kept as
it is when the batch, now online and ending 11:30, is generated, and the three
other dates are created. -/
theorem generateSessions_skips_existing_keys (env : GenEnv)
    (sessions : List AttendanceSession) (batch : Batch) (sch : Schedule)
    (days : List String) (start endDate : Int) (createdBy : Option Nat)
    (hsch : batch.schedule = some sch) (hdays : sch.daysOfWeek = some days)
    (hstart : batch.startDate = some start) (hend : batch.endDate = some endDate) :
    (generateSessionsForBatch env sessions batch false createdBy).2
        = sessions ++ ((meetingInstants days start endDate).filter (fun d =>
            !(sessions.any (fun s =>
              sameSessionKey s (sessionPayload env batch sch createdBy d))))).map
            (sessionPayload env batch sch createdBy)
    ∧ (generateSessionsForBatch env sessions batch false createdBy).1
        = ((meetingInstants days start endDate).filter (fun d =>
            !(sessions.any (fun s =>
              sameSessionKey s (sessionPayload env batch sch createdBy d))))).length
    ∧ (generateSessionsForBatch env sessions batch false createdBy).2.take sessions.length
        = sessions
    ∧ (∀ s ∈ sessions, s ∈ (generateSessionsForBatch env sessions batch false createdBy).2)
    ∧ (generateSessionsForBatch ⟨fun _ => 0, fun _ => 0, fun _ => "token"⟩
          [qrSession 50 1 1704067200000 "old" "closed"]
          { weeklyBatch 1 7 ["Mon", "Wed"] "10:00" "11:30" 1704067200000 1705190400000 with
            mode := Mode.online } false none).1 = 3
    ∧ (generateSessionsForBatch ⟨fun _ => 0, fun _ => 0, fun _ => "token"⟩
          [qrSession 50 1 1704067200000 "old" "closed"]
          { weeklyBatch 1 7 ["Mon", "Wed"] "10:00" "11:30" 1704067200000 1705190400000 with
            mode := Mode.online } false none).2.head?
        = some (qrSession 50 1 1704067200000 "old" "closed") := by
  have h := generateSessions_closed_form env sessions batch sch days start endDate false
    createdBy hsch hdays hstart hend
  simp only [Bool.false_eq_true, if_false] at h
  refine ⟨?_, ?_, ?_, ?_, rfl, rfl⟩
  · rw [h]
  · rw [h]
  · rw [h]
    simp
  · intro s hs
    rw [h]
    exact List.mem_append_left _ hs

theorem generateSessions_skips_existing_keys_witness :
    (generateSessionsForBatch ⟨fun _ => 0, fun _ => 0, fun _ => "token"⟩
        [qrSession 50 1 1704067200000 "old" "closed"]
        { weeklyBatch 1 7 ["Mon", "Wed"] "10:00" "11:30" 1704067200000 1705190400000 with
          mode := Mode.online } false none).2.take
          [qrSession 50 1 1704067200000 "old" "closed"].length
      = [qrSession 50 1 1704067200000 "old" "closed"] :=
  (generateSessions_skips_existing_keys ⟨fun _ => 0, fun _ => 0, fun _ => "token"⟩
    [qrSession 50 1 1704067200000 "old" "closed"]
    { weeklyBatch 1 7 ["Mon", "Wed"] "10:00" "11:30" 1704067200000 1705190400000 with
      mode := Mode.online }
    ⟨some ["Mon", "Wed"], some "10:00", some "11:30", some "Asia/Kolkata"⟩ ["Mon", "Wed"]
    1704067200000 1705190400000 none rfl rfl rfl rfl).2.2.1

/-- C13: every session `generateSessionsForBatch` constructs has `autoOnline`
true exactly when the batch mode is online, `qrEnabled` true exactly when it
is not, so exactly one of the two, a `qrCodeToken` exactly when `qrEnabled`,
and the mode, start time and end time of the batch (an empty time string
being stored as null); every session in the collection after the call is a
stored one or one constructed in this way. -/
theorem generateSessions_constructed_flags (env : GenEnv)
    (sessions : List AttendanceSession) (batch : Batch) (sch : Schedule)
    (regenerate : Bool) (createdBy : Option Nat) (hsch : batch.schedule = some sch) :
    (∀ d : Int,
        ((sessionPayload env batch sch createdBy d).autoOnline = true
            ↔ batch.mode = Mode.online)
        ∧ ((sessionPayload env batch sch createdBy d).qrEnabled = true
            ↔ batch.mode ≠ Mode.online)
        ∧ (sessionPayload env batch sch createdBy d).autoOnline
            = !(sessionPayload env batch sch createdBy d).qrEnabled
        ∧ ((sessionPayload env batch sch createdBy d).qrCodeToken.isSome = true
            ↔ (sessionPayload env batch sch createdBy d).qrEnabled = true)
        ∧ (sessionPayload env batch sch createdBy d).mode = batch.mode
        ∧ (sessionPayload env batch sch createdBy d).startTime = strOr sch.startTime none
        ∧ (sessionPayload env batch sch createdBy d).endTime = strOr sch.endTime none
        ∧ (sessionPayload env batch sch createdBy d).batchId = batch._id)
    ∧ (∀ t : String, t.data ≠ [] → strOr (some t) none = some t)
    ∧ strOr none none = none
    ∧ ∀ s ∈ (generateSessionsForBatch env sessions batch regenerate createdBy).2,
        s ∈ sessions ∨ ∃ d : Int, s = sessionPayload env batch sch createdBy d := by
  refine ⟨?_, ?_, rfl, ?_⟩
  · intro d
    cases hm : batch.mode <;> simp [sessionPayload, hm]
  · intro t ht
    simp [strOr, ht]
  · intro s hs
    cases hstart : batch.startDate with
    | none =>
      left
      simpa [generateSessionsForBatch, hsch, hstart] using hs
    | some start =>
      cases hend : batch.endDate with
      | none =>
        left
        simpa [generateSessionsForBatch, hsch, hstart, hend] using hs
      | some endDate =>
        cases hdays : sch.daysOfWeek with
        | none =>
          left
          simpa [generateSessionsForBatch, hsch, hstart, hend, hdays] using hs
        | some days =>
          rw [generateSessions_closed_form env sessions batch sch days start endDate
            regenerate createdBy hsch hdays hstart hend] at hs
          simp only [List.mem_append, List.mem_map] at hs
          rcases hs with hs | ⟨d, _, hd⟩
          · left
            split at hs
            · exact (List.mem_filter.mp hs).1
            · exact hs
          · exact Or.inr ⟨d, hd.symm⟩

theorem generateSessions_constructed_flags_witness :
    (sessionPayload ⟨fun _ => 0, fun _ => 0, fun _ => "token"⟩
        (weeklyBatch 1 7 ["Mon", "Wed"] "10:00" "11:30" 1704067200000 1705190400000)
        ⟨some ["Mon", "Wed"], some "10:00", some "11:30", some "Asia/Kolkata"⟩ none
        1704067200000).qrCodeToken.isSome = true
      ↔ (sessionPayload ⟨fun _ => 0, fun _ => 0, fun _ => "token"⟩
        (weeklyBatch 1 7 ["Mon", "Wed"] "10:00" "11:30" 1704067200000 1705190400000)
        ⟨some ["Mon", "Wed"], some "10:00", some "11:30", some "Asia/Kolkata"⟩ none
        1704067200000).qrEnabled = true :=
  ((generateSessions_constructed_flags ⟨fun _ => 0, fun _ => 0, fun _ => "token"⟩ []
    (weeklyBatch 1 7 ["Mon", "Wed"] "10:00" "11:30" 1704067200000 1705190400000)
    ⟨some ["Mon", "Wed"], some "10:00", some "11:30", some "Asia/Kolkata"⟩ false none
    rfl).1 1704067200000).2.2.2.1

/-! ## Attendance recorder: theorems -/

theorem updateFirst_filter_frame {α : Type} (p q : α → Bool) (f : α → α)
    (hq : ∀ x, p x = true → q x = false ∧ q (f x) = false) (l : List α) :
    (updateFirst p f l).filter q = l.filter q := by
  induction l with
  | nil => rfl
  | cons x xs ih =>
    unfold updateFirst
    by_cases hp : p x = true
    · simp [hp, List.filter_cons, (hq x hp).1, (hq x hp).2]
    · simp only [hp, Bool.false_eq_true, if_false, List.filter_cons, ih]

theorem updateFirst_filter_self {α : Type} (p : α → Bool) (f : α → α)
    (hf : ∀ x, p x = true → p (f x) = true) (l : List α) (r : α)
    (hone : (l.filter p).length ≤ 1) (hfind : l.find? p = some r) :
    (updateFirst p f l).filter p = [f r] := by
  induction l with
  | nil => simp at hfind
  | cons x xs ih =>
    unfold updateFirst
    by_cases hp : p x = true
    · simp only [List.find?_cons, hp, Option.some.injEq] at hfind
      subst hfind
      simp only [List.filter_cons, hp, if_true, List.length_cons] at hone
      have hnil : xs.filter p = [] := List.length_eq_zero.mp (by omega)
      simp [hp, List.filter_cons, hf x hp, hnil]
    · simp only [Bool.not_eq_true] at hp
      simp only [List.find?_cons, hp] at hfind
      simp only [List.filter_cons, hp, Bool.false_eq_true, if_false] at hone
      simp only [hp, Bool.false_eq_true, if_false, List.filter_cons]
      exact ih hone hfind

theorem hasKey_applyUpdate (u : RecordUpdate) (r : AttendanceRecord) :
    hasKey u.sessionId u.learnerId (applyUpdate u r) = true := by
  simp [hasKey, applyUpdate]

theorem hasKey_insertedRecord (env : AttendEnv) (u : RecordUpdate) :
    hasKey u.sessionId u.learnerId (insertedRecord env u) = true := by
  simp [hasKey, insertedRecord]

/-- Records outside the pair of the upsert are untouched. -/
theorem findOneAndUpdate_frame (env : AttendEnv) (records : List AttendanceRecord)
    (u : RecordUpdate) (q : AttendanceRecord → Bool)
    (hq : ∀ r, hasKey u.sessionId u.learnerId r = true → q r = false) :
    (findOneAndUpdate env records u).2.filter q = records.filter q := by
  unfold findOneAndUpdate
  cases hfind : records.find? (hasKey u.sessionId u.learnerId) with
  | none =>
    simp [List.filter_append, List.filter_cons, hq _ (hasKey_insertedRecord env u)]
  | some r =>
    simp only
    apply updateFirst_filter_frame
    intro x hx
    exact ⟨hq x hx, hq _ (hasKey_applyUpdate u x)⟩

/-- After an upsert on a collection that respects the unique index, the pair
has exactly one record: the written one. -/
theorem findOneAndUpdate_key (env : AttendEnv) (records : List AttendanceRecord)
    (u : RecordUpdate) (huniq : uniquePairs records) :
    (findOneAndUpdate env records u).2.filter (hasKey u.sessionId u.learnerId)
        = [(findOneAndUpdate env records u).1]
    ∧ (findOneAndUpdate env records u).1.status = u.status
    ∧ (findOneAndUpdate env records u).1.source = u.source
    ∧ (findOneAndUpdate env records u).1.checkedInAt = u.checkedInAt := by
  unfold findOneAndUpdate
  cases hfind : records.find? (hasKey u.sessionId u.learnerId) with
  | none =>
    refine ⟨?_, rfl, rfl, rfl⟩
    have hnil : records.filter (hasKey u.sessionId u.learnerId) = [] := by
      rw [List.filter_eq_nil_iff]
      intro r hr
      have := List.find?_eq_none.mp hfind r hr
      simpa using this
    simp [List.filter_append, hnil, List.filter_cons, hasKey_insertedRecord env u]
  | some r =>
    exact ⟨updateFirst_filter_self _ _ (fun x _ => hasKey_applyUpdate u x) records r
      (huniq u.sessionId u.learnerId) hfind, rfl, rfl, rfl⟩

theorem hasKey_eq_of_both (s1 l1 s2 l2 : Nat) (r : AttendanceRecord)
    (h1 : hasKey s1 l1 r = true) (h2 : hasKey s2 l2 r = true) : s1 = s2 ∧ l1 = l2 := by
  simp only [hasKey, Bool.and_eq_true, decide_eq_true_eq] at h1 h2
  exact ⟨h1.1.symm.trans h2.1, h1.2.symm.trans h2.2⟩

theorem findOneAndUpdate_unique (env : AttendEnv) (records : List AttendanceRecord)
    (u : RecordUpdate) (huniq : uniquePairs records) :
    uniquePairs (findOneAndUpdate env records u).2 := by
  intro sid lid
  by_cases hk : sid = u.sessionId ∧ lid = u.learnerId
  · obtain ⟨rfl, rfl⟩ := hk
    rw [(findOneAndUpdate_key env records u huniq).1]
    simp
  · rw [findOneAndUpdate_frame env records u (hasKey sid lid)]
    · exact huniq sid lid
    · intro r hr
      rw [Bool.eq_false_iff]
      intro hr2
      have := hasKey_eq_of_both _ _ _ _ r hr2 hr
      exact hk this

/-- The loop of `autoMarkOnlineSession` on a collection that respects the
unique index: the index still holds, `updatedCount` grows by one per enrollment
counted present, records of pairs that are not written are untouched, and each
written pair has exactly one record, present with source `online-auto`. -/
theorem markLoop_spec (env : AttendEnv) (session : AttendanceSession)
    (present : Option (List Nat)) (es : List Enrollment) :
    ∀ (records : List AttendanceRecord) (count : Nat), uniquePairs records →
      uniquePairs (markLoop env session present es records count).2
      ∧ (markLoop env session present es records count).1
          = count + (es.filter (fun e => isPresent present e.learnerId)).length
      ∧ (∀ q : AttendanceRecord → Bool,
          (∀ e ∈ es, isPresent present e.learnerId = true →
            ∀ r, hasKey session._id e.learnerId r = true → q r = false) →
          (markLoop env session present es records count).2.filter q = records.filter q)
      ∧ (∀ e ∈ es, isPresent present e.learnerId = true →
          ∃ r, (markLoop env session present es records count).2.filter
              (hasKey session._id e.learnerId) = [r]
            ∧ r.status = "present" ∧ r.source = "online-auto"
            ∧ r.checkedInAt = env.now) := by
  induction es with
  | nil =>
    intro records count huniq
    exact ⟨huniq, by simp [markLoop], fun _ _ => rfl, by simp⟩
  | cons e0 rest ih =>
    intro records count huniq
    unfold markLoop
    by_cases hp : isPresent present e0.learnerId = true
    · simp only [hp, Bool.not_true, Bool.false_eq_true, if_false]
      have huniq1 := findOneAndUpdate_unique env records (onlineUpdate env session e0) huniq
      have hkey1 := findOneAndUpdate_key env records (onlineUpdate env session e0) huniq
      obtain ⟨hu, hc, hframe, hwritten⟩ := ih
        (findOneAndUpdate env records (onlineUpdate env session e0)).2 (count + 1) huniq1
      refine ⟨hu, ?_, ?_, ?_⟩
      · rw [hc, List.filter_cons]
        simp only [hp, if_true, List.length_cons]
        omega
      · intro q hq
        rw [hframe q (fun e he => hq e (List.mem_cons_of_mem _ he))]
        exact findOneAndUpdate_frame env records (onlineUpdate env session e0) q
          (hq e0 (List.mem_cons_self _ _) hp)
      · intro e he hpe
        by_cases hlater : ∃ e2 ∈ rest, isPresent present e2.learnerId = true
            ∧ e2.learnerId = e.learnerId
        · obtain ⟨e2, he2, hp2, heq⟩ := hlater
          rw [← heq]
          exact hwritten e2 he2 hp2
        · have he0 : e.learnerId = e0.learnerId := by
            rcases List.mem_cons.mp he with h | h
            · rw [h]
            · exact absurd ⟨e, h, hpe, rfl⟩ hlater
          rw [hframe (hasKey session._id e.learnerId)]
          · rw [he0]
            exact ⟨_, hkey1.1, hkey1.2.1, hkey1.2.2.1, hkey1.2.2.2⟩
          · intro e2 he2 hp2 r hr
            rw [Bool.eq_false_iff]
            intro hr2
            have := (hasKey_eq_of_both _ _ _ _ r hr hr2).2
            exact hlater ⟨e2, he2, hp2, this⟩
    · simp only [Bool.not_eq_true] at hp
      simp only [hp, Bool.not_false, if_true]
      obtain ⟨hu, hc, hframe, hwritten⟩ := ih records count huniq
      refine ⟨hu, ?_, ?_, ?_⟩
      · rw [hc, List.filter_cons]
        simp [hp]
      · intro q hq
        exact hframe q (fun e he => hq e (List.mem_cons_of_mem _ he))
      · intro e he hpe
        rcases List.mem_cons.mp he with h | h
        · rw [h, hp] at hpe
          exact absurd hpe (by simp)
        · exact hwritten e h hpe

theorem findSessionByToken_none_iff (sessions : List AttendanceSession) (token : String) :
    findSessionByToken sessions token = none ↔
      ¬ ∃ s ∈ sessions, s.qrCodeToken = some token ∧ s.qrEnabled = true := by
  unfold findSessionByToken
  rw [List.find?_eq_none]
  simp

theorem findSessionByToken_some (sessions : List AttendanceSession) (token : String)
    (session : AttendanceSession) (h : findSessionByToken sessions token = some session) :
    session ∈ sessions ∧ session.qrCodeToken = some token ∧ session.qrEnabled = true := by
  unfold findSessionByToken at h
  have hp := List.find?_some h
  simp only [Bool.and_eq_true, decide_eq_true_eq] at hp
  exact ⟨List.mem_of_find?_eq_some h, hp.1, hp.2⟩

theorem findEnrollment_isSome_iff (enrollments : List Enrollment) (batchId learnerId : Nat) :
    (findEnrollment enrollments batchId learnerId).isSome = true ↔
      ∃ e ∈ enrollments, e.batchId = batchId ∧ e.learnerId = learnerId
        ∧ e.status ∈ ["pending", "confirmed", "completed"] := by
  unfold findEnrollment attendableStatuses
  rw [List.find?_isSome]
  simp [and_assoc]

/-- C15: for a learner caller, `markAttendanceByQr` succeeds exactly when the
token resolves to a session with `qrEnabled` and the caller has an enrollment
in that session's batch with status pending, confirmed or completed; when no
session has the token it fails with the invalid-or-expired-code error, when the
caller has no such enrollment with the not-enrolled error, and in both cases
the record collection is returned as it was. -/
theorem markAttendanceByQr_outcome (env : AttendEnv) (sessions : List AttendanceSession)
    (records : List AttendanceRecord) (enrollments : List Enrollment) (cu : CurrentUser)
    (token : String) (hrole : cu.role = "learner") :
    ((∃ rec, (markAttendanceByQr env sessions records enrollments (some cu) token).1
          = Except.ok rec)
      ↔ ∃ session, findSessionByToken sessions token = some session
          ∧ ∃ learnerId, cu.userId = some learnerId
            ∧ ∃ e ∈ enrollments, e.batchId = session.batchId ∧ e.learnerId = learnerId
              ∧ e.status ∈ ["pending", "confirmed", "completed"])
    ∧ (∀ session, findSessionByToken sessions token = some session →
        session ∈ sessions ∧ session.qrCodeToken = some token ∧ session.qrEnabled = true)
    ∧ ((¬ ∃ s ∈ sessions, s.qrCodeToken = some token ∧ s.qrEnabled = true) →
        markAttendanceByQr env sessions records enrollments (some cu) token
          = (Except.error (ServiceError.http 400 "Invalid or expired QR code"), records))
    ∧ (∀ session, findSessionByToken sessions token = some session →
        (¬ ∃ learnerId, cu.userId = some learnerId
            ∧ ∃ e ∈ enrollments, e.batchId = session.batchId ∧ e.learnerId = learnerId
              ∧ e.status ∈ ["pending", "confirmed", "completed"]) →
        markAttendanceByQr env sessions records enrollments (some cu) token
          = (Except.error (ServiceError.http 403 "You are not enrolled in this batch"),
              records))
    ∧ ((∀ s1 ∈ sessions, ∀ s2 ∈ sessions, s1.qrCodeToken = some token → s1.qrEnabled = true →
          s2.qrCodeToken = some token → s2.qrEnabled = true → s1.batchId = s2.batchId) →
        ((∃ rec, (markAttendanceByQr env sessions records enrollments (some cu) token).1
            = Except.ok rec)
          ↔ ∃ s ∈ sessions, s.qrCodeToken = some token ∧ s.qrEnabled = true
              ∧ ∃ learnerId, cu.userId = some learnerId
                ∧ ∃ e ∈ enrollments, e.batchId = s.batchId ∧ e.learnerId = learnerId
                  ∧ e.status ∈ ["pending", "confirmed", "completed"])) := by
  have hmain : (∃ rec, (markAttendanceByQr env sessions records enrollments (some cu) token).1
          = Except.ok rec)
      ↔ ∃ session, findSessionByToken sessions token = some session
          ∧ ∃ learnerId, cu.userId = some learnerId
            ∧ ∃ e ∈ enrollments, e.batchId = session.batchId ∧ e.learnerId = learnerId
              ∧ e.status ∈ ["pending", "confirmed", "completed"] := by
    unfold markAttendanceByQr
    simp only [hrole, ne_eq, not_true_eq_false, if_false]
    cases hs : findSessionByToken sessions token with
    | none => simp
    | some session =>
      cases hu : cu.userId with
      | none => simp
      | some learnerId =>
        cases he : findEnrollment enrollments session.batchId learnerId with
        | none =>
          have hno := (findEnrollment_isSome_iff enrollments session.batchId learnerId).not.mp
            (by simp [he])
          simp only [he, reduceCtorEq, exists_false, false_iff]
          rintro ⟨s2, hs2, l2, hl2, hex⟩
          simp only [Option.some.injEq] at hs2 hl2
          subst hs2
          subst hl2
          exact hno hex
        | some e =>
          have hyes := (findEnrollment_isSome_iff enrollments session.batchId learnerId).mp
            (by simp [he])
          simp only [he, Except.ok.injEq, exists_eq', true_iff]
          exact ⟨session, rfl, learnerId, rfl, hyes⟩
  refine ⟨hmain, findSessionByToken_some sessions token, ?_, ?_, ?_⟩
  · intro hnone
    have := (findSessionByToken_none_iff sessions token).mpr hnone
    simp [markAttendanceByQr, hrole, this]
  · intro session hs hno
    unfold markAttendanceByQr
    simp only [hrole, ne_eq, not_true_eq_false, if_false, hs]
    cases hu : cu.userId with
    | none => rfl
    | some learnerId =>
      cases he : findEnrollment enrollments session.batchId learnerId with
      | none => simp [he]
      | some e =>
        exfalso
        apply hno
        exact ⟨learnerId, hu, (findEnrollment_isSome_iff enrollments session.batchId
          learnerId).mp (by simp [he])⟩
  · intro huniq
    rw [hmain]
    constructor
    · rintro ⟨session, hs, rest⟩
      obtain ⟨hmem, htok, hen⟩ := findSessionByToken_some sessions token session hs
      exact ⟨session, hmem, htok, hen, rest⟩
    · rintro ⟨s, hmem, htok, hen, learnerId, hu, e, he, hb, hl, hst⟩
      cases hs : findSessionByToken sessions token with
      | none =>
        exact absurd ⟨s, hmem, htok, hen⟩ ((findSessionByToken_none_iff sessions token).mp hs)
      | some session =>
        obtain ⟨hmem2, htok2, hen2⟩ := findSessionByToken_some sessions token session hs
        have hsame := huniq s hmem session hmem2 htok hen htok2 hen2
        exact ⟨session, rfl, learnerId, hu, e, he, hb.trans hsame, hl, hst⟩

theorem markAttendanceByQr_outcome_witness :
    (∃ rec, (markAttendanceByQr ⟨100, 101, fun _ => 900⟩
        [qrSession 10 1 1704067200000 "tok" "closed"] []
        [⟨1, 1, 5, "confirmed"⟩] (some ⟨some 5, "learner", none⟩) "tok").1 = Except.ok rec)
    ↔ ∃ session, findSessionByToken [qrSession 10 1 1704067200000 "tok" "closed"] "tok"
          = some session
        ∧ ∃ learnerId, (⟨some 5, "learner", none⟩ : CurrentUser).userId = some learnerId
          ∧ ∃ e ∈ [(⟨1, 1, 5, "confirmed"⟩ : Enrollment)], e.batchId = session.batchId
            ∧ e.learnerId = learnerId ∧ e.status ∈ ["pending", "confirmed", "completed"] :=
  (markAttendanceByQr_outcome ⟨100, 101, fun _ => 900⟩
    [qrSession 10 1 1704067200000 "tok" "closed"] [] [⟨1, 1, 5, "confirmed"⟩]
    ⟨some 5, "learner", none⟩ "tok" rfl).1

theorem autoMarkOnlineSession_online (env : AttendEnv) (sessions : List AttendanceSession)
    (records : List AttendanceRecord) (enrollments : List Enrollment) (sessionId : Nat)
    (present : Option (List Nat)) (session : AttendanceSession)
    (hfind : sessions.find? (fun s => decide (s._id = sessionId)) = some session)
    (hmode : session.mode = Mode.online) :
    autoMarkOnlineSession env sessions records enrollments sessionId present =
      (Except.ok (markLoop env session present
          (attendableEnrollments enrollments session.batchId) records 0).1,
        closeSession env sessions session,
        (markLoop env session present
          (attendableEnrollments enrollments session.batchId) records 0).2) := by
  simp [autoMarkOnlineSession, hfind, hmode]

theorem attendableEnrollments_mem (enrollments : List Enrollment) (batchId : Nat)
    (e : Enrollment) :
    e ∈ attendableEnrollments enrollments batchId ↔
      e ∈ enrollments ∧ e.batchId = batchId
        ∧ e.status ∈ ["pending", "confirmed", "completed"] := by
  unfold attendableEnrollments attendableStatuses
  rw [List.mem_filter]
  simp

theorem isPresent_iff (present : Option (List Nat)) (learnerId : Nat) :
    isPresent present learnerId = true ↔
      present = none ∨ present = some [] ∨ ∃ ids, present = some ids ∧ learnerId ∈ ids := by
  unfold isPresent
  cases present with
  | none => simp
  | some ids =>
    cases ids with
    | nil => simp
    | cons x xs => simp

/-- C16: after a successful `autoMarkOnlineSession` on a collection that
respects the unique index, a learner who has an enrollment in the session's
batch with status pending, confirmed or completed, and who is in the explicit
set or faces an empty or absent set, has exactly one record for the session,
present with source `online-auto` and written at this call; every other
learner's records are exactly as before, and so are the records of other
sessions. -/
theorem autoMarkOnlineSession_marks_exactly_eligible (env : AttendEnv)
    (sessions : List AttendanceSession) (records : List AttendanceRecord)
    (enrollments : List Enrollment) (sessionId : Nat) (present : Option (List Nat))
    (session : AttendanceSession)
    (hfind : sessions.find? (fun s => decide (s._id = sessionId)) = some session)
    (hmode : session.mode = Mode.online) (huniq : uniquePairs records) :
    (∃ n, (autoMarkOnlineSession env sessions records enrollments sessionId present).1
        = Except.ok n)
    ∧ (∀ learnerId : Nat,
        ((∃ e ∈ enrollments, e.batchId = session.batchId ∧ e.learnerId = learnerId
              ∧ e.status ∈ ["pending", "confirmed", "completed"])
            ∧ (present = none ∨ present = some []
              ∨ ∃ ids, present = some ids ∧ learnerId ∈ ids)) →
        ∃ r, (autoMarkOnlineSession env sessions records enrollments sessionId present).2.2.filter
              (hasKey session._id learnerId) = [r]
          ∧ r.status = "present" ∧ r.source = "online-auto" ∧ r.checkedInAt = env.now)
    ∧ (∀ learnerId : Nat,
        ¬ ((∃ e ∈ enrollments, e.batchId = session.batchId ∧ e.learnerId = learnerId
              ∧ e.status ∈ ["pending", "confirmed", "completed"])
            ∧ (present = none ∨ present = some []
              ∨ ∃ ids, present = some ids ∧ learnerId ∈ ids)) →
        (autoMarkOnlineSession env sessions records enrollments sessionId present).2.2.filter
            (fun r => decide (r.learnerId = learnerId))
          = records.filter (fun r => decide (r.learnerId = learnerId)))
    ∧ (autoMarkOnlineSession env sessions records enrollments sessionId present).2.2.filter
          (fun r => decide (r.sessionId ≠ session._id))
        = records.filter (fun r => decide (r.sessionId ≠ session._id))
    ∧ uniquePairs
        (autoMarkOnlineSession env sessions records enrollments sessionId present).2.2 := by
  rw [autoMarkOnlineSession_online env sessions records enrollments sessionId present session
    hfind hmode]
  obtain ⟨hu, _, hframe, hwritten⟩ := markLoop_spec env session present
    (attendableEnrollments enrollments session.batchId) records 0 huniq
  refine ⟨⟨_, rfl⟩, ?_, ?_, ?_, hu⟩
  · rintro learnerId ⟨⟨e, he, hb, hl, hst⟩, hpres⟩
    have hmem := (attendableEnrollments_mem enrollments session.batchId e).mpr ⟨he, hb, hst⟩
    have hp : isPresent present e.learnerId = true := by
      rw [isPresent_iff, hl]
      exact hpres
    have := hwritten e hmem hp
    rw [hl] at this
    exact this
  · intro learnerId hnot
    apply hframe
    intro e he hp r hr
    rw [Bool.eq_false_iff]
    intro hr2
    simp only [hasKey, Bool.and_eq_true, decide_eq_true_eq] at hr hr2
    have hl : e.learnerId = learnerId := hr.2.symm.trans hr2
    obtain ⟨hin, hb, hst⟩ := (attendableEnrollments_mem enrollments session.batchId e).mp he
    apply hnot
    refine ⟨⟨e, hin, hb, hl, hst⟩, ?_⟩
    rw [← hl, ← isPresent_iff]
    exact hp
  · apply hframe
    intro e _ _ r hr
    simp only [hasKey, Bool.and_eq_true, decide_eq_true_eq] at hr
    simp [hr.1]

theorem autoMarkOnlineSession_marks_exactly_eligible_witness :
    ∃ n, (autoMarkOnlineSession ⟨100, 101, fun _ => 900⟩
        [onlineSession 10 1 1704067200000 "scheduled"] []
        [⟨1, 1, 5, "confirmed"⟩, ⟨2, 1, 6, "cancelled"⟩] 10 none).1 = Except.ok n :=
  (autoMarkOnlineSession_marks_exactly_eligible ⟨100, 101, fun _ => 900⟩
    [onlineSession 10 1 1704067200000 "scheduled"] []
    [⟨1, 1, 5, "confirmed"⟩, ⟨2, 1, 6, "cancelled"⟩] 10 none
    (onlineSession 10 1 1704067200000 "scheduled") rfl rfl (by intro _ _; simp)).1

theorem closeSession_find (env : AttendEnv) (sessions : List AttendanceSession)
    (sessionId : Nat) (session : AttendanceSession)
    (hfind : sessions.find? (fun s => decide (s._id = sessionId)) = some session) :
    (closeSession env sessions session).find? (fun s => decide (s._id = sessionId))
        = some { session with status := "closed", updatedAt := env.saveNow }
    ∧ (∀ s ∈ closeSession env sessions session, s._id = sessionId → s.status = "closed")
    ∧ (∀ s ∈ closeSession env sessions session, s._id ≠ sessionId → s ∈ sessions) := by
  have hid : session._id = sessionId := by simpa using List.find?_some hfind
  refine ⟨?_, ?_, ?_⟩
  · clear hid
    unfold closeSession
    induction sessions with
    | nil => simp at hfind
    | cons x xs ih =>
      by_cases hx : x._id = sessionId
      · simp only [List.find?_cons, hx, decide_True, Option.some.injEq] at hfind
        subst hfind
        simp [List.find?_cons, hx]
      · simp only [List.find?_cons, hx, decide_False] at hfind
        have hid : session._id = sessionId := by simpa using List.find?_some hfind
        have hne : ¬ x._id = session._id := by rw [hid]; exact hx
        simp only [List.map_cons, hne, if_false, List.find?_cons, hx, decide_False]
        exact ih hfind
  · intro s hs hsid
    unfold closeSession at hs
    rw [List.mem_map] at hs
    obtain ⟨x, _, hx⟩ := hs
    by_cases hxid : x._id = session._id
    · simp only [hxid, if_true] at hx
      rw [← hx]
    · simp only [hxid, if_false] at hx
      rw [hx, hsid, ← hid] at hxid
      exact absurd rfl hxid
  · intro s hs hsid
    unfold closeSession at hs
    rw [List.mem_map] at hs
    obtain ⟨x, hxm, hx⟩ := hs
    by_cases hxid : x._id = session._id
    · simp only [hxid, if_true] at hx
      rw [← hx] at hsid
      exact absurd hid hsid
    · simp only [hxid, if_false] at hx
      rw [← hx]
      exact hxm

/-- C17: for an existing session whose mode is online, whatever its status, the
present set and the enrollments, `autoMarkOnlineSession` succeeds and the
stored session then has status `closed`; with no enrollment it returns 0 and
still closes; a second invocation on the resulting collections succeeds again
and leaves the status `closed`. -/
theorem autoMarkOnlineSession_closes_session (env env2 : AttendEnv)
    (sessions : List AttendanceSession) (records : List AttendanceRecord)
    (enrollments enrollments2 : List Enrollment) (sessionId : Nat)
    (present present2 : Option (List Nat)) (session : AttendanceSession)
    (hfind : sessions.find? (fun s => decide (s._id = sessionId)) = some session)
    (hmode : session.mode = Mode.online) :
    (∃ n, (autoMarkOnlineSession env sessions records enrollments sessionId present).1
        = Except.ok n)
    ∧ (∃ s ∈ (autoMarkOnlineSession env sessions records enrollments sessionId present).2.1,
        s._id = sessionId)
    ∧ (∀ s ∈ (autoMarkOnlineSession env sessions records enrollments sessionId present).2.1,
        s._id = sessionId → s.status = "closed")
    ∧ (autoMarkOnlineSession env sessions records [] sessionId present).1 = Except.ok 0
    ∧ (∀ s ∈ (autoMarkOnlineSession env sessions records [] sessionId present).2.1,
        s._id = sessionId → s.status = "closed")
    ∧ (∃ n, (autoMarkOnlineSession env2
          (autoMarkOnlineSession env sessions records enrollments sessionId present).2.1
          (autoMarkOnlineSession env sessions records enrollments sessionId present).2.2
          enrollments2 sessionId present2).1 = Except.ok n)
    ∧ (∀ s ∈ (autoMarkOnlineSession env2
          (autoMarkOnlineSession env sessions records enrollments sessionId present).2.1
          (autoMarkOnlineSession env sessions records enrollments sessionId present).2.2
          enrollments2 sessionId present2).2.1,
        s._id = sessionId → s.status = "closed") := by
  have h1 := autoMarkOnlineSession_online env sessions records enrollments sessionId present
    session hfind hmode
  have h0 := autoMarkOnlineSession_online env sessions records [] sessionId present
    session hfind hmode
  obtain ⟨hfind2, hclosed, _⟩ := closeSession_find env sessions sessionId session hfind
  have h2 := autoMarkOnlineSession_online env2 (closeSession env sessions session)
    (markLoop env session present
      (attendableEnrollments enrollments session.batchId) records 0).2
    enrollments2 sessionId present2 _ hfind2 hmode
  obtain ⟨_, hclosed2, _⟩ := closeSession_find env2 (closeSession env sessions session)
    sessionId _ hfind2
  refine ⟨⟨_, by rw [h1]⟩, ?_, ?_, ?_, ?_, ?_, ?_⟩
  · rw [h1]
    exact ⟨_, List.mem_of_find?_eq_some hfind2, by simpa using List.find?_some hfind2⟩
  · rw [h1]
    exact hclosed
  · rw [h0]
    rfl
  · rw [h0]
    exact hclosed
  · rw [h1, h2]
    exact ⟨_, rfl⟩
  · rw [h1, h2]
    exact hclosed2

theorem autoMarkOnlineSession_closes_session_witness :
    (∃ n, (autoMarkOnlineSession ⟨100, 101, fun _ => 900⟩
        [onlineSession 10 1 1704067200000 "in-progress"] [] [⟨1, 1, 5, "confirmed"⟩] 10
        (some [6])).1 = Except.ok n)
    ∧ ∃ s ∈ (autoMarkOnlineSession ⟨100, 101, fun _ => 900⟩
        [onlineSession 10 1 1704067200000 "in-progress"] [] [⟨1, 1, 5, "confirmed"⟩] 10
        (some [6])).2.1, s._id = 10 :=
  ⟨(autoMarkOnlineSession_closes_session ⟨100, 101, fun _ => 900⟩ ⟨200, 201, fun _ => 901⟩
    [onlineSession 10 1 1704067200000 "in-progress"] [] [⟨1, 1, 5, "confirmed"⟩] [] 10
    (some [6]) none (onlineSession 10 1 1704067200000 "in-progress") rfl rfl).1,
   (autoMarkOnlineSession_closes_session ⟨100, 101, fun _ => 900⟩ ⟨200, 201, fun _ => 901⟩
    [onlineSession 10 1 1704067200000 "in-progress"] [] [⟨1, 1, 5, "confirmed"⟩] [] 10
    (some [6]) none (onlineSession 10 1 1704067200000 "in-progress") rfl rfl).2.1⟩

/-- C18: `autoMarkOnlineSession` fails with the session-not-found error when no
session has the id, and with the not-an-online-session error when the session
found is offline or hybrid; in both cases the session and the record
collections are returned as they were. -/
theorem autoMarkOnlineSession_failures (env : AttendEnv)
    (sessions : List AttendanceSession) (records : List AttendanceRecord)
    (enrollments : List Enrollment) (sessionId : Nat) (present : Option (List Nat)) :
    ((∀ s ∈ sessions, s._id ≠ sessionId) →
      autoMarkOnlineSession env sessions records enrollments sessionId present
        = (Except.error (ServiceError.http 404 "Attendance session not found"),
            sessions, records))
    ∧ (∀ session, sessions.find? (fun s => decide (s._id = sessionId)) = some session →
        (session.mode = Mode.offline ∨ session.mode = Mode.hybrid) →
        autoMarkOnlineSession env sessions records enrollments sessionId present
          = (Except.error (ServiceError.http 400
              "Auto online attendance only for online sessions"), sessions, records)) := by
  constructor
  · intro hnone
    have : sessions.find? (fun s => decide (s._id = sessionId)) = none := by
      rw [List.find?_eq_none]
      intro s hs
      simpa using hnone s hs
    simp [autoMarkOnlineSession, this]
  · intro session hfind hmode
    have hne : session.mode ≠ Mode.online := by
      rcases hmode with h | h <;> rw [h] <;> decide
    simp [autoMarkOnlineSession, hfind, hne]

theorem autoMarkOnlineSession_failures_witness :
    autoMarkOnlineSession ⟨100, 101, fun _ => 900⟩
        [qrSession 10 1 1704067200000 "tok" "scheduled"] [] [⟨1, 1, 5, "confirmed"⟩] 11 none
      = (Except.error (ServiceError.http 404 "Attendance session not found"),
          [qrSession 10 1 1704067200000 "tok" "scheduled"], [])
    ∧ autoMarkOnlineSession ⟨100, 101, fun _ => 900⟩
        [qrSession 10 1 1704067200000 "tok" "scheduled"] [] [⟨1, 1, 5, "confirmed"⟩] 10 none
      = (Except.error (ServiceError.http 400
          "Auto online attendance only for online sessions"),
          [qrSession 10 1 1704067200000 "tok" "scheduled"], []) :=
  ⟨(autoMarkOnlineSession_failures ⟨100, 101, fun _ => 900⟩
      [qrSession 10 1 1704067200000 "tok" "scheduled"] [] [⟨1, 1, 5, "confirmed"⟩] 11 none).1
      (by decide),
   (autoMarkOnlineSession_failures ⟨100, 101, fun _ => 900⟩
      [qrSession 10 1 1704067200000 "tok" "scheduled"] [] [⟨1, 1, 5, "confirmed"⟩] 10 none).2
      (qrSession 10 1 1704067200000 "tok" "scheduled") rfl (Or.inl rfl)⟩

theorem markLoop_count (env : AttendEnv) (session : AttendanceSession)
    (present : Option (List Nat)) (es : List Enrollment) :
    ∀ (records : List AttendanceRecord) (count : Nat),
      (markLoop env session present es records count).1
        = count + (es.filter (fun e => isPresent present e.learnerId)).length := by
  induction es with
  | nil =>
    intro records count
    simp [markLoop]
  | cons e rest ih =>
    intro records count
    unfold markLoop
    by_cases hp : isPresent present e.learnerId = true
    · simp only [hp, Bool.not_true, Bool.false_eq_true, if_false, List.filter_cons, if_true,
        List.length_cons]
      rw [ih]
      omega
    · simp only [Bool.not_eq_true] at hp
      simp only [hp, Bool.not_false, if_true, List.filter_cons, Bool.false_eq_true, if_false]
      exact ih records count

/-- C19 (as the code has it): a successful `autoMarkOnlineSession` returns as
`updatedCount` the number of enrollments of the session's batch with status
pending, confirmed or completed whose learner is counted present, one count
per enrollment; this is the number of distinct learners marked whenever no
two of these enrollments belong to the same learner. -/
theorem autoMarkOnlineSession_counts_enrollments (env : AttendEnv)
    (sessions : List AttendanceSession) (records : List AttendanceRecord)
    (enrollments : List Enrollment) (sessionId : Nat) (present : Option (List Nat))
    (session : AttendanceSession)
    (hfind : sessions.find? (fun s => decide (s._id = sessionId)) = some session)
    (hmode : session.mode = Mode.online) :
    (autoMarkOnlineSession env sessions records enrollments sessionId present).1
        = Except.ok (((attendableEnrollments enrollments session.batchId).filter
            (fun e => isPresent present e.learnerId)).length)
    ∧ ((((attendableEnrollments enrollments session.batchId).filter
            (fun e => isPresent present e.learnerId)).map (fun e => e.learnerId)).Nodup →
        (autoMarkOnlineSession env sessions records enrollments sessionId present).1
          = Except.ok ((((attendableEnrollments enrollments session.batchId).filter
              (fun e => isPresent present e.learnerId)).map
                (fun e => e.learnerId)).toFinset.card)) := by
  rw [autoMarkOnlineSession_online env sessions records enrollments sessionId present session
    hfind hmode]
  simp only [markLoop_count, Nat.zero_add, true_and]
  intro hnodup
  rw [List.toFinset_card_of_nodup hnodup, List.length_map]

theorem autoMarkOnlineSession_counts_enrollments_witness :
    (autoMarkOnlineSession ⟨100, 101, fun _ => 900⟩
        [onlineSession 10 1 1704067200000 "scheduled"] []
        [⟨1, 1, 5, "confirmed"⟩, ⟨2, 1, 6, "pending"⟩] 10 none).1
      = Except.ok (((attendableEnrollments
          [⟨1, 1, 5, "confirmed"⟩, ⟨2, 1, 6, "pending"⟩] 1).filter
            (fun e => isPresent none e.learnerId)).length) :=
  (autoMarkOnlineSession_counts_enrollments ⟨100, 101, fun _ => 900⟩
    [onlineSession 10 1 1704067200000 "scheduled"] []
    [⟨1, 1, 5, "confirmed"⟩, ⟨2, 1, 6, "pending"⟩] 10 none
    (onlineSession 10 1 1704067200000 "scheduled") rfl rfl).1

/-- C19 as stated fails: a learner with a completed and a confirmed enrollment
in the batch gets one record, yet `updatedCount` is 2. -/
theorem autoMarkOnlineSession_counts_learner_twice :
    (autoMarkOnlineSession ⟨100, 101, fun _ => 900⟩
        [onlineSession 10 1 1704067200000 "scheduled"] []
        [⟨1, 1, 5, "completed"⟩, ⟨2, 1, 5, "confirmed"⟩] 10 none).1 = Except.ok 2
    ∧ ((autoMarkOnlineSession ⟨100, 101, fun _ => 900⟩
        [onlineSession 10 1 1704067200000 "scheduled"] []
        [⟨1, 1, 5, "completed"⟩, ⟨2, 1, 5, "confirmed"⟩] 10 none).2.2.map
          (fun r => (r.sessionId, r.learnerId, r.status, r.source)))
        = [(10, 5, "present", "online-auto")] :=
  ⟨rfl, rfl⟩

/-- One successful call keeps the unique index, leaves exactly one record,
present and with the call's source, on each pair it writes, and leaves the
records of every other pair as they were. -/
theorem applyCall_step (records records2 : List AttendanceRecord) (c : AttendanceCall)
    (huniq : uniquePairs records) (hok : applyCall records c = Except.ok records2) :
    uniquePairs records2
    ∧ ∀ sessionId learnerId,
        (writesPair sessionId learnerId c = true →
          ∃ r, records2.filter (hasKey sessionId learnerId) = [r]
            ∧ r.status = "present" ∧ r.source = sourceOf c)
        ∧ (writesPair sessionId learnerId c = false →
          records2.filter (hasKey sessionId learnerId)
            = records.filter (hasKey sessionId learnerId)) := by
  cases c with
  | scan env sessions enrollments currentUser token =>
    unfold applyCall markAttendanceByQr at hok
    cases currentUser with
    | none => simp at hok
    | some cu =>
      by_cases hrole : cu.role = "learner"
      · simp only [hrole, ne_eq, not_true_eq_false, if_false] at hok
        cases hs : findSessionByToken sessions token with
        | none => simp [hs] at hok
        | some session =>
          cases hu : cu.userId with
          | none => simp [hs, hu] at hok
          | some lid =>
            cases he : findEnrollment enrollments session.batchId lid with
            | none => simp [hs, hu, he] at hok
            | some enrollment =>
              simp only [hs, hu, he, Except.ok.injEq] at hok
              subst hok
              have hkey := findOneAndUpdate_key env records
                (qrUpdate env session enrollment lid) huniq
              refine ⟨findOneAndUpdate_unique env records _ huniq, ?_⟩
              intro sessionId learnerId
              simp only [writesPair, hs, hu, Bool.and_eq_true, decide_eq_true_eq,
                Option.some.injEq]
              constructor
              · rintro ⟨rfl, rfl⟩
                exact ⟨_, hkey.1, hkey.2.1, hkey.2.2.1⟩
              · intro hnot
                apply findOneAndUpdate_frame
                intro r hr
                rw [Bool.eq_false_iff]
                intro hr2
                have := hasKey_eq_of_both _ _ _ _ r hr hr2
                simp only [qrUpdate] at this
                simp [this.1, this.2] at hnot
      · simp [hrole] at hok
  | rollCall env sessions enrollments sid present =>
    unfold applyCall autoMarkOnlineSession at hok
    cases hf : sessions.find? (fun s => decide (s._id = sid)) with
    | none => simp [hf] at hok
    | some session =>
      by_cases hmode : session.mode = Mode.online
      · simp only [hf, hmode, ne_eq, not_true_eq_false, if_false, Except.ok.injEq] at hok
        subst hok
        obtain ⟨hu, _, hframe, hwritten⟩ := markLoop_spec env session present
          (attendableEnrollments enrollments session.batchId) records 0 huniq
        refine ⟨hu, ?_⟩
        intro sessionId learnerId
        simp only [writesPair, hf, Bool.and_eq_true, decide_eq_true_eq, List.any_eq_true]
        constructor
        · rintro ⟨rfl, e, he, hl, hp⟩
          have := hwritten e he hp
          rw [hl] at this
          obtain ⟨r, h1, h2, h3, _⟩ := this
          exact ⟨r, h1, h2, h3⟩
        · intro hnot
          apply hframe
          intro e he hp r hr
          rw [Bool.eq_false_iff]
          intro hr2
          have := hasKey_eq_of_both _ _ _ _ r hr hr2
          have hcontra : (session._id = sessionId ∧ ∃ x,
              x ∈ attendableEnrollments enrollments session.batchId
                ∧ x.learnerId = learnerId ∧ isPresent present x.learnerId = true) :=
            ⟨this.1, e, he, this.2, hp⟩
          rw [Bool.eq_false_iff] at hnot
          apply hnot
          simp only [Bool.and_eq_true, decide_eq_true_eq, List.any_eq_true]
          exact hcontra
      · simp [hf, hmode] at hok

/-- C14: starting from a collection with at most one record per
`(sessionId, learnerId)`, after every sequence of successful
`markAttendanceByQr` and `autoMarkOnlineSession` calls the collection still has
at most one record per pair; a pair written by the sequence has exactly one
record, present, with the source (`qr` or `online-auto`) of the last call that
wrote it; the records of a pair no call wrote are unchanged. -/
theorem runCalls_one_record_per_pair (calls : List AttendanceCall) :
    ∀ (records records2 : List AttendanceRecord), uniquePairs records →
      runCalls records calls = Except.ok records2 →
      uniquePairs records2
      ∧ ∀ sessionId learnerId,
          (∀ src, lastSource sessionId learnerId calls = some src →
            (src = "qr" ∨ src = "online-auto")
            ∧ ∃ r, records2.filter (hasKey sessionId learnerId) = [r]
              ∧ r.status = "present" ∧ r.source = src)
          ∧ (lastSource sessionId learnerId calls = none →
            records2.filter (hasKey sessionId learnerId)
              = records.filter (hasKey sessionId learnerId)) := by
  induction calls with
  | nil =>
    intro records records2 huniq hrun
    simp only [runCalls, Except.ok.injEq] at hrun
    subst hrun
    exact ⟨huniq, fun _ _ => ⟨by simp [lastSource], fun _ => rfl⟩⟩
  | cons c cs ih =>
    intro records records2 huniq hrun
    unfold runCalls at hrun
    cases hc : applyCall records c with
    | error e => simp [hc] at hrun
    | ok records1 =>
      simp only [hc] at hrun
      obtain ⟨huniq1, hstep⟩ := applyCall_step records records1 c huniq hc
      obtain ⟨huniq2, hrest⟩ := ih records1 records2 huniq1 hrun
      refine ⟨huniq2, ?_⟩
      intro sessionId learnerId
      obtain ⟨hsome, hnone⟩ := hrest sessionId learnerId
      obtain ⟨hw, hnw⟩ := hstep sessionId learnerId
      unfold lastSource
      cases hl : lastSource sessionId learnerId cs with
      | some src0 =>
        simp only [Option.some.injEq, reduceCtorEq, false_implies, and_true]
        rintro src rfl
        exact hsome src0 hl
      | none =>
        cases hwp : writesPair sessionId learnerId c with
        | true =>
          simp only [if_true, Option.some.injEq, reduceCtorEq, false_implies, and_true]
          rintro src rfl
          obtain ⟨r, h1, h2, h3⟩ := hw hwp
          refine ⟨?_, r, ?_, h2, h3⟩
          · cases c <;> simp [sourceOf]
          · rw [hnone hl]
            exact h1
        | false =>
          simp only [Bool.false_eq_true, if_false, reduceCtorEq, false_implies, implies_true,
            true_and]
          rw [hnone hl]
          exact fun _ => hnw hwp

theorem runCalls_one_record_per_pair_witness :
    uniquePairs [] ∧ runCalls []
        [AttendanceCall.scan ⟨100, 101, fun _ => 900⟩
            [qrSession 10 1 1704067200000 "tok" "scheduled"] [⟨1, 1, 5, "confirmed"⟩]
            (some ⟨some 5, "learner", none⟩) "tok",
          AttendanceCall.scan ⟨200, 201, fun _ => 901⟩
            [qrSession 10 1 1704067200000 "tok" "scheduled"] [⟨1, 1, 5, "confirmed"⟩]
            (some ⟨some 5, "learner", none⟩) "tok"]
      = Except.ok [⟨900, 10, 1, some 1, 5, "present", "qr", 200, 100, 200⟩]
    ∧ uniquePairs [⟨900, 10, 1, some 1, 5, "present", "qr", 200, 100, 200⟩] :=
  ⟨by intro _ _; simp, rfl,
    (runCalls_one_record_per_pair
      [AttendanceCall.scan ⟨100, 101, fun _ => 900⟩
          [qrSession 10 1 1704067200000 "tok" "scheduled"] [⟨1, 1, 5, "confirmed"⟩]
          (some ⟨some 5, "learner", none⟩) "tok",
        AttendanceCall.scan ⟨200, 201, fun _ => 901⟩
          [qrSession 10 1 1704067200000 "tok" "scheduled"] [⟨1, 1, 5, "confirmed"⟩]
          (some ⟨some 5, "learner", none⟩) "tok"]
      [] [⟨900, 10, 1, some 1, 5, "present", "qr", 200, 100, 200⟩]
      (by intro _ _; simp) rfl).1⟩

/-! ## Time parser and overlap: further theorems -/

/-- C21 (defect): `timeToMinutes` returns null for a value that is not a
string, for the empty string, for a string whose hour field has no leading
number (`"abc"`, `"ab:cd"`) and for one whose minute field has none (`"10:xx"`),
and never raises; but a string without a colon whose field is a number gives
`NaN` (`"1030"`), and a field with a leading number followed by other
characters is read as that number (`"10:3x"` gives 603, `"1a:30"` gives 90). -/
theorem timeToMinutes_malformed_inputs :
    timeToMinutes none = none
    ∧ timeToMinutes (some "") = none
    ∧ timeToMinutes (some "abc") = none
    ∧ timeToMinutes (some "ab:cd") = none
    ∧ timeToMinutes (some "10:xx") = none
    ∧ timeToMinutes (some "1030") = some JsNumber.nan
    ∧ timeToMinutes (some "10:3x") = some (JsNumber.int 603)
    ∧ timeToMinutes (some "1a:30") = some (JsNumber.int 90) := by
  decide

theorem JsNumber.lt_swap_and (a b c d : JsNumber) :
    (a.lt b && c.lt d) = (c.lt d && a.lt b) := Bool.and_comm _ _

/-- C22: for all inputs, each start and each end possibly missing (and any
value possibly `NaN`), `timeRangesOverlap(a, b, c, d)` equals
`timeRangesOverlap(c, d, a, b)`. -/
theorem timeRangesOverlap_symm (a b c d : Option JsNumber) :
    timeRangesOverlap a b c d = timeRangesOverlap c d a b := by
  cases a <;> cases c <;> simp only [timeRangesOverlap]
  exact Bool.and_comm _ _

/-! ## Batch creation and update: what is validated -/

theorem createBatchValidate_ok (currentUser : Option CurrentUser) (data : CreateBatchData)
    (req : CreateRequest) (h : createBatchValidate currentUser data = Except.ok req) :
    data.startDate = some req.startDate ∧ data.endDate = some req.endDate
      ∧ req.schedule = destructureSchedule data.schedule
      ∧ currentUser = some req.caller
      ∧ (req.caller.role = "admin" ∨ req.caller.role = "subOrgAdmin")
      ∧ req.subOrgId = (if req.caller.role = "subOrgAdmin" then
          (match req.caller.subOrgId with
           | some s => some s
           | none => data.subOrgId)
          else data.subOrgId) := by
  unfold createBatchValidate at h
  cases hc : assertCanManageBatch currentUser with
  | error e => simp [hc] at h
  | ok cu =>
    have hcu : currentUser = some cu := by
      cases currentUser with
      | none => simp [assertCanManageBatch] at hc
      | some u =>
        simp only [assertCanManageBatch] at hc
        split at hc
        · simp only [Except.ok.injEq] at hc
          rw [hc]
        · simp at hc
    simp only [hc] at h
    split at h
    · simp at h
    · rename_i hrole
      split at h
      · rename_i name courseId startDate endDate hn hcid hsd hed
        simp only [Except.ok.injEq] at h
        subst h
        refine ⟨hsd, hed, rfl, hcu, ?_, rfl⟩
        have hr2 := hrole
        simp only [Bool.not_eq_true', Bool.not_eq_false, List.contains_eq_any_beq,
          List.any_eq_true, beq_iff_eq] at hr2
        obtain ⟨x, hx, hxe⟩ := hr2
        simp only [List.mem_cons, List.mem_singleton, List.not_mem_nil, or_false] at hx
        rcases hx with hx | hx
        · left
          exact hxe.trans hx
        · right
          exact hxe.trans hx
      · simp at h

theorem createBatch_ok (env : WriteEnv) (batches : List Batch) (users : List OrgUser)
    (currentUser : Option CurrentUser) (data : CreateBatchData) (b : Batch)
    (store : List Batch)
    (h : createBatch env batches users currentUser data = (Except.ok b, store)) :
    ∃ req educatorId sch, createBatchValidate currentUser data = Except.ok req
      ∧ createBatchResolve batches users req data.educatorId = Except.ok educatorId
      ∧ req.schedule = some sch
      ∧ b = newBatchDocument env req data educatorId sch ∧ store = batches ++ [b] := by
  unfold createBatch at h
  cases hv : createBatchValidate currentUser data with
  | error e => simp [hv] at h
  | ok req =>
    cases hr : createBatchResolve batches users req data.educatorId with
    | error e => simp [hv, hr] at h
    | ok educatorId =>
      cases hs : req.schedule with
      | none => simp [hv, hr, hs] at h
      | some sch =>
        simp only [hv, hr, hs, Prod.mk.injEq, Except.ok.injEq] at h
        exact ⟨req, educatorId, sch, rfl, hr, hs, h.1.symm, by rw [← h.2, ← h.1]⟩

theorem applyScheduleUpdate_fields (b : Batch) (data : UpdateBatchData) :
    (applyScheduleUpdate b data).startDate = b.startDate
    ∧ (applyScheduleUpdate b data).endDate = b.endDate
    ∧ (applyScheduleUpdate b data).schedule =
        (match data.schedule with
         | some p => some (mergeSchedule b.schedule p)
         | none => b.schedule) := by
  unfold applyScheduleUpdate
  cases data.schedule <;> exact ⟨rfl, rfl, rfl⟩

theorem updateBatchPrepare_fields (batches : List Batch) (currentUser : Option CurrentUser)
    (batchId : Nat) (data : UpdateBatchData) (cu : CurrentUser) (b : Batch)
    (h : updateBatchPrepare batches currentUser batchId data = Except.ok (cu, b)) :
    ∃ stored ∈ batches, stored._id = batchId
      ∧ b.startDate = (match data.startDate with
          | some d => some d
          | none => stored.startDate)
      ∧ b.endDate = (match data.endDate with
          | some d => some d
          | none => stored.endDate)
      ∧ b.schedule = (match data.schedule with
          | some p => some (mergeSchedule stored.schedule p)
          | none => stored.schedule) := by
  unfold updateBatchPrepare at h
  cases ha : assertCanManageBatch currentUser with
  | error e => simp [ha] at h
  | ok u =>
    cases hf : batches.find? (fun b => decide (b._id = batchId)) with
    | none => simp [ha, hf] at h
    | some stored =>
      have hid : stored._id = batchId := by simpa using List.find?_some hf
      have hmem := List.mem_of_find?_eq_some hf
      refine ⟨stored, hmem, hid, ?_⟩
      simp only [ha, hf] at h
      split at h
      · simp at h
      · split at h
        · simp at h
        · split at h
          · split at h
            · simp at h
            · simp only [Except.ok.injEq, Prod.mk.injEq] at h
              rw [← h.2]
              exact applyScheduleUpdate_fields _ data
          · split at h
            · simp only [Except.ok.injEq, Prod.mk.injEq] at h
              rw [← h.2]
              exact applyScheduleUpdate_fields _ data
            · simp only [Except.ok.injEq, Prod.mk.injEq] at h
              rw [← h.2]
              exact applyScheduleUpdate_fields _ data

theorem updateBatchAssign_fields (batches : List Batch) (users : List OrgUser)
    (cu : CurrentUser) (batch b : Batch) (newEducatorId : Option Nat)
    (h : updateBatchAssign batches users cu batch newEducatorId = Except.ok b) :
    b.startDate = batch.startDate ∧ b.endDate = batch.endDate
      ∧ b.schedule = batch.schedule := by
  unfold updateBatchAssign at h
  split at h
  · simp only [Except.ok.injEq] at h
    rw [← h]
    exact ⟨rfl, rfl, rfl⟩
  · split at h
    · simp at h
    · split at h
      · simp at h
      · split at h
        · simp at h
        · simp only [Except.ok.injEq] at h
          rw [← h]
          exact ⟨rfl, rfl, rfl⟩

/-- C23 (as the code has it): `createBatch` and `updateBatch` do not compare
`startDate` with `endDate` nor `startTime` with `endTime`.  A batch persisted
by `createBatch` carries the dates of the request and its schedule times (an
empty string stored as null); a batch persisted by `updateBatch` carries, for
each date, the submitted value when there is one and the stored value
otherwise, and the stored schedule overlaid with the submitted keys.  So the
persisted batch satisfies the invariant exactly when the data it is built from
does. -/
theorem persisted_batch_copies_dates_and_times (env : WriteEnv) (batches : List Batch)
    (users : List OrgUser) :
    (∀ (currentUser : Option CurrentUser) (data : CreateBatchData) (b : Batch)
        (store : List Batch),
        createBatch env batches users currentUser data = (Except.ok b, store) →
        store = batches ++ [b] ∧ b.startDate = data.startDate ∧ b.endDate = data.endDate
          ∧ ∃ sch src, b.schedule = some sch
            ∧ (data.schedule = ScheduleInput.object src
                ∨ (data.schedule = ScheduleInput.missing ∧ src = ⟨none, none, none, none⟩))
            ∧ sch.startTime = strOr src.startTime none
            ∧ sch.endTime = strOr src.endTime none)
    ∧ (∀ (currentUser : Option CurrentUser) (batchId : Nat) (data : UpdateBatchData)
        (b : Batch) (store : List Batch),
        updateBatch env batches users currentUser batchId data = (Except.ok b, store) →
        store = saveBatch batches b
          ∧ ∃ stored ∈ batches, stored._id = batchId
            ∧ b.startDate = (match data.startDate with
                | some d => some d
                | none => stored.startDate)
            ∧ b.endDate = (match data.endDate with
                | some d => some d
                | none => stored.endDate)
            ∧ b.schedule = (match data.schedule with
                | some p => some (mergeSchedule stored.schedule p)
                | none => stored.schedule)) := by
  constructor
  · intro currentUser data b store h
    obtain ⟨req, eid, src, hv, _, hreq, hb, hs⟩ := createBatch_ok env batches users
      currentUser data b store h
    obtain ⟨hsd, hed, hsch, _⟩ := createBatchValidate_ok currentUser data req hv
    refine ⟨hs, ?_, ?_, ?_⟩
    · rw [hb, hsd]
      rfl
    · rw [hb, hed]
      rfl
    · rw [hsch] at hreq
      refine ⟨_, src, by rw [hb]; rfl, ?_, rfl, rfl⟩
      cases hd : data.schedule with
      | missing =>
        rw [hd] at hreq
        simp only [destructureSchedule, Option.some.injEq] at hreq
        exact Or.inr ⟨rfl, hreq.symm⟩
      | null =>
        rw [hd] at hreq
        simp [destructureSchedule] at hreq
      | object o =>
        rw [hd] at hreq
        simp only [destructureSchedule, Option.some.injEq] at hreq
        rw [hreq]
        exact Or.inl rfl
  · intro currentUser batchId data b store h
    unfold updateBatch at h
    cases hp : updateBatchPrepare batches currentUser batchId data with
    | error e => simp [hp] at h
    | ok pair =>
      obtain ⟨cu, b3⟩ := pair
      cases ha : updateBatchAssign batches users cu b3 data.educatorId with
      | error e => simp [hp, ha] at h
      | ok b4 =>
        simp only [hp, ha, Prod.mk.injEq, Except.ok.injEq] at h
        obtain ⟨stored, hmem, hid, h1, h2, h3⟩ :=
          updateBatchPrepare_fields batches currentUser batchId data cu b3 hp
        obtain ⟨g1, g2, g3⟩ := updateBatchAssign_fields batches users cu b3 b4 data.educatorId ha
        refine ⟨by rw [← h.2, ← h.1], stored, hmem, hid, ?_, ?_, ?_⟩
        · rw [← h.1]
          exact g1.trans h1
        · rw [← h.1]
          exact g2.trans h2
        · rw [← h.1]
          exact g3.trans h3

theorem persisted_batch_copies_dates_and_times_witness :
    (createBatch ⟨100, 50⟩ [] [approvedEducator 7] (some ⟨some 1, "admin", none⟩)
        { name := some "Algebra", code := none, courseId := some 5, educatorId := some 7,
          subOrgId := none, mode := none, startDate := some 0, endDate := some 1000,
          capacity := none,
          schedule := ScheduleInput.object (weeklySchedule ["Mon"] "10:30" "11:30"),
          status := none }).2
      = [] ++ [newBatchDocument ⟨100, 50⟩
          { caller := ⟨some 1, "admin", none⟩, name := "Algebra", courseId := 5,
            startDate := 0, endDate := 1000, subOrgId := none,
            schedule := some (weeklySchedule ["Mon"] "10:30" "11:30") }
          { name := some "Algebra", code := none, courseId := some 5, educatorId := some 7,
            subOrgId := none, mode := none, startDate := some 0, endDate := some 1000,
            capacity := none,
            schedule := ScheduleInput.object (weeklySchedule ["Mon"] "10:30" "11:30"),
            status := none } 7 (weeklySchedule ["Mon"] "10:30" "11:30")] :=
  ((persisted_batch_copies_dates_and_times ⟨100, 50⟩ [] [approvedEducator 7]).1
    (some ⟨some 1, "admin", none⟩)
    { name := some "Algebra", code := none, courseId := some 5, educatorId := some 7,
      subOrgId := none, mode := none, startDate := some 0, endDate := some 1000,
      capacity := none,
      schedule := ScheduleInput.object (weeklySchedule ["Mon"] "10:30" "11:30"),
      status := none } _ _ rfl).1

/-- C23 as stated fails: an admin's `createBatch` with `startDate` after
`endDate` and `startTime` 12:00 after `endTime` 10:00 succeeds and the batch is
stored with these values. -/
theorem createBatch_stores_inverted_range :
    ∃ b, createBatch ⟨100, 50⟩ [] [approvedEducator 7] (some ⟨some 1, "admin", none⟩)
        { name := some "Algebra", code := none, courseId := some 5, educatorId := some 7,
          subOrgId := none, mode := none, startDate := some 1000, endDate := some 0,
          capacity := none,
          schedule := ScheduleInput.object (weeklySchedule ["Mon"] "12:00" "10:00"),
          status := none } = (Except.ok b, [b])
      ∧ b.startDate = some 1000 ∧ b.endDate = some 0 ∧ ¬ ((1000 : Int) ≤ 0)
      ∧ (b.schedule.map (fun s => (s.startTime, s.endTime)))
          = some (some "12:00", some "10:00")
      ∧ timeToMinutes (some "12:00") = some (JsNumber.int 720)
      ∧ timeToMinutes (some "10:00") = some (JsNumber.int 600) :=
  ⟨_, rfl, rfl, rfl, by decide, rfl, by decide, by decide⟩

theorem timeRangesOverlap_unparsed_start (a ae b be : Option JsNumber)
    (h : a = none ∨ a = some JsNumber.nan) : timeRangesOverlap a ae b be = false := by
  rcases h with h | h
  · subst h
    rfl
  · subst h
    cases b with
    | none => rfl
    | some bv =>
      simp only [timeRangesOverlap]
      cases be <;> cases ae <;> simp [JsNumber.lt]

theorem timeRangesOverlap_missing_end (a b be : Option JsNumber) :
    timeRangesOverlap a none b be = timeRangesOverlap a a b be := by
  cases a with
  | none => rfl
  | some av =>
    cases b with
    | none => rfl
    | some bv => rfl

theorem hasScheduleConflict_unparsed_start (batches : List Batch) (educatorId : Nat)
    (sch : Schedule) (startDate endDate : Option Int) (exclude : Option Nat)
    (h : timeToMinutes sch.startTime = none ∨ timeToMinutes sch.startTime = some JsNumber.nan) :
    hasScheduleConflict batches educatorId (some sch) startDate endDate exclude = false := by
  unfold hasScheduleConflict
  simp only
  split
  · rfl
  · rfl
  · rename_i days _ _
    rw [Bool.eq_false_iff]
    intro hany
    rw [List.any_eq_true] at hany
    obtain ⟨b, _, hc⟩ := hany
    unfold conflictsWith at hc
    cases hb : b.schedule with
    | none => simp [hb] at hc
    | some bs =>
      simp only [hb, Bool.and_eq_true] at hc
      rw [timeRangesOverlap_unparsed_start _ _ _ _ h] at hc
      exact absurd hc.2 (by simp)

theorem hasScheduleConflict_missing_end (batches : List Batch) (educatorId : Nat)
    (sch : Schedule) (startDate endDate : Option Int) (exclude : Option Nat)
    (h : timeToMinutes sch.endTime = none) :
    hasScheduleConflict batches educatorId (some sch) startDate endDate exclude
      = hasScheduleConflict batches educatorId
          (some { sch with endTime := sch.startTime }) startDate endDate exclude := by
  have hc : conflictsWith sch startDate endDate
      = conflictsWith { sch with endTime := sch.startTime } startDate endDate := by
    funext b
    unfold conflictsWith
    cases b.schedule with
    | none => rfl
    | some bs =>
      simp only [h]
      rw [timeRangesOverlap_missing_end]
  unfold hasScheduleConflict
  simp only [hc]

/-- C24 (as the code has it): `createBatch` has no invalid-input error for
schedule times.  For a call that passes the earlier checks and names an
approved, in-scope educator: when `startTime` is missing or does not parse
(`timeToMinutes` gives null or `NaN`) the conflict check reports no conflict,
whatever batches the educator has, and the batch is created; when `endTime`
is missing or gives null, the candidate is compared as the instant
`startTime`, and the call either fails with the scheduling-conflict error or
creates the batch. -/
theorem createBatch_unparsed_times_not_rejected (env : WriteEnv) (batches : List Batch)
    (users : List OrgUser) (currentUser : Option CurrentUser) (data : CreateBatchData)
    (req : CreateRequest) (sch : Schedule) (educatorId : Nat) (educator : OrgUser)
    (hvalid : createBatchValidate currentUser data = Except.ok req)
    (hsch : req.schedule = some sch)
    (heid : data.educatorId = some educatorId)
    (hfound : findApprovedEducator users educatorId = some educator)
    (hscope : educatorOutOfScope req.caller educator = false) :
    ((timeToMinutes sch.startTime = none
        ∨ timeToMinutes sch.startTime = some JsNumber.nan) →
      hasScheduleConflict batches educator._id (some sch) (some req.startDate)
          (some req.endDate) none = false
      ∧ createBatch env batches users currentUser data =
          (Except.ok (newBatchDocument env req data educatorId sch),
            batches ++ [newBatchDocument env req data educatorId sch]))
    ∧ (timeToMinutes sch.endTime = none →
      hasScheduleConflict batches educator._id (some sch) (some req.startDate)
          (some req.endDate) none
        = hasScheduleConflict batches educator._id
            (some { sch with endTime := sch.startTime })
            (some req.startDate) (some req.endDate) none)
    ∧ (createBatch env batches users currentUser data =
          (Except.error (ServiceError.http 400
            "Educator already has a conflicting batch for this schedule"), batches)
        ∨ createBatch env batches users currentUser data =
          (Except.ok (newBatchDocument env req data educatorId sch),
            batches ++ [newBatchDocument env req data educatorId sch])) := by
  refine ⟨?_, ?_, ?_⟩
  · intro hstart
    have hconf := hasScheduleConflict_unparsed_start batches educator._id sch
      (some req.startDate) (some req.endDate) none hstart
    exact ⟨hconf, by
      simp [createBatch, hvalid, heid, createBatchResolve, hfound, hscope, hconf, hsch]⟩
  · intro hend
    exact hasScheduleConflict_missing_end batches educator._id sch _ _ none hend
  · cases hconf : hasScheduleConflict batches educator._id (some sch)
        (some req.startDate) (some req.endDate) none with
    | true =>
      left
      simp [createBatch, hvalid, heid, createBatchResolve, hfound, hscope, hconf, hsch]
    | false =>
      right
      simp [createBatch, hvalid, heid, createBatchResolve, hfound, hscope, hconf, hsch]

theorem createBatch_unparsed_times_not_rejected_witness :
    createBatch ⟨100, 50⟩ [weeklyBatch 1 7 ["Mon"] "00:00" "23:59" 0 1000]
        [approvedEducator 7] (some ⟨some 1, "admin", none⟩)
        { name := some "Algebra", code := none, courseId := some 5, educatorId := some 7,
          subOrgId := none, mode := none, startDate := some 0, endDate := some 1000,
          capacity := none,
          schedule := ScheduleInput.object ⟨some ["Mon"], none, some "11:00", none⟩,
          status := none }
      = (Except.ok (newBatchDocument ⟨100, 50⟩
          { caller := ⟨some 1, "admin", none⟩, name := "Algebra", courseId := 5,
            startDate := 0, endDate := 1000, subOrgId := none,
            schedule := some ⟨some ["Mon"], none, some "11:00", none⟩ }
          { name := some "Algebra", code := none, courseId := some 5, educatorId := some 7,
            subOrgId := none, mode := none, startDate := some 0, endDate := some 1000,
            capacity := none,
            schedule := ScheduleInput.object ⟨some ["Mon"], none, some "11:00", none⟩,
            status := none } 7 ⟨some ["Mon"], none, some "11:00", none⟩),
        [weeklyBatch 1 7 ["Mon"] "00:00" "23:59" 0 1000] ++ [newBatchDocument ⟨100, 50⟩
          { caller := ⟨some 1, "admin", none⟩, name := "Algebra", courseId := 5,
            startDate := 0, endDate := 1000, subOrgId := none,
            schedule := some ⟨some ["Mon"], none, some "11:00", none⟩ }
          { name := some "Algebra", code := none, courseId := some 5, educatorId := some 7,
            subOrgId := none, mode := none, startDate := some 0, endDate := some 1000,
            capacity := none,
            schedule := ScheduleInput.object ⟨some ["Mon"], none, some "11:00", none⟩,
            status := none } 7 ⟨some ["Mon"], none, some "11:00", none⟩]) :=
  ((createBatch_unparsed_times_not_rejected ⟨100, 50⟩
    [weeklyBatch 1 7 ["Mon"] "00:00" "23:59" 0 1000] [approvedEducator 7]
    (some ⟨some 1, "admin", none⟩)
    { name := some "Algebra", code := none, courseId := some 5, educatorId := some 7,
      subOrgId := none, mode := none, startDate := some 0, endDate := some 1000,
      capacity := none,
      schedule := ScheduleInput.object ⟨some ["Mon"], none, some "11:00", none⟩,
      status := none }
    { caller := ⟨some 1, "admin", none⟩, name := "Algebra", courseId := 5,
      startDate := 0, endDate := 1000, subOrgId := none,
      schedule := some ⟨some ["Mon"], none, some "11:00", none⟩ }
    ⟨some ["Mon"], none, some "11:00", none⟩
    7 (approvedEducator 7) rfl rfl rfl rfl rfl).1 (Or.inl rfl)).2

/-- C24 as stated fails: a `createBatch` call whose schedule lists Monday, has
no `startTime` (and another whose `startTime` is the malformed `"1030"`), for
an educator busy all Monday, is not rejected: the batch is created. -/
theorem createBatch_accepts_missing_start_time :
    (∃ b, createBatch ⟨100, 50⟩ [weeklyBatch 1 7 ["Mon"] "00:00" "23:59" 0 1000]
        [approvedEducator 7] (some ⟨some 1, "admin", none⟩)
        { name := some "Algebra", code := none, courseId := some 5, educatorId := some 7,
          subOrgId := none, mode := none, startDate := some 0, endDate := some 1000,
          capacity := none,
          schedule := ScheduleInput.object ⟨some ["Mon"], none, some "11:00", none⟩,
          status := none }
      = (Except.ok b, [weeklyBatch 1 7 ["Mon"] "00:00" "23:59" 0 1000, b]))
    ∧ (∃ b, createBatch ⟨100, 50⟩ [weeklyBatch 1 7 ["Mon"] "00:00" "23:59" 0 1000]
        [approvedEducator 7] (some ⟨some 1, "admin", none⟩)
        { name := some "Algebra", code := none, courseId := some 5, educatorId := some 7,
          subOrgId := none, mode := none, startDate := some 0, endDate := some 1000,
          capacity := none,
          schedule := ScheduleInput.object ⟨some ["Mon"], some "1030", some "11:00", none⟩,
          status := none }
      = (Except.ok b, [weeklyBatch 1 7 ["Mon"] "00:00" "23:59" 0 1000, b])) :=
  ⟨⟨_, rfl⟩, ⟨_, rfl⟩⟩

/-- C25 (defect): `updateBatch` runs the conflict check only when the body
names an educator.  Batch 2 of educator 7 (Mon 12:00-13:00) is moved to Mon
10:30-11:30 without `educatorId`; the moved schedule conflicts with batch 1 of
the same educator (Mon 10:00-11:00), yet the update succeeds and is saved; and
whatever the body, a call without `educatorId` that passes the access checks
is saved. -/
theorem updateBatch_schedule_change_skips_conflict_check :
    hasScheduleConflict
        [weeklyBatch 1 7 ["Mon"] "10:00" "11:00" 0 1000,
          weeklyBatch 2 7 ["Mon"] "12:00" "13:00" 0 1000]
        7 (some ⟨some ["Mon"], some "10:30", some "11:30", some "Asia/Kolkata"⟩)
        (some 0) (some 1000) (some 2) = true
    ∧ updateBatch ⟨100, 50⟩
        [weeklyBatch 1 7 ["Mon"] "10:00" "11:00" 0 1000,
          weeklyBatch 2 7 ["Mon"] "12:00" "13:00" 0 1000]
        [approvedEducator 7] (some ⟨some 1, "admin", none⟩) 2
        { educatorId := none,
          schedule := some ⟨none, some (some "10:30"), some (some "11:30"), none⟩,
          mode := none, startDate := none, endDate := none, name := none, code := none,
          capacity := none, subOrgId := none }
      = (Except.ok { weeklyBatch 2 7 ["Mon"] "10:30" "11:30" 0 1000 with updatedAt := 50 },
          [weeklyBatch 1 7 ["Mon"] "10:00" "11:00" 0 1000,
            { weeklyBatch 2 7 ["Mon"] "10:30" "11:30" 0 1000 with updatedAt := 50 }])
    ∧ ∀ (env : WriteEnv) (batches : List Batch) (users : List OrgUser)
        (currentUser : Option CurrentUser) (batchId : Nat) (data : UpdateBatchData),
        updateBatch env batches users currentUser batchId { data with educatorId := none }
          = (match updateBatchPrepare batches currentUser batchId
                { data with educatorId := none } with
             | Except.ok (_, batch) =>
               (Except.ok { batch with updatedAt := env.now },
                 saveBatch batches { batch with updatedAt := env.now })
             | Except.error e => (Except.error e, batches)) := by
  refine ⟨by decide, rfl, ?_⟩
  intro env batches users currentUser batchId data
  unfold updateBatch
  cases hp : updateBatchPrepare batches currentUser batchId { data with educatorId := none } with
  | error e => rfl
  | ok pair =>
    obtain ⟨cu, b⟩ := pair
    simp [updateBatchAssign]

theorem educatorOutOfScope_iff (cu : CurrentUser) (educator : OrgUser) :
    educatorOutOfScope cu educator = true ↔
      cu.role = "subOrgAdmin" ∧ ∃ s t, cu.subOrgId = some s ∧ educator.subOrgId = some t
        ∧ t ≠ s := by
  unfold educatorOutOfScope
  cases hs : cu.subOrgId with
  | none => simp
  | some s =>
    cases ht : educator.subOrgId with
    | none => simp
    | some t => simp

/-- C26 (as the code has it): a `createBatch` call that passes the earlier
checks and names an approved educator fails with the 403 error "Educator not
in your sub-organization", creating nothing, exactly when the caller is a
`subOrgAdmin` with a sub-organization and the educator has a different
sub-organization; an educator without sub-organization is accepted, and the
`subOrgId` of the batch plays no part. -/
theorem createBatch_scope_error_iff (env : WriteEnv) (batches : List Batch)
    (users : List OrgUser) (currentUser : Option CurrentUser) (data : CreateBatchData)
    (req : CreateRequest) (educatorId : Nat) (educator : OrgUser)
    (hvalid : createBatchValidate currentUser data = Except.ok req)
    (heid : data.educatorId = some educatorId)
    (hfound : findApprovedEducator users educatorId = some educator) :
    (createBatch env batches users currentUser data =
        (Except.error (ServiceError.http 403 "Educator not in your sub-organization"), batches)
      ↔ req.caller.role = "subOrgAdmin"
          ∧ ∃ s t, req.caller.subOrgId = some s ∧ educator.subOrgId = some t ∧ t ≠ s)
    ∧ (educatorOutOfScope req.caller educator = false →
        createBatch env batches users currentUser data =
            (Except.error (ServiceError.http 400
              "Educator already has a conflicting batch for this schedule"), batches)
          ∨ (∃ sch, req.schedule = some sch
              ∧ createBatch env batches users currentUser data =
                (Except.ok (newBatchDocument env req data educatorId sch),
                  batches ++ [newBatchDocument env req data educatorId sch]))
          ∨ (req.schedule = none
              ∧ createBatch env batches users currentUser data =
                (Except.error ServiceError.typeError, batches))) := by
  have hno : educatorOutOfScope req.caller educator = false →
      createBatch env batches users currentUser data =
          (Except.error (ServiceError.http 400
            "Educator already has a conflicting batch for this schedule"), batches)
        ∨ (∃ sch, req.schedule = some sch
            ∧ createBatch env batches users currentUser data =
              (Except.ok (newBatchDocument env req data educatorId sch),
                batches ++ [newBatchDocument env req data educatorId sch]))
        ∨ (req.schedule = none
            ∧ createBatch env batches users currentUser data =
              (Except.error ServiceError.typeError, batches)) := by
    intro hscope
    cases hconf : hasScheduleConflict batches educator._id req.schedule
        (some req.startDate) (some req.endDate) none with
    | true =>
      left
      simp [createBatch, hvalid, heid, createBatchResolve, hfound, hscope, hconf]
    | false =>
      right
      cases hs : req.schedule with
      | none =>
        right
        rw [hs] at hconf
        exact ⟨rfl, by
          simp [createBatch, hvalid, heid, createBatchResolve, hfound, hscope, hconf, hs]⟩
      | some sch =>
        left
        rw [hs] at hconf
        exact ⟨sch, rfl, by
          simp [createBatch, hvalid, heid, createBatchResolve, hfound, hscope, hconf, hs]⟩
  refine ⟨?_, hno⟩
  rw [← educatorOutOfScope_iff]
  constructor
  · intro herr
    cases hscope : educatorOutOfScope req.caller educator with
    | true => rfl
    | false =>
      rcases hno hscope with h | ⟨sch, _, h⟩ | ⟨_, h⟩
      · rw [h] at herr
        simp at herr
      · rw [h] at herr
        simp at herr
      · rw [h] at herr
        simp at herr
  · intro hscope
    simp [createBatch, hvalid, heid, createBatchResolve, hfound, hscope]

theorem createBatch_scope_error_iff_witness :
    createBatch ⟨100, 50⟩ [] [{ approvedEducator 7 with subOrgId := some 4 }]
        (some ⟨some 1, "subOrgAdmin", some 3⟩)
        { name := some "Algebra", code := none, courseId := some 5, educatorId := some 7,
          subOrgId := none, mode := none, startDate := some 0, endDate := some 1000,
          capacity := none,
          schedule := ScheduleInput.object (weeklySchedule ["Mon"] "10:30" "11:30"),
          status := none }
      = (Except.error (ServiceError.http 403 "Educator not in your sub-organization"), []) :=
  ((createBatch_scope_error_iff ⟨100, 50⟩ [] [{ approvedEducator 7 with subOrgId := some 4 }]
    (some ⟨some 1, "subOrgAdmin", some 3⟩)
    { name := some "Algebra", code := none, courseId := some 5, educatorId := some 7,
      subOrgId := none, mode := none, startDate := some 0, endDate := some 1000,
      capacity := none,
      schedule := ScheduleInput.object (weeklySchedule ["Mon"] "10:30" "11:30"),
      status := none }
    { caller := ⟨some 1, "subOrgAdmin", some 3⟩, name := "Algebra", courseId := 5,
      startDate := 0, endDate := 1000, subOrgId := some 3,
      schedule := some (weeklySchedule ["Mon"] "10:30" "11:30") }
    7 { approvedEducator 7 with subOrgId := some 4 } rfl rfl rfl).1).2
    ⟨rfl, 3, 4, rfl, rfl, by decide⟩

/-- C26 as stated fails: an admin creates a batch for sub-organization 3 with
an educator of sub-organization 4, and a `subOrgAdmin` of sub-organization 3
creates one with an educator of no sub-organization; both batches are created
with `subOrgId` 3 and that educator. -/
theorem createBatch_accepts_educator_outside_batch_scope :
    (∃ b, createBatch ⟨100, 50⟩ [] [{ approvedEducator 7 with subOrgId := some 4 }]
        (some ⟨some 1, "admin", none⟩)
        { name := some "Algebra", code := none, courseId := some 5, educatorId := some 7,
          subOrgId := some 3, mode := none, startDate := some 0, endDate := some 1000,
          capacity := none,
          schedule := ScheduleInput.object (weeklySchedule ["Mon"] "10:30" "11:30"),
          status := none } = (Except.ok b, [b])
      ∧ b.subOrgId = some 3 ∧ b.educatorId = some 7)
    ∧ (∃ b, createBatch ⟨100, 50⟩ [] [approvedEducator 7]
        (some ⟨some 1, "subOrgAdmin", some 3⟩)
        { name := some "Algebra", code := none, courseId := some 5, educatorId := some 7,
          subOrgId := none, mode := none, startDate := some 0, endDate := some 1000,
          capacity := none,
          schedule := ScheduleInput.object (weeklySchedule ["Mon"] "10:30" "11:30"),
          status := none } = (Except.ok b, [b])
      ∧ b.subOrgId = some 3 ∧ b.educatorId = some 7
      ∧ (approvedEducator 7).subOrgId = none) :=
  ⟨⟨_, rfl, rfl, rfl⟩, ⟨_, rfl, rfl, rfl, rfl⟩⟩

/-! ## Status change: theorems -/

/-- The only test on the requested status: for a caller who may manage batches,
`changeBatchStatus` fails with the 400 error "Invalid status", leaving the
collection unchanged, exactly for a requested status outside draft, published,
ongoing, completed, cancelled; for a batch the caller can reach, every status
of that list is accepted whatever the current status, and is stored. -/
theorem changeBatchStatus_listed_status (env : WriteEnv) (batches : List Batch)
    (currentUser : Option CurrentUser) (cu : CurrentUser) (batchId : Nat) (status : String)
    (hcan : assertCanManageBatch currentUser = Except.ok cu) :
    (status ∉ ["draft", "published", "ongoing", "completed", "cancelled"] →
      changeBatchStatus env batches currentUser batchId status
        = (Except.error (ServiceError.http 400 "Invalid status"), batches))
    ∧ (∀ stored : Batch,
      batches.find? (fun b => decide (b._id = batchId)) = some stored →
      batchOutOfScope cu stored = false →
      ¬ (cu.role = "educator" ∧ stored.educatorId ≠ cu.userId) →
      status ∈ ["draft", "published", "ongoing", "completed", "cancelled"] →
      changeBatchStatus env batches currentUser batchId status
          = (Except.ok { stored with status := status, updatedAt := env.now },
              saveBatch batches { stored with status := status, updatedAt := env.now })
        ∧ (∃ b ∈ (changeBatchStatus env batches currentUser batchId status).2,
            b._id = batchId)
        ∧ ∀ b ∈ (changeBatchStatus env batches currentUser batchId status).2,
            b._id = batchId → b.status = status) := by
  constructor
  · intro hnot
    have : allowedStatuses.contains status = false := by
      rw [Bool.eq_false_iff]
      intro hc
      apply hnot
      simpa [allowedStatuses] using hc
    unfold changeBatchStatus
    simp only [hcan, this, Bool.not_false, if_true]
  · intro stored hfind hscope hown hin
    have hid : stored._id = batchId := by simpa using List.find?_some hfind
    have hmem := List.mem_of_find?_eq_some hfind
    have hallowed : allowedStatuses.contains status = true := by
      simpa [allowedStatuses] using hin
    have hown2 : (decide (cu.role = "educator") && decide (stored.educatorId ≠ cu.userId))
        = false := by
      rw [Bool.eq_false_iff]
      intro h
      simp only [Bool.and_eq_true, decide_eq_true_eq] at h
      exact hown h
    have hres : changeBatchStatus env batches currentUser batchId status
        = (Except.ok { stored with status := status, updatedAt := env.now },
            saveBatch batches { stored with status := status, updatedAt := env.now }) := by
      unfold changeBatchStatus
      simp only [hcan, hallowed, Bool.not_true, Bool.false_eq_true, if_false, hfind, hscope,
        hown2]
    have hsave := saveBatch_stored batches
      { stored with status := status, updatedAt := env.now }
    refine ⟨hres, ?_, ?_⟩
    · rw [hres]
      exact ⟨_, hsave.2 ⟨stored, hmem, rfl⟩, hid⟩
    · rw [hres]
      intro b hb hbid
      have := hsave.1 b hb (by rw [hbid]; exact hid.symm)
      rw [this]

/-- C27 (defect): `changeBatchStatus` does not keep to the lifecycle that its
docstring gives (draft -> published -> ongoing -> completed / cancelled).  An
admin sets a completed batch back to draft, and a cancelled batch to ongoing:
both calls succeed and store the requested status, where the claim has them
fail with the stored status unchanged.  In general, for a caller who may
manage batches and a batch they can reach, every status among draft,
published, ongoing, completed and cancelled is accepted and stored whatever
the current status; only a status outside that list is refused, with the 400
error "Invalid status" and the collection unchanged. -/
theorem changeBatchStatus_ignores_lifecycle :
    changeBatchStatus ⟨100, 50⟩
        [{ weeklyBatch 1 7 ["Mon"] "10:00" "11:00" 0 1000 with status := "completed" }]
        (some ⟨some 1, "admin", none⟩) 1 "draft"
      = (Except.ok { weeklyBatch 1 7 ["Mon"] "10:00" "11:00" 0 1000 with
            status := "draft", updatedAt := 50 },
          [{ weeklyBatch 1 7 ["Mon"] "10:00" "11:00" 0 1000 with
            status := "draft", updatedAt := 50 }])
    ∧ changeBatchStatus ⟨100, 50⟩
        [{ weeklyBatch 1 7 ["Mon"] "10:00" "11:00" 0 1000 with status := "cancelled" }]
        (some ⟨some 1, "admin", none⟩) 1 "ongoing"
      = (Except.ok { weeklyBatch 1 7 ["Mon"] "10:00" "11:00" 0 1000 with
            status := "ongoing", updatedAt := 50 },
          [{ weeklyBatch 1 7 ["Mon"] "10:00" "11:00" 0 1000 with
            status := "ongoing", updatedAt := 50 }])
    ∧ (∀ (env : WriteEnv) (batches : List Batch) (currentUser : Option CurrentUser)
        (cu : CurrentUser) (batchId : Nat) (status : String),
        assertCanManageBatch currentUser = Except.ok cu →
        (status ∉ ["draft", "published", "ongoing", "completed", "cancelled"] →
          changeBatchStatus env batches currentUser batchId status
            = (Except.error (ServiceError.http 400 "Invalid status"), batches))
        ∧ (∀ stored : Batch,
          batches.find? (fun b => decide (b._id = batchId)) = some stored →
          batchOutOfScope cu stored = false →
          ¬ (cu.role = "educator" ∧ stored.educatorId ≠ cu.userId) →
          status ∈ ["draft", "published", "ongoing", "completed", "cancelled"] →
          changeBatchStatus env batches currentUser batchId status
              = (Except.ok { stored with status := status, updatedAt := env.now },
                  saveBatch batches { stored with status := status, updatedAt := env.now })
            ∧ (∃ b ∈ (changeBatchStatus env batches currentUser batchId status).2,
                b._id = batchId)
            ∧ ∀ b ∈ (changeBatchStatus env batches currentUser batchId status).2,
                b._id = batchId → b.status = status)) :=
  ⟨rfl, rfl, fun env batches currentUser cu batchId status hcan =>
    changeBatchStatus_listed_status env batches currentUser cu batchId status hcan⟩

/-! ## Strategy selection: theorems -/

theorem insertByCount_head (x : OrgUser × Nat) (l : List (OrgUser × Nat)) :
    (insertByCount x l).head? =
      (match l.head? with
       | none => some x
       | some y => if x.2 ≤ y.2 then some x else some y) := by
  cases l with
  | nil => rfl
  | cons y ys =>
    unfold insertByCount
    by_cases h : x.2 ≤ y.2 <;> simp [h]

/-- The head of the sorted entries is the first educator of least count. -/
theorem sortByCount_head (count : OrgUser → Nat) (l : List OrgUser) :
    match (sortByCount (l.map (fun e => (e, count e)))).head? with
    | none => l = []
    | some c => c.2 = count c.1
        ∧ ∃ pre post, l = pre ++ c.1 :: post ∧ (∀ x ∈ pre, count c.1 < count x)
          ∧ ∀ x ∈ post, count c.1 ≤ count x := by
  induction l with
  | nil => simp [sortByCount]
  | cons a rest ih =>
    simp only [List.map_cons, sortByCount]
    rw [insertByCount_head]
    cases hh : (sortByCount (rest.map (fun e => (e, count e)))).head? with
    | none =>
      rw [hh] at ih
      simp only at ih
      subst ih
      exact ⟨by simp, [], [], rfl, by simp, by simp⟩
    | some c =>
      rw [hh] at ih
      simp only at ih
      obtain ⟨hc, pre, post, hl, hpre, hpost⟩ := ih
      by_cases hle : count a ≤ c.2
      · simp only [hle, if_true]
        refine ⟨by simp, [], rest, rfl, by simp, ?_⟩
        intro x hx
        rw [hl] at hx
        simp only [List.mem_append, List.mem_cons] at hx
        rcases hx with hx | hx | hx
        · have := hpre x hx
          omega
        · rw [hx]
          omega
        · have := hpost x hx
          omega
      · simp only [hle, if_false]
        refine ⟨hc, a :: pre, post, by rw [hl]; rfl, ?_, hpost⟩
        intro x hx
        rcases List.mem_cons.mp hx with hx | hx
        · rw [hx]
          omega
        · exact hpre x hx

theorem activeBatchCount_eq_filter (batches : List Batch) (educatorId : Nat) :
    activeBatchCount batches educatorId
      = (batches.filter (fun b => decide (b.educatorId = some educatorId)
          && (decide (b.status = "published") || decide (b.status = "ongoing")))).length := by
  unfold activeBatchCount
  rw [List.countP_eq_length_filter]
  congr 2
  funext b
  simp [List.contains_cons, Bool.or_comm, eq_comm]

/-- C28: for a non-empty list of educators, `pickEducatorByStrategy` with
`least_batches` returns an educator of the list for whom the number of stored
batches that carry their `_id` as `educatorId` and have status published or
ongoing is least, the first of the list among those for whom it is least; for
an empty list, and for the strategy `manual`, it returns no educator. -/
theorem pickEducatorByStrategy_least_batches (randomIndex : Nat → Nat)
    (educators : List OrgUser) (batches : List Batch) (hne : educators ≠ []) :
    (∃ e pre post, pickEducatorByStrategy randomIndex educators "least_batches" batches
          = some e
        ∧ educators = pre ++ e :: post
        ∧ (∀ x ∈ educators,
            (batches.filter (fun b => decide (b.educatorId = some e._id)
              && (decide (b.status = "published") || decide (b.status = "ongoing")))).length
            ≤ (batches.filter (fun b => decide (b.educatorId = some x._id)
              && (decide (b.status = "published") || decide (b.status = "ongoing")))).length)
        ∧ (∀ x ∈ pre,
            (batches.filter (fun b => decide (b.educatorId = some e._id)
              && (decide (b.status = "published") || decide (b.status = "ongoing")))).length
            < (batches.filter (fun b => decide (b.educatorId = some x._id)
              && (decide (b.status = "published") || decide (b.status = "ongoing")))).length))
    ∧ pickEducatorByStrategy randomIndex [] "least_batches" batches = none
    ∧ pickEducatorByStrategy randomIndex educators "manual" batches = none
    ∧ pickEducatorByStrategy randomIndex [] "manual" batches = none := by
  refine ⟨?_, rfl, ?_, rfl⟩
  · have hlen : educators.length ≠ 0 := by
      intro h
      exact hne (List.length_eq_zero.mp h)
    have hhead := sortByCount_head (fun e => activeBatchCount batches e._id) educators
    unfold pickEducatorByStrategy
    simp only [hlen, if_false, if_true]
    cases hh : (sortByCount (educators.map
        (fun e => (e, activeBatchCount batches e._id)))).head? with
    | none =>
      rw [hh] at hhead
      exact absurd hhead hne
    | some c =>
      rw [hh] at hhead
      obtain ⟨_, pre, post, hl, hpre, hpost⟩ := hhead
      simp only [← activeBatchCount_eq_filter]
      refine ⟨c.1, pre, post, rfl, hl, ?_, hpre⟩
      intro x hx
      rw [hl] at hx
      simp only [List.mem_append, List.mem_cons] at hx
      rcases hx with hx | hx | hx
      · exact Nat.le_of_lt (hpre x hx)
      · rw [hx]
      · exact hpost x hx
  · unfold pickEducatorByStrategy
    split
    · rfl
    · simp

theorem pickEducatorByStrategy_least_batches_witness :
    [approvedEducator 7, approvedEducator 8, approvedEducator 9] ≠ []
    ∧ pickEducatorByStrategy (fun _ => 0)
        [approvedEducator 7, approvedEducator 8, approvedEducator 9] "least_batches"
        [weeklyBatch 1 7 ["Mon"] "10:00" "11:00" 0 1000,
          { weeklyBatch 2 8 ["Tue"] "10:00" "11:00" 0 1000 with status := "draft" },
          { weeklyBatch 3 8 ["Wed"] "10:00" "11:00" 0 1000 with status := "completed" },
          { weeklyBatch 4 9 ["Thu"] "10:00" "11:00" 0 1000 with status := "cancelled" }]
      = some (approvedEducator 8)
    ∧ pickEducatorByStrategy (fun _ => 0)
        [approvedEducator 7, approvedEducator 8, approvedEducator 9] "manual"
        [weeklyBatch 1 7 ["Mon"] "10:00" "11:00" 0 1000,
          { weeklyBatch 2 8 ["Tue"] "10:00" "11:00" 0 1000 with status := "draft" },
          { weeklyBatch 3 8 ["Wed"] "10:00" "11:00" 0 1000 with status := "completed" },
          { weeklyBatch 4 9 ["Thu"] "10:00" "11:00" 0 1000 with status := "cancelled" }]
      = none :=
  ⟨by simp, rfl,
    (pickEducatorByStrategy_least_batches (fun _ => 0)
      [approvedEducator 7, approvedEducator 8, approvedEducator 9]
      [weeklyBatch 1 7 ["Mon"] "10:00" "11:00" 0 1000,
        { weeklyBatch 2 8 ["Tue"] "10:00" "11:00" 0 1000 with status := "draft" },
        { weeklyBatch 3 8 ["Wed"] "10:00" "11:00" 0 1000 with status := "completed" },
        { weeklyBatch 4 9 ["Thu"] "10:00" "11:00" 0 1000 with status := "cancelled" }]
      (by simp)).2.2.1⟩

/-! ## Scan and session status -/

theorem updateFirst_mem {α : Type} (p : α → Bool) (f : α → α) (l : List α) (r : α)
    (hfind : l.find? p = some r) : f r ∈ updateFirst p f l := by
  induction l with
  | nil => simp at hfind
  | cons x xs ih =>
    unfold updateFirst
    by_cases hp : p x = true
    · simp only [List.find?_cons, hp, Option.some.injEq] at hfind
      subst hfind
      simp [hp]
    · simp only [Bool.not_eq_true] at hp
      simp only [List.find?_cons, hp] at hfind
      simp only [hp, Bool.false_eq_true, if_false]
      exact List.mem_cons_of_mem _ (ih hfind)

theorem findOneAndUpdate_written (env : AttendEnv) (records : List AttendanceRecord)
    (u : RecordUpdate) :
    (findOneAndUpdate env records u).1 ∈ (findOneAndUpdate env records u).2
    ∧ (findOneAndUpdate env records u).1.sessionId = u.sessionId
    ∧ (findOneAndUpdate env records u).1.learnerId = u.learnerId
    ∧ (findOneAndUpdate env records u).1.status = u.status
    ∧ (findOneAndUpdate env records u).1.source = u.source := by
  unfold findOneAndUpdate
  cases hfind : records.find? (hasKey u.sessionId u.learnerId) with
  | none => exact ⟨by simp, rfl, rfl, rfl, rfl⟩
  | some r => exact ⟨updateFirst_mem _ _ records r hfind, rfl, rfl, rfl, rfl⟩

theorem findSessionByToken_restatus (sessions : List AttendanceSession) (token : String)
    (f : AttendanceSession → String) :
    findSessionByToken (sessions.map (fun s => { s with status := f s })) token
      = (findSessionByToken sessions token).map (fun s => { s with status := f s }) := by
  unfold findSessionByToken
  induction sessions with
  | nil => rfl
  | cons x xs ih =>
    simp only [List.map_cons, List.find?_cons]
    cases hx : (decide (x.qrCodeToken = some token) && x.qrEnabled) with
    | true => simp
    | false => simpa using ih

/-- C30: the outcome of `markAttendanceByQr` is the same whatever statuses the
stored sessions carry; for a session with `qrEnabled`, the only one with its
token, of any status, a scan by a learner with an enrollment of status
pending, confirmed or completed in its batch succeeds and leaves in the
collection the returned record for that session and learner, present with
source `qr`. -/
theorem markAttendanceByQr_ignores_session_status (env : AttendEnv)
    (sessions : List AttendanceSession) (records : List AttendanceRecord)
    (enrollments : List Enrollment) (cu : CurrentUser) (token : String)
    (session : AttendanceSession) (learnerId : Nat)
    (hrole : cu.role = "learner") (huser : cu.userId = some learnerId)
    (hmem : session ∈ sessions) (htok : session.qrCodeToken = some token)
    (hen : session.qrEnabled = true)
    (honly : ∀ s ∈ sessions, s.qrCodeToken = some token → s.qrEnabled = true → s = session)
    (henr : ∃ e ∈ enrollments, e.batchId = session.batchId ∧ e.learnerId = learnerId
      ∧ e.status ∈ ["pending", "confirmed", "completed"]) :
    (∃ rec, (markAttendanceByQr env sessions records enrollments (some cu) token).1
          = Except.ok rec
        ∧ rec ∈ (markAttendanceByQr env sessions records enrollments (some cu) token).2
        ∧ rec.sessionId = session._id ∧ rec.learnerId = learnerId
        ∧ rec.status = "present" ∧ rec.source = "qr")
    ∧ (∀ f : AttendanceSession → String,
        markAttendanceByQr env (sessions.map (fun s => { s with status := f s })) records
            enrollments (some cu) token
          = markAttendanceByQr env sessions records enrollments (some cu) token) := by
  constructor
  · have hfind : findSessionByToken sessions token = some session := by
      cases hf : findSessionByToken sessions token with
      | none =>
        exact absurd ⟨session, hmem, htok, hen⟩
          ((findSessionByToken_none_iff sessions token).mp hf)
      | some s2 =>
        obtain ⟨hm2, ht2, he2⟩ := findSessionByToken_some sessions token s2 hf
        rw [honly s2 hm2 ht2 he2]
    have hsome := (findEnrollment_isSome_iff enrollments session.batchId learnerId).mpr henr
    cases he : findEnrollment enrollments session.batchId learnerId with
    | none => simp [he] at hsome
    | some enrollment =>
      have hw := findOneAndUpdate_written env records
        (qrUpdate env session enrollment learnerId)
      have hres : markAttendanceByQr env sessions records enrollments (some cu) token
          = (Except.ok (findOneAndUpdate env records
                (qrUpdate env session enrollment learnerId)).1,
              (findOneAndUpdate env records
                (qrUpdate env session enrollment learnerId)).2) := by
        simp [markAttendanceByQr, hrole, hfind, huser, he]
      rw [hres]
      exact ⟨_, rfl, hw.1, hw.2.1, hw.2.2.1, hw.2.2.2.1, hw.2.2.2.2⟩
  · intro f
    unfold markAttendanceByQr
    simp only [findSessionByToken_restatus]
    cases findSessionByToken sessions token with
    | none => rfl
    | some s => rfl

theorem markAttendanceByQr_ignores_session_status_witness :
    ∃ rec, (markAttendanceByQr ⟨100, 101, fun _ => 900⟩
          [qrSession 10 1 1704067200000 "tok" "closed"] [] [⟨1, 1, 5, "confirmed"⟩]
          (some ⟨some 5, "learner", none⟩) "tok").1 = Except.ok rec
        ∧ rec ∈ (markAttendanceByQr ⟨100, 101, fun _ => 900⟩
          [qrSession 10 1 1704067200000 "tok" "closed"] [] [⟨1, 1, 5, "confirmed"⟩]
          (some ⟨some 5, "learner", none⟩) "tok").2
        ∧ rec.sessionId = (qrSession 10 1 1704067200000 "tok" "closed")._id
        ∧ rec.learnerId = 5 ∧ rec.status = "present" ∧ rec.source = "qr" :=
  (markAttendanceByQr_ignores_session_status ⟨100, 101, fun _ => 900⟩
    [qrSession 10 1 1704067200000 "tok" "closed"] [] [⟨1, 1, 5, "confirmed"⟩]
    ⟨some 5, "learner", none⟩ "tok" (qrSession 10 1 1704067200000 "tok" "closed") 5
    rfl rfl (by simp) rfl rfl (by intro s hs _ _; simpa using hs)
    ⟨⟨1, 1, 5, "confirmed"⟩, by simp, rfl, rfl, by decide⟩).1

end Backend
